import Mathlib

/-!
# JSArrayBuffer / JSTypedArray (src/objects/js-array-buffer.cc)

A shallow embedding of the buffer / backing-store / extension lifecycle of
`js-array-buffer.cc`, of the two length routines for growable shared buffers,
of `JSTypedArray::DefineOwnProperty` and of `JSTypedArray::GetBuffer`.

Conventions of the embedding.

* Objects of the C++ heap that are reached through pointers and outlive the
  call that creates them (`ArrayBufferExtension`) live in a list held by the
  `Isolate`; a pointer is an index into that list and `none` is `nullptr`.
* A `std::shared_ptr<BackingStore>` is an `Option BackingStore`; the store is
  a record of the values its accessors return.
* A function that can abort returns `Except Failure _`. `CHECK` aborts in
  every build, `DCHECK` only when `Config.debug` is set.
* `size_t` values are `Nat`. The only arithmetic in the file is a subtraction
  guarded by `CHECK_GE` and a division, neither of which can wrap.
* `DefineOwnProperty` returns its `Maybe<bool>` as an `Outcome`, which keeps
  the strictness and the error of a `RETURN_FAILURE` exit, together with the
  view and the descriptor it leaves.
-/

namespace V8

/-- Ways in which a call can abort. -/
inductive Failure where
  /-- A `CHECK` / `CHECK_xx` failed (fatal in every build). -/
  | check
  /-- A `DCHECK` / `DCHECK_xx` failed (fatal in debug builds only). -/
  | dcheck
  /-- A null (or dangling) pointer was dereferenced. -/
  | null_deref
  /-- An integer division by zero. -/
  | div_by_zero
  /-- A `Handle<T>::cast` of an object that is not a `T`. -/
  | bad_cast
  /-- The `FatalProcessOutOfMemory` abort. -/
  | out_of_memory
  deriving DecidableEq

deriving instance DecidableEq for Except

/-- Build constants, flags and tables that `js-array-buffer.cc` uses and that
are declared in other files. They are parameters of the embedding. -/
structure Config where
  /-- Whether `DCHECK`s are compiled in. -/
  debug : Bool
  /-- The runtime flag `FLAG_harmony_rab_gsab`. -/
  FLAG_harmony_rab_gsab : Bool
  /-- The constant `JSArrayBuffer::kMaxByteLength`. -/
  kMaxByteLength : Nat
  /-- The constant `v8::ArrayBuffer::kEmbedderFieldCount`. -/
  kEmbedderFieldCount : Nat
  /-- The address returned by `EmptyBackingStoreBuffer()`. -/
  EmptyBackingStoreBuffer : Nat
  /-- The table `ElementsKindToByteSize`, from elements kind to element width. -/
  ElementsKindToByteSize : Nat → Nat

/-- The `SharedFlag` enum. -/
inductive SharedFlag where
  | kNotShared
  | kShared
  deriving DecidableEq

/-- The `ResizableFlag` enum. -/
inductive ResizableFlag where
  | kNotResizable
  | kResizable
  deriving DecidableEq

/-- A `BackingStore`, as seen through the accessors that
`js-array-buffer.cc` calls. `buffer_start` is an address (`0` is `nullptr`);
`IsEmpty` and `PerIsolateAccountingLength` are the results of the methods of
those names, which are defined elsewhere. `memory` is the content of the
region at `buffer_start`, byte by byte. -/
structure BackingStore where
  buffer_start : Nat
  byte_length : Nat
  max_byte_length : Nat
  is_shared : Bool
  is_resizable : Bool
  is_wasm_memory : Bool
  free_on_destruct : Bool
  IsEmpty : Bool
  PerIsolateAccountingLength : Nat
  memory : List Nat := []
  deriving DecidableEq

/-- An `ArrayBufferExtension`: the shared reference to the backing store
(`none` is the null `shared_ptr`) and the accounting length. -/
structure ArrayBufferExtension where
  backing_store : Option BackingStore
  accounting_length : Nat
  deriving DecidableEq

/-- A `JSArrayBuffer` object. The six booleans are the bits of `bit_field`;
`extension` is the pointer to the extension (an index into
`Isolate.extensions`, `none` for `nullptr`); `backing_store` is the cached raw
data pointer. -/
structure JSArrayBuffer where
  is_external : Bool
  is_detachable : Bool
  was_detached : Bool
  is_asmjs_memory : Bool
  is_shared : Bool
  is_resizable : Bool
  embedder_fields : List Nat
  extension : Option Nat
  backing_store : Nat
  byte_length : Nat
  max_byte_length : Nat
  deriving DecidableEq

/-- The process-wide state that the buffer operations read and write.

* `extensions`: the `ArrayBufferExtension` objects allocated so far; the
  pointer to an extension is its index.
* `array_buffer_extensions`: the heap's registry of extensions.
* `array_buffer_detaching_intact`: the detach protector.
* `invalidate_calls`: how many times the protector's invalidate operation
  has been invoked (a ghost counter).
* `shared_array_buffer_constructed`: the use counter
  `kSharedArrayBufferConstructed`. -/
structure Isolate where
  extensions : List ArrayBufferExtension
  array_buffer_extensions : List Nat
  array_buffer_detaching_intact : Bool
  invalidate_calls : Nat
  shared_array_buffer_constructed : Nat
  deriving DecidableEq

/-- `set_bit_field(v)` with `v = 0`: all six flags cleared. -/
def JSArrayBuffer.set_bit_field_zero (self : JSArrayBuffer) : JSArrayBuffer :=
  { self with
    is_external := false, is_detachable := false, was_detached := false,
    is_asmjs_memory := false, is_shared := false, is_resizable := false }

/-- `set_is_external(v)`. -/
def JSArrayBuffer.set_is_external (self : JSArrayBuffer) (v : Bool) : JSArrayBuffer :=
  { self with is_external := v }

/-- `set_is_detachable(v)`. -/
def JSArrayBuffer.set_is_detachable (self : JSArrayBuffer) (v : Bool) : JSArrayBuffer :=
  { self with is_detachable := v }

/-- `set_was_detached(v)`. -/
def JSArrayBuffer.set_was_detached (self : JSArrayBuffer) (v : Bool) : JSArrayBuffer :=
  { self with was_detached := v }

/-- `set_is_shared(v)`. -/
def JSArrayBuffer.set_is_shared (self : JSArrayBuffer) (v : Bool) : JSArrayBuffer :=
  { self with is_shared := v }

/-- `set_is_resizable(v)`. -/
def JSArrayBuffer.set_is_resizable (self : JSArrayBuffer) (v : Bool) : JSArrayBuffer :=
  { self with is_resizable := v }

/-- The loop `for (i < kEmbedderFieldCount) SetEmbedderField(i, Smi::zero())`. -/
def JSArrayBuffer.zero_embedder_fields (self : JSArrayBuffer) (count : Nat) : JSArrayBuffer :=
  { self with embedder_fields := List.replicate count 0 }

/-- `set_extension(p)`. -/
def JSArrayBuffer.set_extension (self : JSArrayBuffer) (p : Option Nat) : JSArrayBuffer :=
  { self with extension := p }

/-- `set_backing_store(isolate, address)`: the cached data pointer. -/
def JSArrayBuffer.set_backing_store (self : JSArrayBuffer) (address : Nat) : JSArrayBuffer :=
  { self with backing_store := address }

/-- `set_byte_length(n)`. -/
def JSArrayBuffer.set_byte_length (self : JSArrayBuffer) (n : Nat) : JSArrayBuffer :=
  { self with byte_length := n }

/-- `set_max_byte_length(n)`. -/
def JSArrayBuffer.set_max_byte_length (self : JSArrayBuffer) (n : Nat) : JSArrayBuffer :=
  { self with max_byte_length := n }

/-- `CHECK(c)`. -/
def CHECK (c : Bool) : Except Failure Unit :=
  if c then .ok () else .error .check

/-- `DCHECK(c)`: checked only in debug builds. -/
def DCHECK (cfg : Config) (c : Bool) : Except Failure Unit :=
  if cfg.debug && !c then .error .dcheck else .ok ()

/-- Modelled from the spec: `Heap::AppendArrayBufferExtension`, which is not
in this file. "Registered with the heap's global extension list on attach",
"`AppendExtension(buffer, extension)`, `DetachExtension(buffer, extension)`
(registry membership)", "an explicit external registry keyed by buffer
identity": the extension becomes a member of the registry; registering an
extension that is already a member leaves the registry as it is. -/
def AppendArrayBufferExtension (iso : Isolate) (_object : JSArrayBuffer) (extension : Nat) :
    Isolate :=
  { iso with
      array_buffer_extensions :=
        if extension ∈ iso.array_buffer_extensions then iso.array_buffer_extensions
        else iso.array_buffer_extensions ++ [extension] }

/-- Modelled from the spec: `Heap::DetachArrayBufferExtension`, which is not
in this file. "Removed from that list ... on detach": the extension no longer
occurs in the list. -/
def DetachArrayBufferExtension (iso : Isolate) (_object : JSArrayBuffer) (extension : Nat) :
    Isolate :=
  { iso with array_buffer_extensions := iso.array_buffer_extensions.filter (fun p => p != extension) }

/-- Modelled from the spec: `Protectors::IsArrayBufferDetachingIntact`, which
is not in this file: reads the process-wide flag. -/
def IsArrayBufferDetachingIntact (iso : Isolate) : Bool :=
  iso.array_buffer_detaching_intact

/-- Modelled from the spec: `Protectors::InvalidateArrayBufferDetaching`,
which is not in this file: the one-way transition `intact → invalidated`.
Each invocation is counted in `invalidate_calls`. -/
def InvalidateArrayBufferDetaching (iso : Isolate) : Isolate :=
  { iso with array_buffer_detaching_intact := false, invalidate_calls := iso.invalidate_calls + 1 }

/-- Modelled from the spec: `Isolate::CountUsage` for the feature
`kSharedArrayBufferConstructed`, which is not in this file (usage-counter
telemetry): the counter is incremented. -/
def CountUsage (iso : Isolate) : Isolate :=
  { iso with shared_array_buffer_constructed := iso.shared_array_buffer_constructed + 1 }

/-- The effect of `extension->set_accounting_length(bytes)` followed by
`extension->set_backing_store(std::move(backing_store))` on the extension
object at address `extension`. Dereferencing an address that holds no
extension aborts. -/
def set_accounting_length_and_backing_store (iso : Isolate) (extension : Nat) (bytes : Nat)
    (backing_store : BackingStore) : Except Failure Isolate :=
  match iso.extensions[extension]? with
  | none => .error .null_deref
  | some _ =>
    let e : ArrayBufferExtension := { backing_store := some backing_store, accounting_length := bytes }
    .ok { iso with extensions := iso.extensions.set extension e }

/-- Modelled from the spec: `ArrayBufferExtension::RemoveBackingStore`, which
is not in this file: "its store reference is released (the Extension itself is
cleared, not freed)". Returns the store the extension held and leaves the
extension holding none. -/
def RemoveBackingStore (iso : Isolate) (extension : Nat) :
    Except Failure (Isolate × Option BackingStore) :=
  match iso.extensions[extension]? with
  | none => .error .null_deref
  | some e =>
    let cleared : ArrayBufferExtension := { e with backing_store := none }
    .ok ({ iso with extensions := iso.extensions.set extension cleared }, e.backing_store)

/-- `JSArrayBuffer::EnsureExtension` (lines 150-157): returns the existing
extension, or allocates one with a null store and records it in the
buffer. -/
def EnsureExtension (iso : Isolate) (self : JSArrayBuffer) : Isolate × JSArrayBuffer × Nat :=
  match self.extension with
  | some extension => (iso, self, extension)
  | none =>
    let extension := iso.extensions.length
    let fresh : ArrayBufferExtension := { backing_store := none, accounting_length := 0 }
    ({ iso with extensions := iso.extensions ++ [fresh] },
     self.set_extension (some extension),
     extension)

/-- `JSArrayBuffer::RemoveExtension` (lines 159-167). -/
def RemoveExtension (cfg : Config) (iso : Isolate) (self : JSArrayBuffer) :
    Except Failure (Isolate × JSArrayBuffer × Option BackingStore) := do
  DCHECK cfg self.extension.isSome
  match self.extension with
  | none => .error .null_deref
  | some extension =>
    let (iso, result) ← RemoveBackingStore iso extension
    pure (iso, self.set_extension none, result)

/-- `JSArrayBuffer::Attach` (lines 71-104). The argument is a non-null
`shared_ptr`, so `DCHECK_NOT_NULL(backing_store)` holds by typing. -/
def Attach (cfg : Config) (iso : Isolate) (self : JSArrayBuffer) (backing_store : BackingStore) :
    Except Failure (Isolate × JSArrayBuffer) := do
  DCHECK cfg (self.is_shared == backing_store.is_shared)
  DCHECK cfg (self.is_resizable == backing_store.is_resizable)
  DCHECK cfg (!(!backing_store.is_wasm_memory && !backing_store.is_resizable) ||
    backing_store.byte_length == backing_store.max_byte_length)
  DCHECK cfg (!self.was_detached)
  let self ←
    (if backing_store.IsEmpty then
      pure (self.set_backing_store cfg.EmptyBackingStoreBuffer)
    else do
      DCHECK cfg (backing_store.buffer_start != 0)
      pure (self.set_backing_store backing_store.buffer_start) : Except Failure JSArrayBuffer)
  let self ←
    (if self.is_shared && self.is_resizable then
      pure (self.set_byte_length 0)
    else do
      CHECK (backing_store.byte_length ≤ cfg.kMaxByteLength)
      pure (self.set_byte_length backing_store.byte_length) : Except Failure JSArrayBuffer)
  let self := self.set_max_byte_length backing_store.max_byte_length
  let self := if backing_store.is_wasm_memory then self.set_is_detachable false else self
  let self := if !backing_store.free_on_destruct then self.set_is_external true else self
  let (iso, self, extension) := EnsureExtension iso self
  let bytes := backing_store.PerIsolateAccountingLength
  let iso ← set_accounting_length_and_backing_store iso extension bytes backing_store
  let iso := AppendArrayBufferExtension iso self extension
  pure (iso, self)

/-- `JSArrayBuffer::Setup` (lines 47-69). `self` is the object being
initialised; `clear_padding()` has no effect on the fields modelled. -/
def Setup (cfg : Config) (iso : Isolate) (self : JSArrayBuffer) (shared : SharedFlag)
    (resizable : ResizableFlag) (backing_store : Option BackingStore) :
    Except Failure (Isolate × JSArrayBuffer) := do
  let self := self.set_bit_field_zero
  let self := self.set_is_shared (decide (shared = SharedFlag.kShared))
  let self := self.set_is_resizable (decide (resizable = ResizableFlag.kResizable))
  let self := self.set_is_detachable (decide (shared ≠ SharedFlag.kShared))
  let self := self.zero_embedder_fields cfg.kEmbedderFieldCount
  let self := self.set_extension none
  let (iso, self) ←
    match backing_store with
    | none =>
      pure (f := Except Failure)
        (iso, ((self.set_backing_store cfg.EmptyBackingStoreBuffer).set_byte_length 0).set_max_byte_length 0)
    | some backing_store => Attach cfg iso self backing_store
  let iso := if shared = SharedFlag.kShared then CountUsage iso else iso
  pure (iso, self)

/-- `JSArrayBuffer::Detach` (lines 106-135). The two early returns of the
source are the first two branches. `CHECK_IMPLIES(force_for_wasm_memory,
backing_store->is_wasm_memory())` dereferences the removed store only when
`force_for_wasm_memory` is set. -/
def Detach (cfg : Config) (iso : Isolate) (self : JSArrayBuffer) (force_for_wasm_memory : Bool) :
    Except Failure (Isolate × JSArrayBuffer) :=
  if self.was_detached then .ok (iso, self)
  else if !force_for_wasm_memory && !self.is_detachable then .ok (iso, self)
  else do
    let (iso, self) ←
      match self.extension with
      | none => pure (f := Except Failure) (iso, self)
      | some extension => do
        let iso := DetachArrayBufferExtension iso self extension
        let (iso, self, backing_store) ← RemoveExtension cfg iso self
        (if force_for_wasm_memory then
          match backing_store with
          | none => throw Failure.null_deref
          | some backing_store => CHECK backing_store.is_wasm_memory
         else pure () : Except Failure Unit)
        pure (iso, self)
    let iso :=
      if IsArrayBufferDetachingIntact iso then InvalidateArrayBufferDetaching iso else iso
    DCHECK cfg (!self.is_shared)
    DCHECK cfg (!self.is_asmjs_memory)
    let self := self.set_backing_store cfg.EmptyBackingStoreBuffer
    let self := self.set_byte_length 0
    let self := self.set_was_detached true
    pure (iso, self)

/-- Modelled from the spec: `JSArrayBuffer::GetBackingStore`, which is not in
this file: the store held by the buffer's extension, null when the buffer has
no extension or the extension holds no store. -/
def GetBackingStore (iso : Isolate) (self : JSArrayBuffer) : Option BackingStore :=
  match self.extension with
  | none => none
  | some extension =>
    match iso.extensions[extension]? with
    | none => none
    | some e => e.backing_store

/-- `JSArrayBuffer::GsabByteLength` (lines 137-148). The buffer is passed
directly instead of as a raw address. The function only reads. -/
def GsabByteLength (cfg : Config) (iso : Isolate) (buffer : JSArrayBuffer) : Except Failure Nat := do
  DCHECK cfg cfg.FLAG_harmony_rab_gsab
  CHECK buffer.is_resizable
  CHECK buffer.is_shared
  match GetBackingStore iso buffer with
  | none => throw Failure.null_deref
  | some backing_store => pure backing_store.byte_length

/-- A `Handle<Object>` that is a name or a number, which is what
`JSTypedArray::DefineOwnProperty` asserts of its key (line 239). A heap number
is given by the bit pattern of its double. -/
inductive Object where
  | smi (value : Int)
  | heap_number (bits : Nat)
  | string (value : String)
  | symbol (id : Nat)
  deriving DecidableEq

/-- A `Handle<Object>` carried by a property descriptor (a value, a getter or
a setter): any script value, known here only by its identity. -/
structure Value where
  id : Nat
  deriving DecidableEq

/-- `PropertyAttributes`, by the three attributes it encodes (`NONE` is all
three true). -/
structure PropertyAttributes where
  writable : Bool
  enumerable : Bool
  configurable : Bool
  deriving DecidableEq

/-- One invocation of the element write `DefineOwnPropertyIgnoreAttributes`:
its index, value and attributes. -/
structure ElementWrite where
  index : Nat
  value : Value
  attributes : PropertyAttributes
  deriving DecidableEq

/-- A `JSTypedArray`, as seen through the accessors that `js-array-buffer.cc`
calls.

* `length` and `out_of_bounds` are what `GetLengthOrOutOfBounds` returns.
* `byte_length` is the view's `byte_length()`.
* `on_heap` is `is_on_heap()`; `elements` is the inline data of an on-heap
  view, byte by byte (empty for `empty_byte_array`); `data_pointer` is the
  off-heap data pointer.
* `element_values` is what the elements read as, most recent write first;
  `element_writes` records the invocations of the element write. -/
structure JSTypedArray where
  is_length_tracking : Bool
  buffer : JSArrayBuffer
  byte_offset : Nat
  elements_kind : Nat
  length : Nat := 0
  out_of_bounds : Bool := false
  byte_length : Nat := 0
  on_heap : Bool := false
  elements : List Nat := []
  data_pointer : Nat := 0
  element_values : List (Nat × Value) := []
  element_writes : List ElementWrite := []
  deriving DecidableEq

/-- `JSTypedArray::LengthTrackingGsabBackedTypedArrayLength` (lines 334-351).
The array is passed directly instead of as a raw address. -/
def LengthTrackingGsabBackedTypedArrayLength (cfg : Config) (iso : Isolate) (array : JSTypedArray) :
    Except Failure Nat := do
  DCHECK cfg cfg.FLAG_harmony_rab_gsab
  CHECK array.is_length_tracking
  let buffer := array.buffer
  CHECK buffer.is_resizable
  CHECK buffer.is_shared
  let backing_byte_length ←
    match GetBackingStore iso buffer with
    | none => throw Failure.null_deref
    | some backing_store => pure (f := Except Failure) backing_store.byte_length
  CHECK (decide (backing_byte_length ≥ array.byte_offset))
  let element_byte_size := cfg.ElementsKindToByteSize array.elements_kind
  if element_byte_size = 0 then throw Failure.div_by_zero
  pure ((backing_byte_length - array.byte_offset) / element_byte_size)

/-! ## Definitions used to state the properties -/

/-- The conjunction of the assertions at the head of `Attach` (lines 73-78). -/
def AttachPreconditions (self : JSArrayBuffer) (backing_store : BackingStore) : Bool :=
  (self.is_shared == backing_store.is_shared) &&
  (self.is_resizable == backing_store.is_resizable) &&
  (!(!backing_store.is_wasm_memory && !backing_store.is_resizable) ||
    backing_store.byte_length == backing_store.max_byte_length) &&
  !self.was_detached

/-- The buffer that a completed `Attach` leaves. -/
def AttachedBuffer (cfg : Config) (iso : Isolate) (self : JSArrayBuffer) (bs : BackingStore) : JSArrayBuffer :=
  { self with
      backing_store := if bs.IsEmpty then cfg.EmptyBackingStoreBuffer else bs.buffer_start
      byte_length := if self.is_shared && self.is_resizable then 0 else bs.byte_length
      max_byte_length := bs.max_byte_length
      is_detachable := self.is_detachable && !bs.is_wasm_memory
      is_external := self.is_external || !bs.free_on_destruct
      extension := some (self.extension.getD iso.extensions.length) }

/-- The isolate that a completed `Attach` leaves. -/
def AttachedIsolate (iso : Isolate) (self : JSArrayBuffer) (bs : BackingStore) : Isolate :=
  { iso with
      extensions :=
        match self.extension with
        | some p => iso.extensions.set p ⟨some bs, bs.PerIsolateAccountingLength⟩
        | none => iso.extensions ++ [⟨some bs, bs.PerIsolateAccountingLength⟩]
      array_buffer_extensions :=
        if self.extension.getD iso.extensions.length ∈ iso.array_buffer_extensions then
          iso.array_buffer_extensions
        else iso.array_buffer_extensions ++ [self.extension.getD iso.extensions.length] }

/-- Whether `Detach` returns early (lines 107-114): the buffer is already
detached, or it is not detachable and the call is not forced. -/
def DetachIsNoOp (self : JSArrayBuffer) (force_for_wasm_memory : Bool) : Bool :=
  self.was_detached || (!force_for_wasm_memory && !self.is_detachable)

/-- The buffer that a `Detach` that does not return early leaves. -/
def DetachedBuffer (cfg : Config) (self : JSArrayBuffer) : JSArrayBuffer :=
  { self with
      extension := none
      backing_store := cfg.EmptyBackingStoreBuffer
      byte_length := 0
      was_detached := true }

/-- The isolate that a `Detach` that does not return early leaves. -/
def DetachedIsolate (iso : Isolate) (self : JSArrayBuffer) : Isolate :=
  { iso with
      extensions :=
        match self.extension with
        | none => iso.extensions
        | some p =>
          match iso.extensions[p]? with
          | none => iso.extensions
          | some e => iso.extensions.set p { e with backing_store := none }
      array_buffer_extensions :=
        match self.extension with
        | none => iso.array_buffer_extensions
        | some p => iso.array_buffer_extensions.filter (fun q => q != p)
      array_buffer_detaching_intact := false
      invalidate_calls :=
        if iso.array_buffer_detaching_intact then iso.invalidate_calls + 1 else iso.invalidate_calls }

/-- The buffer after the unconditional initialisation at the head of `Setup`
(lines 49-57). -/
def InitialisedBuffer (cfg : Config) (self : JSArrayBuffer) (shared : SharedFlag)
    (resizable : ResizableFlag) : JSArrayBuffer :=
  (((((self.set_bit_field_zero).set_is_shared (decide (shared = SharedFlag.kShared))).set_is_resizable
    (decide (resizable = ResizableFlag.kResizable))).set_is_detachable
    (decide (shared ≠ SharedFlag.kShared))).zero_embedder_fields cfg.kEmbedderFieldCount).set_extension none

/-- The states of one buffer that are reachable in an isolate that starts as
`iso0`: `Setup` first, then any sequence of completed `Attach` and `Detach`
calls. `P` is the condition under which `Attach` is called. -/
inductive Reach (cfg : Config) (iso0 : Isolate) (P : JSArrayBuffer → BackingStore → Prop) :
    Isolate → JSArrayBuffer → Prop where
  | setup (self : JSArrayBuffer) (shared : SharedFlag) (resizable : ResizableFlag)
      (backing_store : Option BackingStore) (iso : Isolate) (buf : JSArrayBuffer) :
      Setup cfg iso0 self shared resizable backing_store = .ok (iso, buf) →
      Reach cfg iso0 P iso buf
  | attach (iso : Isolate) (buf : JSArrayBuffer) (backing_store : BackingStore) (iso' : Isolate)
      (buf' : JSArrayBuffer) :
      Reach cfg iso0 P iso buf → P buf backing_store →
      Attach cfg iso buf backing_store = .ok (iso', buf') →
      Reach cfg iso0 P iso' buf'
  | detach (iso : Isolate) (buf : JSArrayBuffer) (force_for_wasm_memory : Bool) (iso' : Isolate)
      (buf' : JSArrayBuffer) :
      Reach cfg iso0 P iso buf →
      Detach cfg iso buf force_for_wasm_memory = .ok (iso', buf') →
      Reach cfg iso0 P iso' buf'

/-- `Attach` is called with the assertions at its head satisfied. -/
def UnderPreconditions : JSArrayBuffer → BackingStore → Prop :=
  fun self backing_store => AttachPreconditions self backing_store = true

/-- `Attach` is called on any buffer with any store. -/
def Unconditionally : JSArrayBuffer → BackingStore → Prop :=
  fun _ _ => True

/-! ## Concrete inputs -/

/-- A debug build (assertions compiled in) with the feature flag on. -/
def debugBuild : Config :=
  { debug := true, FLAG_harmony_rab_gsab := true, kMaxByteLength := 4294967295,
    kEmbedderFieldCount := 2, EmptyBackingStoreBuffer := 4096,
    ElementsKindToByteSize := fun kind => 2 ^ (kind % 4) }

/-- A release build (assertions compiled out) with the feature flag on. -/
def releaseBuild : Config :=
  { debugBuild with debug := false }

/-- An isolate with no extension allocated and the detach protector intact. -/
def freshIsolate : Isolate :=
  { extensions := [], array_buffer_extensions := [], array_buffer_detaching_intact := true,
    invalidate_calls := 0, shared_array_buffer_constructed := 0 }

/-- An object that has not been set up yet. -/
def rawBuffer : JSArrayBuffer :=
  { is_external := false, is_detachable := false, was_detached := false, is_asmjs_memory := false,
    is_shared := false, is_resizable := false, embedder_fields := [], extension := none,
    backing_store := 0, byte_length := 0, max_byte_length := 0 }

/-- An ordinary store of 8 bytes at address 1000. -/
def storeA : BackingStore :=
  { buffer_start := 1000, byte_length := 8, max_byte_length := 8, is_shared := false,
    is_resizable := false, is_wasm_memory := false, free_on_destruct := true, IsEmpty := false,
    PerIsolateAccountingLength := 8 }

/-- An ordinary store of 16 bytes at address 2000. -/
def storeB : BackingStore :=
  { buffer_start := 2000, byte_length := 16, max_byte_length := 16, is_shared := false,
    is_resizable := false, is_wasm_memory := false, free_on_destruct := true, IsEmpty := false,
    PerIsolateAccountingLength := 16 }

/-- An empty store: no memory region, null start address. -/
def storeEmpty : BackingStore :=
  { buffer_start := 0, byte_length := 0, max_byte_length := 0, is_shared := false,
    is_resizable := false, is_wasm_memory := false, free_on_destruct := true, IsEmpty := true,
    PerIsolateAccountingLength := 0 }

/-- A growable shared store: 32 bytes in use out of 64. -/
def storeGsab : BackingStore :=
  { buffer_start := 3000, byte_length := 32, max_byte_length := 64, is_shared := true,
    is_resizable := true, is_wasm_memory := false, free_on_destruct := true, IsEmpty := false,
    PerIsolateAccountingLength := 0 }

/-- The buffer `Setup(kNotShared, kNotResizable, nullptr)` leaves. -/
def plainBuffer : JSArrayBuffer :=
  { rawBuffer with is_detachable := true, embedder_fields := [0, 0], backing_store := 4096 }

/-- The buffer `plainBuffer` after `Attach(storeA)`. -/
def attachedBuffer : JSArrayBuffer :=
  { plainBuffer with extension := some 0, backing_store := 1000, byte_length := 8,
                     max_byte_length := 8 }

/-- The isolate after `Attach(storeA)` on `plainBuffer` in `freshIsolate`. -/
def attachedIsolate : Isolate :=
  { freshIsolate with extensions := [{ backing_store := some storeA, accounting_length := 8 }],
                      array_buffer_extensions := [0] }

/-- The buffer `attachedBuffer` after `Detach`. -/
def detachedBuffer : JSArrayBuffer :=
  { plainBuffer with was_detached := true, max_byte_length := 8 }

/-- The isolate after `Detach` on `attachedBuffer` in `attachedIsolate`. -/
def detachedIsolate : Isolate :=
  { extensions := [{ backing_store := none, accounting_length := 8 }],
    array_buffer_extensions := [], array_buffer_detaching_intact := false,
    invalidate_calls := 1, shared_array_buffer_constructed := 0 }

/-- The number of extension objects of the isolate that hold a reference to
the store `s`: the part of the store's `shared_ptr` use count that the
buffers of this isolate account for. -/
def use_count (iso : Isolate) (s : BackingStore) : Nat :=
  iso.extensions.countP (fun e => decide (e.backing_store = some s))

/-- The buffer `Setup(kShared, kResizable, storeGsab)` leaves. -/
def gsabBuffer : JSArrayBuffer :=
  { rawBuffer with is_shared := true, is_resizable := true, embedder_fields := [0, 0],
                   extension := some 0, backing_store := 3000, byte_length := 0,
                   max_byte_length := 64 }

/-- The isolate after `Setup(kShared, kResizable, storeGsab)` in `freshIsolate`. -/
def gsabIsolate : Isolate :=
  { freshIsolate with extensions := [{ backing_store := some storeGsab, accounting_length := 0 }],
                      array_buffer_extensions := [0], shared_array_buffer_constructed := 1 }

/-- A sequence of `Detach` calls on arbitrary buffers, each with its own
`force_for_wasm_memory`, run against the process-wide state. A call that
aborts ends the run. -/
def DetachAll (cfg : Config) (iso : Isolate) : List (JSArrayBuffer × Bool) → Isolate
  | [] => iso
  | (buffer, force_for_wasm_memory) :: rest =>
    match Detach cfg iso buffer force_for_wasm_memory with
    | .ok (iso', _) => DetachAll cfg iso' rest
    | .error _ => iso

/-- The registry of the isolate holds only extensions that have been
allocated. -/
def RegistryAllocated (iso : Isolate) : Prop :=
  ∀ q ∈ iso.array_buffer_extensions, q < iso.extensions.length

/-- The buffer `Setup(kShared, kResizable, nullptr)` leaves: shared and
resizable, with no extension and so no backing store. -/
def gsabBufferWithoutStore : JSArrayBuffer :=
  { rawBuffer with is_shared := true, is_resizable := true, embedder_fields := [0, 0],
                   backing_store := 4096 }

/-- A length-tracking view of two-byte elements at byte offset 3 over
`gsabBuffer`. -/
def trackingArray : JSTypedArray :=
  { is_length_tracking := true, buffer := gsabBuffer, byte_offset := 3, elements_kind := 1 }

/-- The states reachable from a given state of one buffer by completed
`Attach` calls (any store, no condition) and completed `Detach` calls; a
forced `Detach` is a step only when `allow_forced` is set. -/
inductive Steps (cfg : Config) (allow_forced : Bool) :
    Isolate → JSArrayBuffer → Isolate → JSArrayBuffer → Prop where
  | refl (iso : Isolate) (buf : JSArrayBuffer) : Steps cfg allow_forced iso buf iso buf
  | attach (iso : Isolate) (buf : JSArrayBuffer) (iso1 : Isolate) (buf1 : JSArrayBuffer)
      (backing_store : BackingStore) (iso2 : Isolate) (buf2 : JSArrayBuffer) :
      Steps cfg allow_forced iso buf iso1 buf1 →
      Attach cfg iso1 buf1 backing_store = .ok (iso2, buf2) →
      Steps cfg allow_forced iso buf iso2 buf2
  | detach (iso : Isolate) (buf : JSArrayBuffer) (iso1 : Isolate) (buf1 : JSArrayBuffer)
      (force_for_wasm_memory : Bool) (iso2 : Isolate) (buf2 : JSArrayBuffer) :
      Steps cfg allow_forced iso buf iso1 buf1 →
      (force_for_wasm_memory = true → allow_forced = true) →
      Detach cfg iso1 buf1 force_for_wasm_memory = .ok (iso2, buf2) →
      Steps cfg allow_forced iso buf iso2 buf2

/-- A wasm memory store (not detachable through an ordinary `Detach`), whose
memory the store does not free. -/
def storeWasm : BackingStore :=
  { buffer_start := 5000, byte_length := 65536, max_byte_length := 131072, is_shared := false,
    is_resizable := false, is_wasm_memory := true, free_on_destruct := false, IsEmpty := false,
    PerIsolateAccountingLength := 65536 }

/-- The buffer `plainBuffer` after `Attach(storeWasm)`. -/
def wasmBuffer : JSArrayBuffer :=
  { plainBuffer with is_detachable := false, is_external := true, extension := some 0,
                     backing_store := 5000, byte_length := 65536, max_byte_length := 131072 }

/-- The isolate after `Attach(storeWasm)` on `plainBuffer` in `freshIsolate`. -/
def wasmIsolate : Isolate :=
  { freshIsolate with
      extensions := [{ backing_store := some storeWasm, accounting_length := 65536 }],
      array_buffer_extensions := [0] }

/-- The store `storeGsab` after another thread has grown it to 48 bytes. -/
def storeGsabGrown : BackingStore :=
  { storeGsab with byte_length := 48 }

/-- The isolate `gsabIsolate` once the store has grown to 48 bytes. -/
def gsabIsolateGrown : Isolate :=
  { gsabIsolate with
      extensions := [{ backing_store := some storeGsabGrown, accounting_length := 0 }] }

/-! ## `JSTypedArray::DefineOwnProperty` -/

/-- `Object::IsSmi`. -/
def Object.IsSmi : Object → Bool
  | .smi _ => true
  | _ => false

/-- `Object::IsString`. -/
def Object.IsString : Object → Bool
  | .string _ => true
  | _ => false

/-- `Object::IsMinusZero`: a heap number whose double is `-0.0`, that is, only
the sign bit is set. -/
def Object.IsMinusZero : Object → Bool
  | .heap_number bits => bits == 2 ^ 63
  | _ => false

/-- The `ShouldThrow` enum. -/
inductive ShouldThrow where
  | kThrowOnError
  | kDontThrow
  deriving DecidableEq

/-- The message templates that `js-array-buffer.cc` names. -/
inductive MessageTemplate where
  | kInvalidTypedArrayIndex
  | kRedefineDisallowed
  deriving DecidableEq

/-- An exception object: a type error made by `NewTypeError(template, arg)`,
or an exception raised by code outside this file, which is a type error of its
own (`RaisedTypeError`) or of another class (`Raised`). -/
inductive Exception where
  | TypeError (template : MessageTemplate) (arg : Option Object)
  | RaisedTypeError (id : Nat)
  | Raised (id : Nat)
  deriving DecidableEq

/-- Whether the exception is a type error. -/
def Exception.IsTypeError : Exception → Bool
  | .TypeError _ _ => true
  | .RaisedTypeError _ => true
  | .Raised _ => false

/-- What a call that returns `Maybe<bool>` does.

* `Just b`: it returns `Just(b)`.
* `Nothing e`: it returns `Nothing<bool>()` with the exception `e` pending.
* `ReturnFailure should_throw e`: it leaves through
  `RETURN_FAILURE(isolate, should_throw, e)`. -/
inductive Outcome where
  | Just (value : Bool)
  | Nothing (pending : Exception)
  | ReturnFailure (should_throw : ShouldThrow) (error : Exception)
  deriving DecidableEq

/-- Modelled from the spec: the macro `RETURN_FAILURE`, which is not in this
file: "the failure is either thrown or silently reported as 'did not
succeed', depending on a caller-supplied strictness flag". The `Maybe<bool>`
the caller receives. -/
def Outcome.result : Outcome → Option Bool
  | .Just value => some value
  | .Nothing _ => none
  | .ReturnFailure .kDontThrow _ => some false
  | .ReturnFailure .kThrowOnError _ => none

/-- Modelled from the spec: the macro `RETURN_FAILURE`, which is not in this
file. The exception that is pending when the call returns. -/
def Outcome.pending_exception : Outcome → Option Exception
  | .Just _ => none
  | .Nothing pending => some pending
  | .ReturnFailure .kDontThrow _ => none
  | .ReturnFailure .kThrowOnError error => some error

/-- A `PropertyKey`: whether the key is an element index, the index, and the
name. -/
structure PropertyKey where
  is_element : Bool
  index : Nat
  name : Object
  deriving DecidableEq

/-- A `PropertyDescriptor`. A field that the descriptor does not have
(`has_configurable()` false, and so on) is `none`. -/
structure PropertyDescriptor where
  enumerable : Option Bool
  configurable : Option Bool
  writable : Option Bool
  value : Option Value
  get : Option Value
  set : Option Value
  deriving DecidableEq

/-- `desc->has_configurable()`. -/
def PropertyDescriptor.has_configurable (desc : PropertyDescriptor) : Bool :=
  desc.configurable.isSome

/-- `desc->has_enumerable()`. -/
def PropertyDescriptor.has_enumerable (desc : PropertyDescriptor) : Bool :=
  desc.enumerable.isSome

/-- `desc->has_writable()`. -/
def PropertyDescriptor.has_writable (desc : PropertyDescriptor) : Bool :=
  desc.writable.isSome

/-- `desc->has_value()`. -/
def PropertyDescriptor.has_value (desc : PropertyDescriptor) : Bool :=
  desc.value.isSome

/-- `desc->set_configurable(v)`. -/
def PropertyDescriptor.set_configurable (desc : PropertyDescriptor) (v : Bool) :
    PropertyDescriptor :=
  { desc with configurable := some v }

/-- `desc->set_enumerable(v)`. -/
def PropertyDescriptor.set_enumerable (desc : PropertyDescriptor) (v : Bool) :
    PropertyDescriptor :=
  { desc with enumerable := some v }

/-- `desc->set_writable(v)`. -/
def PropertyDescriptor.set_writable (desc : PropertyDescriptor) (v : Bool) :
    PropertyDescriptor :=
  { desc with writable := some v }

/-- Modelled from the spec: `PropertyDescriptor::IsAccessorDescriptor`, which
is not in this file: the descriptor has a getter or a setter. -/
def PropertyDescriptor.IsAccessorDescriptor (desc : PropertyDescriptor) : Bool :=
  desc.get.isSome || desc.set.isSome

/-- Modelled from the spec: `PropertyDescriptor::ToAttributes`, which is not
in this file: an attribute is off only when the descriptor has the field and
the field is false. -/
def PropertyDescriptor.ToAttributes (desc : PropertyDescriptor) : PropertyAttributes :=
  { writable := !(desc.writable == some false),
    enumerable := !(desc.enumerable == some false),
    configurable := !(desc.configurable == some false) }

/-- What `JSTypedArray::DefineOwnProperty` leaves: the outcome, the view, and
the descriptor behind the `PropertyDescriptor*` it was given. -/
structure DefineOwnPropertyResult where
  outcome : Outcome
  o : JSTypedArray
  desc : PropertyDescriptor
  deriving DecidableEq

/-- Modelled from the spec: the effects of coercing the value of an element
write, which runs code outside this file: "execution of value coercion before
the write could have triggered detachment or a resize".

* `exception`: the exception the coercion raises, if it raises one.
* `detaches`: whether the coercion detaches the buffer of the view.
* `resizes`: when the coercion resizes the buffer, the length of the view and
  whether it is out of bounds afterwards. -/
structure Coercion where
  exception : Option Exception
  detaches : Bool
  resizes : Option (Nat × Bool)
  deriving DecidableEq

/-- The parts of the object model that `JSTypedArray::DefineOwnProperty` calls
and that are defined in other files. They are parameters of the embedding.

* `AsIntegerIndex`: the element index that `PropertyKey` finds in a key, if
  the key is one.
* `kInvalidIndex`: the `index()` of a `PropertyKey` that is not an element.
* `ToNumber`: `String::ToNumber`.
* `ToString`: `Object::ToString` on a number.
* `language_mode`: what `GetShouldThrow` answers when the caller passes
  `Nothing<ShouldThrow>()`.
* `ValueCoercion`: what coercing a value for an element write does.
* `OrdinaryDefineOwnProperty`: `JSReceiver::OrdinaryDefineOwnProperty`. -/
structure Runtime where
  AsIntegerIndex : Object → Option Nat
  kInvalidIndex : Nat
  ToNumber : String → Object
  ToString : Object → String
  language_mode : ShouldThrow
  ValueCoercion : Value → Coercion
  OrdinaryDefineOwnProperty :
    JSTypedArray → PropertyKey → PropertyDescriptor → Option ShouldThrow → DefineOwnPropertyResult

/-- Modelled from the spec: the constructor `PropertyKey(isolate, key)`, which
is not in this file: "an integer key is canonical by construction". A key
that is an element index is an element; any other key is a name, the key
itself when it is a string or a symbol and its string form when it is a
number. -/
def PropertyKey.of (rt : Runtime) (key : Object) : PropertyKey :=
  match rt.AsIntegerIndex key with
  | some index => { is_element := true, index := index, name := key }
  | none =>
    { is_element := false, index := rt.kInvalidIndex,
      name :=
        match key with
        | .smi _ => .string (rt.ToString key)
        | .heap_number _ => .string (rt.ToString key)
        | _ => key }

/-- Modelled from the spec: `GetShouldThrow`, which is not in this file: "a
caller-supplied strictness flag"; when the caller supplies none, the language
mode of the running code decides. -/
def GetShouldThrow (rt : Runtime) (should_throw : Option ShouldThrow) : ShouldThrow :=
  match should_throw with
  | some mode => mode
  | none => rt.language_mode

/-- `NewTypeError(template)` and `NewTypeError(template, arg)`. -/
def NewTypeError (template : MessageTemplate) (arg : Option Object) : Exception :=
  .TypeError template arg

/-- `RETURN_FAILURE(isolate, should_throw, error)`. -/
def RETURN_FAILURE (should_throw : ShouldThrow) (error : Exception) : Outcome :=
  .ReturnFailure should_throw error

/-- Modelled from the spec: `JSTypedArray::WasDetached`, which is not in this
file: the view's buffer is detached. -/
def JSTypedArray.WasDetached (o : JSTypedArray) : Bool :=
  o.buffer.was_detached

/-- Modelled from the spec: `JSTypedArray::GetLengthOrOutOfBounds`, which is
not in this file: the view's current length and whether it is out of
bounds. -/
def JSTypedArray.GetLengthOrOutOfBounds (o : JSTypedArray) : Nat × Bool :=
  (o.length, o.out_of_bounds)

/-- Modelled from the spec: the view once the coercion of a value has run:
"execution of value coercion before the write could have triggered detachment
or a resize". A resize gives the view its new length and out-of-bounds state;
a detachment marks the buffer of the view as detached. -/
def JSTypedArray.AfterCoercion (o : JSTypedArray) (coercion : Coercion) : JSTypedArray :=
  let o :=
    match coercion.resizes with
    | some (length, out_of_bounds) => { o with length := length, out_of_bounds := out_of_bounds }
    | none => o
  if coercion.detaches then { o with buffer := o.buffer.set_was_detached true } else o

/-- Modelled from the spec: `JSObject::DefineOwnPropertyIgnoreAttributes` on an
element of a typed array, which is not in this file: "perform the actual
indexed write through the normal element-assignment path (which itself must
re-validate bounds/detach state at the moment of write, since execution of
value coercion before the write could have triggered detachment or a
resize)". The invocation is recorded; the value is coerced, which may detach
or resize the view and may raise an exception; when it raises none, the value
is stored if the view is still attached and the index still in bounds, and the
write is skipped otherwise. Returns the view and the pending exception, if
any. -/
def DefineOwnPropertyIgnoreAttributes (rt : Runtime) (o : JSTypedArray) (index : Nat)
    (value : Value) (attributes : PropertyAttributes) : JSTypedArray × Option Exception :=
  let o := { o with element_writes := o.element_writes ++ [ElementWrite.mk index value attributes] }
  let o := o.AfterCoercion (rt.ValueCoercion value)
  match (rt.ValueCoercion value).exception with
  | some exception => (o, some exception)
  | none =>
    if o.WasDetached || o.GetLengthOrOutOfBounds.2 || decide (index ≥ o.GetLengthOrOutOfBounds.1) then
      (o, none)
    else
      ({ o with element_values := (index, value) :: o.element_values }, none)

/-- Modelled from the spec: reading the element at `index`, which is not in
this file: "every element or property access on a Typed Array consults the
buffer's current length ... before touching memory". Nothing is read from a
view that is detached or out of bounds, or at an index that is not below the
length; otherwise the read gives the value most recently stored there. -/
def JSTypedArray.GetElement (o : JSTypedArray) (index : Nat) : Option Value :=
  if o.WasDetached || o.GetLengthOrOutOfBounds.2 || decide (index ≥ o.GetLengthOrOutOfBounds.1) then
    none
  else (o.element_values.find? (fun entry => entry.1 == index)).map (fun entry => entry.2)

/-- `CanonicalNumericIndexString` (lines 20-44). Returns the result and what
it leaves in `*is_minus_zero`. -/
def CanonicalNumericIndexString (cfg : Config) (rt : Runtime) (lookup_key : PropertyKey) :
    Except Failure (Bool × Bool) := do
  DCHECK cfg (lookup_key.is_element || lookup_key.name.IsString)
  if lookup_key.is_element then pure (true, false)
  else
    match lookup_key.name with
    | .string key =>
      let result := rt.ToNumber key
      if result.IsMinusZero then pure (true, true)
      else
        let str := rt.ToString result
        if str != key then pure (false, false) else pure (true, false)
    | _ => throw Failure.bad_cast

/-- Lines 248-297 of `JSTypedArray::DefineOwnProperty`: what the function does
once the key is known to be a canonical numeric index. -/
def DefineOwnPropertyCanonical (rt : Runtime) (o : JSTypedArray) (key : Object)
    (lookup_key : PropertyKey) (is_minus_zero : Bool) (desc : PropertyDescriptor)
    (should_throw : Option ShouldThrow) : DefineOwnPropertyResult :=
  let index := lookup_key.index
  let out_of_bounds := o.GetLengthOrOutOfBounds.2
  let length := o.GetLengthOrOutOfBounds.1
  if o.WasDetached || out_of_bounds || decide (index ≥ length) then
    { outcome := RETURN_FAILURE (GetShouldThrow rt should_throw)
        (NewTypeError .kInvalidTypedArrayIndex none),
      o := o, desc := desc }
  else if !lookup_key.is_element || is_minus_zero then
    { outcome := RETURN_FAILURE (GetShouldThrow rt should_throw)
        (NewTypeError .kInvalidTypedArrayIndex none),
      o := o, desc := desc }
  else if desc.IsAccessorDescriptor then
    { outcome := RETURN_FAILURE (GetShouldThrow rt should_throw)
        (NewTypeError .kRedefineDisallowed (some key)),
      o := o, desc := desc }
  else if (desc.has_configurable && desc.configurable == some false) ||
      (desc.has_enumerable && desc.enumerable == some false) ||
      (desc.has_writable && desc.writable == some false) then
    { outcome := RETURN_FAILURE (GetShouldThrow rt should_throw)
        (NewTypeError .kRedefineDisallowed (some key)),
      o := o, desc := desc }
  else
    match desc.value with
    | some value =>
      let desc := if !desc.has_configurable then desc.set_configurable true else desc
      let desc := if !desc.has_enumerable then desc.set_enumerable true else desc
      let desc := if !desc.has_writable then desc.set_writable true else desc
      let written := DefineOwnPropertyIgnoreAttributes rt o index value desc.ToAttributes
      match written.2 with
      | some exception => { outcome := .Nothing exception, o := written.1, desc := desc }
      | none => { outcome := .Just true, o := written.1, desc := desc }
    | none => { outcome := .Just true, o := o, desc := desc }

/-- `JSTypedArray::DefineOwnProperty` (lines 234-302). The key is a name or a
number by its type, so `DCHECK(key->IsName() || key->IsNumber())` holds. -/
def JSTypedArray.DefineOwnProperty (cfg : Config) (rt : Runtime) (o : JSTypedArray)
    (key : Object) (desc : PropertyDescriptor) (should_throw : Option ShouldThrow) :
    Except Failure DefineOwnPropertyResult := do
  let lookup_key := PropertyKey.of rt key
  if lookup_key.is_element || key.IsSmi || key.IsString then
    let canonical ←
      (if key.IsSmi then pure (true, false)
       else CanonicalNumericIndexString cfg rt lookup_key : Except Failure (Bool × Bool))
    if canonical.1 then
      pure (DefineOwnPropertyCanonical rt o key lookup_key canonical.2 desc should_throw)
    else
      pure (rt.OrdinaryDefineOwnProperty o lookup_key desc should_throw)
  else
    pure (rt.OrdinaryDefineOwnProperty o lookup_key desc should_throw)
/-- Whether `JSTypedArray::DefineOwnProperty` treats the key as a canonical
numeric index (the condition of lines 242-247). -/
def TreatedAsCanonical (rt : Runtime) (key : Object) : Bool :=
  match key with
  | .smi _ => true
  | .string s =>
    (PropertyKey.of rt key).is_element || (rt.ToNumber s).IsMinusZero ||
      rt.ToString (rt.ToNumber s) == s
  | _ => (PropertyKey.of rt key).is_element

/-- What lines 245-247 leave in `is_minus_zero`. -/
def FlaggedMinusZero (rt : Runtime) (key : Object) : Bool :=
  match key with
  | .string s => !(PropertyKey.of rt key).is_element && (rt.ToNumber s).IsMinusZero
  | _ => false

/-- The bit pattern of the double `-0.0`. -/
def minusZeroBits : Nat := 2 ^ 63

/-- The bit pattern of a NaN. -/
def nanBits : Nat := 0x7FF8000000000000

/-- The bit pattern of the double `1.5`. -/
def oneAndAHalfBits : Nat := 0x3FF8000000000000

/-- The number each of a few strings converts to, as `String::ToNumber` has
it; `"-0"` and `"-0.0"` both convert to `-0.0`. Any other string is taken to
convert to NaN. -/
def sampleToNumber (s : String) : Object :=
  if s = "0" then .smi 0
  else if s = "123" then .smi 123
  else if s = "-0" then .heap_number minusZeroBits
  else if s = "-0.0" then .heap_number minusZeroBits
  else if s = "01" then .smi 1
  else if s = "1.0" then .smi 1
  else if s = "2E1" then .smi 20
  else if s = " 1" then .smi 1
  else if s = "1.5" then .heap_number oneAndAHalfBits
  else .heap_number nanBits

/-- The string form of the numbers above. -/
def sampleToString (n : Object) : String :=
  if n = .smi 0 then "0"
  else if n = .smi 1 then "1"
  else if n = .smi 20 then "20"
  else if n = .smi 123 then "123"
  else if n = .heap_number minusZeroBits then "0"
  else if n = .heap_number oneAndAHalfBits then "1.5"
  else "NaN"

/-- The element index in a key: a non-negative small integer, or one of the
strings `"0"` and `"123"`. -/
def sampleAsIntegerIndex (key : Object) : Option Nat :=
  match key with
  | .smi i => if 0 ≤ i then some i.toNat else none
  | .string s => if s = "0" then some 0 else if s = "123" then some 123 else none
  | _ => none

/-- A coercion that raises nothing and leaves the buffer as it is. -/
def plainCoercion : Coercion :=
  { exception := none, detaches := false, resizes := none }

/-- An object model for the examples: value coercion never raises and has no
effect on the buffer, and the ordinary definition always succeeds and changes
nothing. -/
def sampleRuntime : Runtime :=
  { AsIntegerIndex := sampleAsIntegerIndex
    kInvalidIndex := 2 ^ 64 - 1
    ToNumber := sampleToNumber
    ToString := sampleToString
    language_mode := .kDontThrow
    ValueCoercion := fun _ => plainCoercion
    OrdinaryDefineOwnProperty := fun o _ desc _ => { outcome := .Just true, o := o, desc := desc } }

/-- The object model of `sampleRuntime`, except that coercing a value
detaches the buffer of the view (as a `valueOf` method that transfers the
buffer does). -/
def detachingRuntime : Runtime :=
  { sampleRuntime with ValueCoercion := fun _ => { plainCoercion with detaches := true } }

/-- The object model of `sampleRuntime`, except that coercing a value raises a
type error (as the conversion of a symbol to a number does). -/
def throwingRuntime : Runtime :=
  { sampleRuntime with
      ValueCoercion := fun _ => { plainCoercion with exception := some (.RaisedTypeError 1) } }

/-- A view of 200 one-byte elements over the buffer that has `storeA`
attached. -/
def sampleView : JSTypedArray :=
  { is_length_tracking := false, buffer := attachedBuffer, byte_offset := 0, elements_kind := 0,
    length := 200, byte_length := 200, data_pointer := 1000 }

/-- A descriptor that carries only the value 7. -/
def valueDescriptor : PropertyDescriptor :=
  { enumerable := none, configurable := none, writable := none, value := some { id := 7 },
    get := none, set := none }

/-- A descriptor that carries nothing. -/
def emptyDescriptor : PropertyDescriptor :=
  { valueDescriptor with value := none }

/-- The condition of lines 254 and 258, under which the key is rejected as an
invalid typed-array index. -/
def InvalidTypedArrayIndex (rt : Runtime) (o : JSTypedArray) (key : Object) : Bool :=
  (o.WasDetached || o.GetLengthOrOutOfBounds.2 ||
      decide ((PropertyKey.of rt key).index ≥ o.GetLengthOrOutOfBounds.1)) ||
    (!(PropertyKey.of rt key).is_element || FlaggedMinusZero rt key)

/-- The condition of lines 271 and 277-279, under which the descriptor is
rejected. -/
def RedefineDisallowed (desc : PropertyDescriptor) : Bool :=
  desc.IsAccessorDescriptor ||
    ((desc.has_configurable && desc.configurable == some false) ||
      (desc.has_enumerable && desc.enumerable == some false) ||
      (desc.has_writable && desc.writable == some false))

/-- Whether an element write at `index` goes through: the view is attached and
in bounds and `index` is below its length. -/
def WriteValid (o : JSTypedArray) (index : Nat) : Bool :=
  !(o.WasDetached || o.GetLengthOrOutOfBounds.2 || decide (index ≥ o.GetLengthOrOutOfBounds.1))

/-- All three attributes on. -/
def allAttributes : PropertyAttributes :=
  { writable := true, enumerable := true, configurable := true }

/-! ## `JSTypedArray::GetBuffer` -/

/-- The array-buffer allocator of the isolate, which is defined in other
files. It is a parameter of the embedding.

* `allocate n`: the start address of a fresh region of `n` bytes, `none` when
  the allocator cannot provide one.
* `uninitialized i`: the byte found at offset `i` of a fresh region that has
  not been initialised. -/
structure Allocator where
  allocate : Nat → Option Nat
  uninitialized : Nat → Nat

/-- Modelled from the spec: `BackingStore::Allocate(isolate, byte_length,
shared, InitializedFlag::kUninitialized)`, which is not in this file:
"`Allocate(byte_length, max_byte_length, shared, initialized-or-not) → store |
failure`", "allocate a new, uninitialized Backing Store sized exactly to the
view's current byte length", "owns one externally-allocated memory region (or
the empty region)", "for non-resizable, non-wasm stores, invariant:
`byte_length == max_byte_length`". A request for zero bytes gives the empty
region without asking the allocator; a null address from the allocator is a
failure. The store is not resizable, is not wasm memory and frees its region
when destroyed. -/
def BackingStore.Allocate (alloc : Allocator) (byte_length : Nat) (shared : SharedFlag) :
    Option BackingStore :=
  if byte_length = 0 then
    some { buffer_start := 0, byte_length := 0, max_byte_length := 0,
           is_shared := decide (shared = SharedFlag.kShared), is_resizable := false,
           is_wasm_memory := false, free_on_destruct := true, IsEmpty := true,
           PerIsolateAccountingLength := 0, memory := [] }
  else
    match alloc.allocate byte_length with
    | none => none
    | some start =>
      if start = 0 then none
      else
        some { buffer_start := start, byte_length := byte_length, max_byte_length := byte_length,
               is_shared := decide (shared = SharedFlag.kShared), is_resizable := false,
               is_wasm_memory := false, free_on_destruct := true, IsEmpty := false,
               PerIsolateAccountingLength :=
                 if shared = SharedFlag.kShared then 0 else byte_length,
               memory := (List.range byte_length).map alloc.uninitialized }

/-- The call `memcpy(backing_store->buffer_start(), src, n)`: the first `n`
bytes of the store's region become the first `n` bytes of `src`. The source
must hold at least `n` bytes; reading past its end is undefined in C++ and is
not given a meaning here. -/
def BackingStore.memcpy (backing_store : BackingStore) (src : List Nat) (n : Nat) :
    BackingStore :=
  { backing_store with memory := src.take n ++ backing_store.memory.drop n }

/-- Modelled from the spec: `JSArrayBuffer::IsEmpty`, which is not in this
file: "the existing (previously empty) buffer object". The buffer has no
store, or its store is the empty region. -/
def JSArrayBuffer.IsEmpty (iso : Isolate) (self : JSArrayBuffer) : Bool :=
  match GetBackingStore iso self with
  | none => true
  | some backing_store => backing_store.IsEmpty

/-- `self->set_elements(elements)`. -/
def JSTypedArray.set_elements (self : JSTypedArray) (elements : List Nat) : JSTypedArray :=
  { self with elements := elements }

/-- Modelled from the spec: `JSTypedArray::SetOffHeapDataPtr(isolate, base,
offset)`, which is not in this file: "repoint the view's data pointer into the
new store at offset zero". The view becomes off-heap and its data pointer is
`base + offset`. -/
def JSTypedArray.SetOffHeapDataPtr (self : JSTypedArray) (base : Nat) (offset : Nat) :
    JSTypedArray :=
  { self with on_heap := false, data_pointer := base + offset }

/-- `self->DataPtr()` of an on-heap view: the bytes of its inline elements. -/
def JSTypedArray.DataPtr (self : JSTypedArray) : List Nat :=
  self.elements

/-- `JSTypedArray::GetBuffer` (lines 190-230). Returns the isolate, the view
and the buffer handle. The view holds its buffer by value, so what `Setup`
does to the buffer object is written back into the view.
`DCHECK(IsTypedArrayOrRabGsabTypedArrayElementsKind(..))` holds by the type of
`self`. `FatalProcessOutOfMemory` does not return. -/
def JSTypedArray.GetBuffer (cfg : Config) (alloc : Allocator) (iso : Isolate)
    (self : JSTypedArray) : Except Failure (Isolate × JSTypedArray × JSArrayBuffer) :=
  let array_buffer := self.buffer
  if !self.on_heap then .ok (iso, self, array_buffer)
  else do
    DCHECK cfg (!array_buffer.is_resizable)
    DCHECK cfg (array_buffer.IsEmpty iso)
    let byte_length := self.byte_length
    match BackingStore.Allocate alloc byte_length SharedFlag.kNotShared with
    | none => throw Failure.out_of_memory
    | some backing_store =>
      let backing_store :=
        if byte_length > 0 then backing_store.memcpy self.DataPtr byte_length else backing_store
      let (iso, array_buffer) ←
        Setup cfg iso array_buffer SharedFlag.kNotShared ResizableFlag.kNotResizable
          (some backing_store)
      let self := { self with buffer := array_buffer }
      let self := self.set_elements []
      let self := self.SetOffHeapDataPtr array_buffer.backing_store 0
      DCHECK cfg (!self.on_heap)
      pure (iso, self, array_buffer)

/-- An allocator that places every region at address 5000 and leaves the byte
`255` everywhere in it. -/
def sampleAllocator : Allocator :=
  { allocate := fun _ => some 5000, uninitialized := fun _ => 255 }

/-- An on-heap view of no elements over the buffer that
`Setup(kNotShared, kNotResizable, nullptr)` leaves. -/
def emptyOnHeapView : JSTypedArray :=
  { is_length_tracking := false, buffer := plainBuffer, byte_offset := 0, elements_kind := 0,
    length := 0, byte_length := 0, on_heap := true, elements := [] }

/-- An on-heap view of four one-byte elements `1, 2, 3, 4` over the buffer
that `Setup(kNotShared, kNotResizable, nullptr)` leaves. -/
def onHeapView : JSTypedArray :=
  { is_length_tracking := false, buffer := plainBuffer, byte_offset := 0, elements_kind := 0,
    length := 4, byte_length := 4, on_heap := true, elements := [1, 2, 3, 4] }

/-- The buffer that `GetBuffer` leaves when it promotes the view `self` with
the allocated store `store`. -/
def PromotedBuffer (cfg : Config) (iso : Isolate) (self : JSTypedArray) (store : BackingStore) :
    JSArrayBuffer :=
  AttachedBuffer cfg iso
    (InitialisedBuffer cfg self.buffer SharedFlag.kNotShared ResizableFlag.kNotResizable)
    { store with memory := self.DataPtr }

/-- The isolate that `GetBuffer` leaves when it promotes the view `self` with
the allocated store `store`. -/
def PromotedIsolate (cfg : Config) (iso : Isolate) (self : JSTypedArray) (store : BackingStore) :
    Isolate :=
  AttachedIsolate iso
    (InitialisedBuffer cfg self.buffer SharedFlag.kNotShared ResizableFlag.kNotResizable)
    { store with memory := self.DataPtr }

/-- The view that `GetBuffer` leaves when it promotes the view `self` with the
allocated store `store`. -/
def PromotedView (cfg : Config) (iso : Isolate) (self : JSTypedArray) (store : BackingStore) :
    JSTypedArray :=
  { self with
      buffer := PromotedBuffer cfg iso self store
      elements := []
      on_heap := false
      data_pointer := (PromotedBuffer cfg iso self store).backing_store + 0 }

/-! ## Auxiliary lemmas -/

theorem CHECK_eq_ok (c : Bool) (u : Unit) : CHECK c = .ok u ↔ c = true := by
  unfold CHECK; cases c <;> simp

theorem DCHECK_eq_ok (cfg : Config) (c : Bool) (u : Unit) :
    DCHECK cfg c = .ok u ↔ (cfg.debug = true → c = true) := by
  unfold DCHECK; cases c <;> cases cfg.debug <;> simp

theorem bind_eq_ok {ε α β : Type} (x : Except ε α) (f : α → Except ε β) (r : β) :
    (x >>= f) = .ok r ↔ ∃ a, x = .ok a ∧ f a = .ok r := by
  cases x <;> simp [bind, Except.bind]

theorem pure_eq_ok {ε α : Type} (a r : α) : (pure a : Except ε α) = .ok r ↔ a = r := by
  simp [pure, Except.pure]

theorem set_accounting_length_and_backing_store_eq_ok (iso a : Isolate) (p bytes : Nat)
    (bs : BackingStore) :
    set_accounting_length_and_backing_store iso p bytes bs = .ok a ↔
      p < iso.extensions.length ∧
        a = { iso with extensions := iso.extensions.set p ⟨some bs, bytes⟩ } := by
  unfold set_accounting_length_and_backing_store
  by_cases hp : p < iso.extensions.length
  · simp [hp, eq_comm]
  · simp [hp, List.getElem?_eq_none (Nat.le_of_not_lt hp)]

theorem EnsureExtension_eq (iso : Isolate) (self : JSArrayBuffer) :
    EnsureExtension iso self =
      ({ iso with extensions :=
            match self.extension with
            | some _ => iso.extensions
            | none => iso.extensions ++ [⟨none, 0⟩] },
        self.set_extension (some (self.extension.getD iso.extensions.length)),
        self.extension.getD iso.extensions.length) := by
  unfold EnsureExtension
  cases hx : self.extension <;> simp [JSArrayBuffer.set_extension, hx]
  obtain ⟨a1, a2, a3, a4, a5, a6, a7, a8, a9, a10, a11⟩ := self
  simp at hx
  simp [hx]

theorem ite_set_is_detachable (c : Bool) (self : JSArrayBuffer) :
    (if c = true then self.set_is_detachable false else self) =
      self.set_is_detachable (self.is_detachable && !c) := by
  cases c <;> simp [JSArrayBuffer.set_is_detachable]

theorem ite_set_is_external (c : Bool) (self : JSArrayBuffer) :
    (if (!c) = true then self.set_is_external true else self) =
      self.set_is_external (self.is_external || !c) := by
  cases c <;> simp [JSArrayBuffer.set_is_external]

theorem Attach_stage_backing_store (cfg : Config) (self a : JSArrayBuffer) (bs : BackingStore) :
    ((if bs.IsEmpty = true then pure (self.set_backing_store cfg.EmptyBackingStoreBuffer)
      else do
        DCHECK cfg (bs.buffer_start != 0)
        pure (self.set_backing_store bs.buffer_start) : Except Failure JSArrayBuffer) = .ok a) ↔
      (cfg.debug = true → bs.IsEmpty = false → bs.buffer_start ≠ 0) ∧
        a = self.set_backing_store
              (if bs.IsEmpty then cfg.EmptyBackingStoreBuffer else bs.buffer_start) := by
  cases hE : bs.IsEmpty
  · simp only [Bool.false_eq_true, if_false, bind_eq_ok, pure_eq_ok, DCHECK_eq_ok, exists_const,
      bne_iff_ne, ne_eq, forall_const]
    exact and_congr Iff.rfl eq_comm
  · simp only [if_true, pure_eq_ok, Bool.true_eq_false, false_implies, implies_true, true_and]
    exact eq_comm

theorem Attach_stage_byte_length (cfg : Config) (self a : JSArrayBuffer) (bs : BackingStore) :
    ((if (self.is_shared && self.is_resizable) = true then pure (self.set_byte_length 0)
      else do
        CHECK (decide (bs.byte_length ≤ cfg.kMaxByteLength))
        pure (self.set_byte_length bs.byte_length) : Except Failure JSArrayBuffer) = .ok a) ↔
      ((self.is_shared && self.is_resizable) = false → bs.byte_length ≤ cfg.kMaxByteLength) ∧
        a = self.set_byte_length
              (if self.is_shared && self.is_resizable then 0 else bs.byte_length) := by
  cases hE : (self.is_shared && self.is_resizable)
  · simp only [Bool.false_eq_true, if_false, bind_eq_ok, pure_eq_ok, CHECK_eq_ok, exists_const,
      decide_eq_true_eq, forall_const]
    exact and_congr Iff.rfl eq_comm
  · simp only [if_true, pure_eq_ok, Bool.true_eq_false, false_implies, implies_true, true_and]
    exact eq_comm

theorem Attach_ok_iff (cfg : Config) (iso iso' : Isolate) (self self' : JSArrayBuffer) (bs : BackingStore) :
    Attach cfg iso self bs = .ok (iso', self') ↔
      ((cfg.debug = true →
          AttachPreconditions self bs = true ∧ (bs.IsEmpty = false → bs.buffer_start ≠ 0)) ∧
        ((self.is_shared && self.is_resizable) = false → bs.byte_length ≤ cfg.kMaxByteLength) ∧
        (∀ p, self.extension = some p → p < iso.extensions.length) ∧
        iso' = AttachedIsolate iso self bs ∧ self' = AttachedBuffer cfg iso self bs) := by
  unfold Attach
  simp only [bind_eq_ok, pure_eq_ok, DCHECK_eq_ok, CHECK_eq_ok, exists_const, EnsureExtension_eq,
    set_accounting_length_and_backing_store_eq_ok, Attach_stage_backing_store,
    Attach_stage_byte_length, ite_set_is_detachable, ite_set_is_external]
  constructor
  · rintro ⟨h1, h2, h3, h4, a, ⟨h5, rfl⟩, a1, ⟨h6, rfl⟩, a2, ⟨h7, rfl⟩, h8⟩
    simp only [Prod.mk.injEq] at h8
    obtain ⟨rfl, rfl⟩ := h8
    cases hx : self.extension <;>
    simp_all [AppendArrayBufferExtension, AttachPreconditions, AttachedBuffer, AttachedIsolate,
      JSArrayBuffer.set_backing_store, JSArrayBuffer.set_byte_length,
      JSArrayBuffer.set_max_byte_length, JSArrayBuffer.set_is_detachable,
      JSArrayBuffer.set_is_external, JSArrayBuffer.set_extension]
  · rintro ⟨h1, h2, h3, rfl, rfl⟩
    cases hx : self.extension <;>
    simp_all [AppendArrayBufferExtension, AttachPreconditions, AttachedBuffer, AttachedIsolate,
      JSArrayBuffer.set_backing_store, JSArrayBuffer.set_byte_length,
      JSArrayBuffer.set_max_byte_length, JSArrayBuffer.set_is_detachable,
      JSArrayBuffer.set_is_external, JSArrayBuffer.set_extension]

theorem RemoveBackingStore_eq_ok (iso a : Isolate) (p : Nat) (r : Option BackingStore) :
    RemoveBackingStore iso p = .ok (a, r) ↔
      ∃ e, iso.extensions[p]? = some e ∧ r = e.backing_store ∧
        a = { iso with extensions := iso.extensions.set p { e with backing_store := none } } := by
  unfold RemoveBackingStore
  cases h : iso.extensions[p]? with
  | none => simp
  | some e =>
    simp only [Except.ok.injEq, Prod.mk.injEq, Option.some.injEq, exists_eq_left']
    constructor
    · rintro ⟨rfl, rfl⟩; exact ⟨rfl, rfl⟩
    · rintro ⟨rfl, rfl⟩; exact ⟨rfl, rfl⟩

theorem protector_step (iso : Isolate) :
    (if IsArrayBufferDetachingIntact iso = true then InvalidateArrayBufferDetaching iso else iso) =
      { iso with
          array_buffer_detaching_intact := false
          invalidate_calls :=
            if iso.array_buffer_detaching_intact then iso.invalidate_calls + 1
            else iso.invalidate_calls } := by
  obtain ⟨e, r, i, n, u⟩ := iso
  cases i <;> simp [IsArrayBufferDetachingIntact, InvalidateArrayBufferDetaching]

theorem Detach_stage_check_implies (force : Bool) (b : Option BackingStore) (u : Unit) :
    ((if force = true then
        match b with
        | none => throw Failure.null_deref
        | some backing_store => CHECK backing_store.is_wasm_memory
      else pure () : Except Failure Unit) = .ok u) ↔
      (force = true → ∃ s, b = some s ∧ s.is_wasm_memory = true) := by
  cases force
  · simp [pure, Except.pure]
  · cases b with
    | none => simp [throw, throwThe, MonadExceptOf.throw]
    | some s => simp [CHECK_eq_ok]

theorem Detach_noop (cfg : Config) (iso : Isolate) (self : JSArrayBuffer) (force : Bool)
    (h : DetachIsNoOp self force = true) : Detach cfg iso self force = .ok (iso, self) := by
  unfold Detach
  unfold DetachIsNoOp at h
  cases hd : self.was_detached
  · simp [hd] at h
    simp [h]
  · simp

theorem Detach_real_ok_iff (cfg : Config) (iso iso' : Isolate) (self self' : JSArrayBuffer)
    (force : Bool) (h : DetachIsNoOp self force = false) :
    Detach cfg iso self force = .ok (iso', self') ↔
      ((∀ p, self.extension = some p →
          ∃ e, iso.extensions[p]? = some e ∧
            (force = true → ∃ s, e.backing_store = some s ∧ s.is_wasm_memory = true)) ∧
        (cfg.debug = true → self.is_shared = false ∧ self.is_asmjs_memory = false) ∧
        iso' = DetachedIsolate iso self ∧ self' = DetachedBuffer cfg self) := by
  unfold DetachIsNoOp at h
  simp only [Bool.or_eq_false_iff, Bool.and_eq_false_imp, Bool.not_eq_eq_eq_not, Bool.not_true,
    Bool.not_false] at h
  obtain ⟨h1, h2⟩ := h
  unfold Detach
  rw [if_neg (by simp [h1])]
  rw [if_neg (by intro hc; simp only [Bool.and_eq_true, Bool.not_eq_eq_eq_not, Bool.not_true] at hc; have := h2 hc.1; simp [this] at hc)]
  cases hx : self.extension with
  | none =>
    simp only [bind_eq_ok, pure_eq_ok, DCHECK_eq_ok, exists_const, Prod.exists, Prod.mk.injEq,
      protector_step]
    constructor
    · rintro ⟨a, b, ⟨rfl, rfl⟩, h3, h4, rfl, rfl⟩
      simp_all [DetachedIsolate, DetachedBuffer, JSArrayBuffer.set_backing_store,
        JSArrayBuffer.set_byte_length, JSArrayBuffer.set_was_detached]
    · rintro ⟨-, h3, rfl, rfl⟩
      refine ⟨iso, self, ⟨rfl, rfl⟩, ?_, ?_, ?_, ?_⟩
      all_goals simp_all [DetachedIsolate, DetachedBuffer, JSArrayBuffer.set_backing_store,
        JSArrayBuffer.set_byte_length, JSArrayBuffer.set_was_detached]
  | some p =>
    simp only [bind_eq_ok, pure_eq_ok, DCHECK_eq_ok, exists_const, Prod.exists, Prod.mk.injEq,
      RemoveExtension, hx, RemoveBackingStore_eq_ok, protector_step, Detach_stage_check_implies]
    constructor
    · rintro ⟨a, a1, b, ⟨-, a2, b1, ⟨e, he, rfl, rfl⟩, rfl, rfl, rfl⟩, h3, a3, b2, ⟨rfl, rfl⟩, h4,
        h5, rfl, rfl⟩
      simp only [DetachArrayBufferExtension] at he
      refine ⟨?_, ?_, ?_, ?_⟩
      · intro q hq
        simp only [Option.some.injEq] at hq
        subst hq
        exact ⟨e, he, h3⟩
      · intro hd
        have h4 := h4 hd
        have h5 := h5 hd
        simp_all [JSArrayBuffer.set_extension]
      · simp [DetachedIsolate, hx, he, DetachArrayBufferExtension]
      · simp [DetachedBuffer, JSArrayBuffer.set_backing_store, JSArrayBuffer.set_extension,
          JSArrayBuffer.set_byte_length, JSArrayBuffer.set_was_detached]
    · rintro ⟨h3, h4, rfl, rfl⟩
      obtain ⟨e, he, h5⟩ := h3 p rfl
      refine ⟨_, _, e.backing_store, ⟨by simp, _, _, ⟨e, ?_, rfl, rfl⟩, rfl, rfl, rfl⟩, h5, _, _,
        ⟨rfl, rfl⟩, ?_, ?_, ?_, ?_⟩
      · simpa [DetachArrayBufferExtension] using he
      · intro hd; simp [JSArrayBuffer.set_extension, (h4 hd).1]
      · intro hd; simp [JSArrayBuffer.set_extension, (h4 hd).2]
      · simp [DetachedIsolate, hx, he, DetachArrayBufferExtension]
      · simp [DetachedBuffer, JSArrayBuffer.set_backing_store, JSArrayBuffer.set_extension,
          JSArrayBuffer.set_byte_length, JSArrayBuffer.set_was_detached]

theorem Setup_none (cfg : Config) (iso : Isolate) (self : JSArrayBuffer) (shared : SharedFlag)
    (resizable : ResizableFlag) :
    Setup cfg iso self shared resizable none =
      .ok (if shared = SharedFlag.kShared then CountUsage iso else iso,
        (((InitialisedBuffer cfg self shared resizable).set_backing_store
          cfg.EmptyBackingStoreBuffer).set_byte_length 0).set_max_byte_length 0) := by
  rfl

theorem Setup_some_ok_iff (cfg : Config) (iso iso' : Isolate) (self self' : JSArrayBuffer)
    (shared : SharedFlag) (resizable : ResizableFlag) (bs : BackingStore) :
    Setup cfg iso self shared resizable (some bs) = .ok (iso', self') ↔
      ∃ iso1, Attach cfg iso (InitialisedBuffer cfg self shared resizable) bs = .ok (iso1, self') ∧
        iso' = if shared = SharedFlag.kShared then CountUsage iso1 else iso1 := by
  unfold Setup InitialisedBuffer
  simp only [bind_eq_ok, pure_eq_ok, Prod.exists, Prod.mk.injEq]
  constructor
  · rintro ⟨a, b, h, rfl, rfl⟩
    exact ⟨a, h, rfl⟩
  · rintro ⟨a, h, rfl⟩
    exact ⟨a, self', h, rfl, rfl⟩

/-- What `Setup` leaves, whichever branch it takes. -/
theorem Setup_ok (cfg : Config) (iso iso' : Isolate) (self self' : JSArrayBuffer)
    (shared : SharedFlag) (resizable : ResizableFlag) (store : Option BackingStore)
    (h : Setup cfg iso self shared resizable store = .ok (iso', self')) :
    self'.was_detached = false ∧
      self'.is_shared = decide (shared = SharedFlag.kShared) ∧
      self'.is_resizable = decide (resizable = ResizableFlag.kResizable) ∧
      (self'.is_shared = true → self'.is_detachable = false) ∧
      (self'.is_shared = true → self'.is_resizable = true → self'.byte_length = 0) ∧
      iso'.array_buffer_detaching_intact = iso.array_buffer_detaching_intact ∧
      iso'.invalidate_calls = iso.invalidate_calls := by
  cases store with
  | none =>
    rw [Setup_none] at h
    simp only [Except.ok.injEq, Prod.mk.injEq] at h
    obtain ⟨rfl, rfl⟩ := h
    cases shared <;> simp [InitialisedBuffer, CountUsage, JSArrayBuffer.set_backing_store,
      JSArrayBuffer.set_byte_length, JSArrayBuffer.set_max_byte_length, JSArrayBuffer.set_extension,
      JSArrayBuffer.zero_embedder_fields, JSArrayBuffer.set_is_detachable,
      JSArrayBuffer.set_is_resizable, JSArrayBuffer.set_is_shared, JSArrayBuffer.set_bit_field_zero]
  | some bs =>
    rw [Setup_some_ok_iff] at h
    obtain ⟨iso1, h, rfl⟩ := h
    rw [Attach_ok_iff] at h
    obtain ⟨-, -, -, rfl, rfl⟩ := h
    cases shared <;> cases resizable <;> simp [InitialisedBuffer, CountUsage, AttachedBuffer, AttachedIsolate,
      JSArrayBuffer.set_extension,
      JSArrayBuffer.zero_embedder_fields, JSArrayBuffer.set_is_detachable,
      JSArrayBuffer.set_is_resizable, JSArrayBuffer.set_is_shared, JSArrayBuffer.set_bit_field_zero]

/-! ## The properties -/

theorem plainBuffer_reach :
    Reach debugBuild freshIsolate UnderPreconditions freshIsolate plainBuffer :=
  Reach.setup rawBuffer .kNotShared .kNotResizable none _ _ (by decide)

theorem attachedBuffer_reach :
    Reach debugBuild freshIsolate UnderPreconditions attachedIsolate attachedBuffer :=
  Reach.attach _ _ storeA _ _ plainBuffer_reach (show AttachPreconditions _ _ = true by decide) (by decide)

theorem detachedBuffer_reach :
    Reach debugBuild freshIsolate UnderPreconditions detachedIsolate detachedBuffer :=
  Reach.detach _ _ false _ _ attachedBuffer_reach (by decide)

/-- C1: in every buffer state reachable from `Setup` by `Attach` calls made
under `Attach`'s preconditions and `Detach` calls with either value of
`force_for_wasm_memory`, `was_detached` implies that `byte_length` is zero,
the extension pointer is null and the data pointer is the empty-store
sentinel. -/
theorem C1_was_detached_invariant (cfg : Config) (iso0 iso : Isolate) (buf : JSArrayBuffer)
    (h : Reach cfg iso0 UnderPreconditions iso buf) (hd : buf.was_detached = true) :
    buf.byte_length = 0 ∧ buf.extension = none ∧
      buf.backing_store = cfg.EmptyBackingStoreBuffer := by
  induction h with
  | setup self shared resizable store iso buf hs =>
    have := (Setup_ok _ _ _ _ _ _ _ _ hs).1
    simp [this] at hd
  | attach iso buf bs iso' buf' _ hp ha _ =>
    rw [Attach_ok_iff] at ha
    obtain ⟨-, -, -, -, rfl⟩ := ha
    simp only [UnderPreconditions, AttachPreconditions, Bool.and_eq_true] at hp
    simp [AttachedBuffer] at hd
    simp [hd] at hp
  | detach iso buf force iso' buf' _ hdet ih =>
    cases hn : DetachIsNoOp buf force
    · rw [Detach_real_ok_iff _ _ _ _ _ _ hn] at hdet
      obtain ⟨-, -, -, rfl⟩ := hdet
      simp [DetachedBuffer]
    · rw [Detach_noop _ _ _ _ hn] at hdet
      simp only [Except.ok.injEq, Prod.mk.injEq] at hdet
      obtain ⟨-, rfl⟩ := hdet
      exact ih hd

/-- C1 at a concrete input: the buffer left by `Setup`, `Attach(storeA)`,
`Detach` in a debug build. -/
theorem C1_was_detached_invariant_witness :
    detachedBuffer.was_detached = true ∧
      (detachedBuffer.byte_length = 0 ∧ detachedBuffer.extension = none ∧
        detachedBuffer.backing_store = debugBuild.EmptyBackingStoreBuffer) :=
  ⟨rfl, C1_was_detached_invariant debugBuild freshIsolate detachedIsolate detachedBuffer
    detachedBuffer_reach rfl⟩

theorem set_append_singleton_length {α : Type} (l : List α) (x y : α) :
    (l ++ [x]).set l.length y = l ++ [y] := by
  simp [List.set_append]

theorem Attach_dcheck_of_was_detached (cfg : Config) (iso : Isolate) (b : JSArrayBuffer)
    (s : BackingStore) (hdbg : cfg.debug = true) (hd : b.was_detached = true) :
    Attach cfg iso b s = .error .dcheck := by
  unfold Attach
  simp only [DCHECK, hdbg, hd, bind, Except.bind]
  cases (b.is_shared == s.is_shared) <;> cases (b.is_resizable == s.is_resizable) <;>
    cases (!(!s.is_wasm_memory && !s.is_resizable) || s.byte_length == s.max_byte_length) <;> rfl

/-- C2, as the code has it: `Attach` asserts `!was_detached()`, so in a build
with assertions the second `Attach` of the sequence Attach, Detach, Attach is
a precondition failure. In a build without assertions the sequence completes
on a buffer set up as not shared, for stores within `kMaxByteLength` the first
of which is not wasm memory: the buffer's `byte_length` is the second store's,
its data pointer is the second store's region start, or the empty sentinel
when that store is empty, the buffer has a new extension that holds the
second store, the first extension holds no store, and the number of
extensions referring to the first store is what it was before the
sequence. -/
theorem C2_attach_detach_attach (cfg : Config) (iso0 : Isolate) (self : JSArrayBuffer)
    (resizable : ResizableFlag) (s1 s2 : BackingStore)
    (hw : s1.is_wasm_memory = false) (h1 : s1.byte_length ≤ cfg.kMaxByteLength)
    (h2 : s2.byte_length ≤ cfg.kMaxByteLength) (hne : s1 ≠ s2) :
    (cfg.debug = true → ∀ (iso : Isolate) (b : JSArrayBuffer) (s : BackingStore),
        b.was_detached = true → Attach cfg iso b s = .error .dcheck) ∧
    (cfg.debug = false →
      ∃ iso1 b1 iso2 b2 iso3 b3 iso4 b4,
        Setup cfg iso0 self .kNotShared resizable none = .ok (iso1, b1) ∧
        b1.is_detachable = true ∧ b1.is_shared = false ∧
        Attach cfg iso1 b1 s1 = .ok (iso2, b2) ∧
        Detach cfg iso2 b2 false = .ok (iso3, b3) ∧
        b3.was_detached = true ∧
        Attach cfg iso3 b3 s2 = .ok (iso4, b4) ∧
        b4.byte_length = s2.byte_length ∧
        b4.backing_store =
          (if s2.IsEmpty then cfg.EmptyBackingStoreBuffer else s2.buffer_start) ∧
        b2.extension = some iso0.extensions.length ∧
        b4.extension = some (iso0.extensions.length + 1) ∧
        GetBackingStore iso4 b4 = some s2 ∧
        GetBackingStore iso4 b2 = none ∧
        iso4.array_buffer_extensions =
          (if iso0.extensions.length + 1 ∈ iso0.array_buffer_extensions then
            iso0.array_buffer_extensions.filter (fun q => q != iso0.extensions.length)
          else
            iso0.array_buffer_extensions.filter (fun q => q != iso0.extensions.length) ++
              [iso0.extensions.length + 1]) ∧
        use_count iso4 s1 = use_count iso0 s1 ∧
        use_count iso4 s2 = use_count iso0 s2 + 1) := by
  refine ⟨fun hdbg iso b s hd => Attach_dcheck_of_was_detached cfg iso b s hdbg hd, fun hrel => ?_⟩
  have hnoop : DetachIsNoOp
      (AttachedBuffer cfg iso0
        ((((InitialisedBuffer cfg self .kNotShared resizable).set_backing_store
          cfg.EmptyBackingStoreBuffer).set_byte_length 0).set_max_byte_length 0) s1) false = false := by
    simp [DetachIsNoOp, AttachedBuffer, InitialisedBuffer, hw, JSArrayBuffer.set_backing_store,
      JSArrayBuffer.set_byte_length, JSArrayBuffer.set_max_byte_length, JSArrayBuffer.set_extension,
      JSArrayBuffer.zero_embedder_fields, JSArrayBuffer.set_is_detachable,
      JSArrayBuffer.set_is_resizable, JSArrayBuffer.set_is_shared, JSArrayBuffer.set_bit_field_zero]
  refine ⟨_, _, _, _, _, _, _, _, Setup_none _ _ _ _ _, ?_, ?_,
    (Attach_ok_iff _ _ _ _ _ _).2 ⟨?_, ?_, ?_, rfl, rfl⟩,
    (Detach_real_ok_iff _ _ _ _ _ _ hnoop).2 ⟨?_, ?_, rfl, rfl⟩, ?_,
    (Attach_ok_iff _ _ _ _ _ _).2 ⟨?_, ?_, ?_, rfl, rfl⟩, ?_⟩
  all_goals
    simp [hrel, hw, h1, h2, AttachedBuffer, AttachedIsolate, DetachedBuffer, DetachedIsolate,
      InitialisedBuffer, GetBackingStore, use_count, JSArrayBuffer.set_backing_store,
      JSArrayBuffer.set_byte_length, JSArrayBuffer.set_max_byte_length, JSArrayBuffer.set_extension,
      JSArrayBuffer.zero_embedder_fields, JSArrayBuffer.set_is_detachable,
      JSArrayBuffer.set_is_resizable, JSArrayBuffer.set_is_shared, JSArrayBuffer.set_bit_field_zero,
      set_append_singleton_length, List.getElem?_append_right, List.filter_append]
  refine ⟨?_, ?_, ?_, fun h => hne h.symm⟩
  · rw [List.getElem_append_right (by simp)]
    simp
  · rw [List.getElem_append_right (by simp)]
    simp
  · by_cases hm : iso0.extensions.length ∈ iso0.array_buffer_extensions <;>
      by_cases hm1 : iso0.extensions.length + 1 ∈ iso0.array_buffer_extensions <;>
      simp [hm, hm1, List.filter_append, List.mem_filter]

/-- C2 at a concrete input: a release build, `storeA` then `storeB`. -/
theorem C2_attach_detach_attach_witness :
    Attach debugBuild detachedIsolate detachedBuffer storeB = .error .dcheck ∧
    ∃ iso4 b4,
      Attach releaseBuild detachedIsolate detachedBuffer storeB = .ok (iso4, b4) ∧
        b4.byte_length = 16 ∧ b4.backing_store = 2000 ∧ GetBackingStore iso4 b4 = some storeB ∧
        use_count iso4 storeA = 0 := by
  have h := C2_attach_detach_attach releaseBuild freshIsolate rawBuffer .kNotResizable storeA storeB
    rfl (by decide) (by decide) (by decide)
  have hd := (C2_attach_detach_attach debugBuild freshIsolate rawBuffer .kNotResizable storeA storeB
    rfl (by decide) (by decide) (by decide)).1 rfl detachedIsolate detachedBuffer storeB rfl
  refine ⟨hd, ?_⟩
  obtain ⟨iso1, b1, iso2, b2, iso3, b3, iso4, b4, e1, -, -, e2, e3, -, e4, p1, p2, -, -, p3, -, -,
    p4, -⟩ := h.2 rfl
  have e1' : (Except.ok (iso1, b1) : Except Failure _) = .ok (freshIsolate, plainBuffer) := by
    rw [← e1]; decide
  simp only [Except.ok.injEq, Prod.mk.injEq] at e1'
  obtain ⟨rfl, rfl⟩ := e1'
  have e2' : (Except.ok (iso2, b2) : Except Failure _) = .ok (attachedIsolate, attachedBuffer) := by
    rw [← e2]; decide
  simp only [Except.ok.injEq, Prod.mk.injEq] at e2'
  obtain ⟨rfl, rfl⟩ := e2'
  have e3' : (Except.ok (iso3, b3) : Except Failure _) = .ok (detachedIsolate, detachedBuffer) := by
    rw [← e3]; decide
  simp only [Except.ok.injEq, Prod.mk.injEq] at e3'
  obtain ⟨rfl, rfl⟩ := e3'
  exact ⟨iso4, b4, e4, p1, p2, p3, p4⟩

/-- C2 fails as stated. In a debug build the second `Attach` of the sequence
Setup, Attach, Detach, Attach on a detachable, non-shared buffer aborts on
`DCHECK(!was_detached())`. In a release build, where it completes, the data
pointer after attaching an empty store is the empty sentinel and not the
store's (null) region start. -/
theorem C2_counterexample :
    (Setup debugBuild freshIsolate rawBuffer .kNotShared .kNotResizable none =
        .ok (freshIsolate, plainBuffer) ∧
      plainBuffer.is_detachable = true ∧ plainBuffer.is_shared = false ∧
      Attach debugBuild freshIsolate plainBuffer storeA = .ok (attachedIsolate, attachedBuffer) ∧
      Detach debugBuild attachedIsolate attachedBuffer false = .ok (detachedIsolate, detachedBuffer) ∧
      Attach debugBuild detachedIsolate detachedBuffer storeB = .error .dcheck) ∧
    (Setup releaseBuild freshIsolate rawBuffer .kNotShared .kNotResizable none =
        .ok (freshIsolate, plainBuffer) ∧
      Attach releaseBuild freshIsolate plainBuffer storeA = .ok (attachedIsolate, attachedBuffer) ∧
      Detach releaseBuild attachedIsolate attachedBuffer false =
        .ok (detachedIsolate, detachedBuffer) ∧
      (Attach releaseBuild detachedIsolate detachedBuffer storeEmpty).map
          (fun r => r.2.backing_store) = .ok 4096 ∧
      storeEmpty.buffer_start = 0) := by
  exact ⟨by decide, by decide⟩

/-- C3: `Detach` completes leaving the isolate (extension objects and their
store references, extension registry, protector) and every field of the
buffer exactly as they were if and only if the buffer is already detached, or
it is not detachable and `force_for_wasm_memory` is false. -/
theorem C3_detach_noop_iff (cfg : Config) (iso : Isolate) (self : JSArrayBuffer)
    (force_for_wasm_memory : Bool) :
    Detach cfg iso self force_for_wasm_memory = .ok (iso, self) ↔
      (self.was_detached = true ∨
        (self.is_detachable = false ∧ force_for_wasm_memory = false)) := by
  cases hn : DetachIsNoOp self force_for_wasm_memory
  · rw [Detach_real_ok_iff _ _ _ _ _ _ hn]
    simp only [DetachIsNoOp, Bool.or_eq_false_iff, Bool.and_eq_false_imp, Bool.not_eq_eq_eq_not,
      Bool.not_true, Bool.not_false] at hn
    constructor
    · rintro ⟨-, -, -, h⟩
      have := congrArg JSArrayBuffer.was_detached h
      simp [DetachedBuffer, hn.1] at this
    · rintro (h | ⟨h1, h2⟩)
      · simp [hn.1] at h
      · simp [hn.2 h2] at h1
  · rw [Detach_noop _ _ _ _ hn]
    simp only [DetachIsNoOp, Bool.or_eq_true, Bool.and_eq_true, Bool.not_eq_eq_eq_not,
      Bool.not_true] at hn
    simp only [true_iff]
    rcases hn with h | ⟨h1, h2⟩
    · exact Or.inl h
    · exact Or.inr ⟨h2, h1⟩

/-- C4 fails as stated: a forced `Detach` of a buffer that has no extension
(here the buffer left by `Setup` without a store, which has no backing store
at all, wasm or other) completes as a real detach: the wasm-memory check is
made only inside `if (extension)`. -/
theorem C4_counterexample :
    Setup debugBuild freshIsolate rawBuffer .kNotShared .kNotResizable none =
        .ok (freshIsolate, plainBuffer) ∧
      plainBuffer.was_detached = false ∧
      GetBackingStore freshIsolate plainBuffer = none ∧
      (Detach debugBuild freshIsolate plainBuffer true).map (fun r => r.2.was_detached) =
        .ok true := by
  decide

/-- C4, as the code has it: for a buffer that is not yet detached, a forced
`Detach` does not look at `is_detachable` (its outcome is the same whatever
that flag is). When the buffer has an extension the call completes only if
the extension holds a store that is wasm memory, and it is a `CHECK` failure
when the extension holds a store that is not wasm memory. When the buffer
has no extension, no wasm-memory check is made: the call completes, as a real
detach, when the two debug assertions of lines 130-131 hold (always, in a
build without assertions), and it is a `DCHECK` failure in a build with
assertions when the buffer is shared or asm.js memory. Every forced `Detach`
that completes is a real detach: it leaves the buffer detached, with
`byte_length` 0, the empty sentinel as data pointer and no extension. -/
theorem C4_forced_detach (cfg : Config) (iso : Isolate) (self : JSArrayBuffer)
    (hnd : self.was_detached = false) :
    (∀ d : Bool, Detach cfg iso (self.set_is_detachable d) true =
        (Detach cfg iso self true).map (fun r => (r.1, r.2.set_is_detachable d))) ∧
    (∀ p iso' self', self.extension = some p → Detach cfg iso self true = .ok (iso', self') →
        ∃ s, GetBackingStore iso self = some s ∧ s.is_wasm_memory = true) ∧
    (∀ s, GetBackingStore iso self = some s → s.is_wasm_memory = false →
        Detach cfg iso self true = .error .check) ∧
    (self.extension = none →
      ((cfg.debug = true → self.is_shared = false ∧ self.is_asmjs_memory = false) →
        Detach cfg iso self true = .ok (DetachedIsolate iso self, DetachedBuffer cfg self)) ∧
      (cfg.debug = true → (self.is_shared = true ∨ self.is_asmjs_memory = true) →
        Detach cfg iso self true = .error .dcheck)) ∧
    (∀ iso' self', Detach cfg iso self true = .ok (iso', self') →
      iso' = DetachedIsolate iso self ∧ self' = DetachedBuffer cfg self ∧
        self'.was_detached = true ∧ self'.byte_length = 0 ∧
        self'.backing_store = cfg.EmptyBackingStoreBuffer ∧ self'.extension = none) := by
  have hn : DetachIsNoOp self true = false := by simp [DetachIsNoOp, hnd]
  refine ⟨?_, ?_, ?_, ?_, ?_⟩
  · intro d
    unfold Detach
    simp only [hnd, JSArrayBuffer.set_is_detachable, Bool.false_eq_true, if_false, Bool.not_true,
      Bool.false_and]
    cases hx : self.extension with
    | none =>
      cases hdb : cfg.debug <;> cases hs : self.is_shared <;> cases ha : self.is_asmjs_memory <;>
        simp [DCHECK, hdb, hs, ha, hx, bind, Except.bind, pure, Except.pure, Except.map,
          JSArrayBuffer.set_backing_store, JSArrayBuffer.set_byte_length,
          JSArrayBuffer.set_was_detached]
    | some p =>
      simp only [RemoveExtension, RemoveBackingStore, DetachArrayBufferExtension, hx]
      cases he : iso.extensions[p]? with
      | none =>
        cases hdb : cfg.debug <;>
          simp [DCHECK, hdb, bind, Except.bind, pure, Except.pure, Except.map]
      | some e =>
        cases hb : e.backing_store with
        | none =>
          cases hdb : cfg.debug <;>
            simp [DCHECK, hdb, hb, bind, Except.bind, pure, Except.pure, Except.map, throw,
              throwThe, MonadExceptOf.throw]
        | some s =>
          cases hdb : cfg.debug <;> cases hs : self.is_shared <;>
            cases ha : self.is_asmjs_memory <;> cases hwm : s.is_wasm_memory <;>
            simp [DCHECK, CHECK, hdb, hs, ha, hwm, hb, bind, Except.bind, pure, Except.pure,
              Except.map,
              JSArrayBuffer.set_backing_store, JSArrayBuffer.set_byte_length,
              JSArrayBuffer.set_was_detached, JSArrayBuffer.set_extension]
  · intro p iso' self' hx hdet
    rw [Detach_real_ok_iff _ _ _ _ _ _ hn] at hdet
    obtain ⟨e, he, h⟩ := hdet.1 p hx
    obtain ⟨s, hs, hw⟩ := h rfl
    exact ⟨s, by simp [GetBackingStore, hx, he, hs], hw⟩
  · intro s hs hw
    unfold GetBackingStore at hs
    cases hx : self.extension with
    | none => simp [hx] at hs
    | some p =>
      simp only [hx] at hs
      cases he : iso.extensions[p]? with
      | none => simp [he] at hs
      | some e =>
        simp only [he] at hs
        unfold Detach
        cases hdb : cfg.debug <;>
          simp [hnd, hx, he, hs, hw, RemoveExtension, RemoveBackingStore,
            DetachArrayBufferExtension, DCHECK, CHECK, hdb, bind, Except.bind, pure, Except.pure]
  · intro hx
    constructor
    · intro h
      exact (Detach_real_ok_iff _ _ _ _ _ _ hn).2 ⟨by simp [hx], h, rfl, rfl⟩
    · intro hdb h
      unfold Detach
      rcases h with h | h
      · simp [hnd, hx, h, DCHECK, hdb, bind, Except.bind, pure, Except.pure, IsArrayBufferDetachingIntact]
      · cases hs : self.is_shared <;>
          simp [hnd, hx, h, hs, DCHECK, hdb, bind, Except.bind, pure, Except.pure,
            IsArrayBufferDetachingIntact]
  · intro iso' self' h
    rw [Detach_real_ok_iff _ _ _ _ _ _ hn] at h
    obtain ⟨-, -, rfl, rfl⟩ := h
    exact ⟨rfl, rfl, rfl, rfl, rfl, rfl⟩

/-- C4 at concrete inputs: an attached ordinary store makes the forced
`Detach` a `CHECK` failure. -/
theorem C4_forced_detach_witness :
    attachedBuffer.was_detached = false ∧
      Detach debugBuild attachedIsolate attachedBuffer true = .error .check :=
  ⟨rfl, (C4_forced_detach debugBuild attachedIsolate attachedBuffer rfl).2.2.1 storeA rfl rfl⟩

theorem Detach_ok_cases (cfg : Config) (iso iso' : Isolate) (self self' : JSArrayBuffer)
    (force : Bool) (h : Detach cfg iso self force = .ok (iso', self')) :
    (DetachIsNoOp self force = true ∧ iso' = iso ∧ self' = self) ∨
      (DetachIsNoOp self force = false ∧ iso' = DetachedIsolate iso self ∧
        self' = DetachedBuffer cfg self) := by
  cases hn : DetachIsNoOp self force
  · rw [Detach_real_ok_iff _ _ _ _ _ _ hn] at h
    exact Or.inr ⟨rfl, h.2.2.1, h.2.2.2⟩
  · rw [Detach_noop _ _ _ _ hn] at h
    simp only [Except.ok.injEq, Prod.mk.injEq] at h
    exact Or.inl ⟨rfl, h.1.symm, h.2.symm⟩

theorem Reach_gsab_byte_length (cfg : Config) (iso0 iso : Isolate) (buf : JSArrayBuffer)
    (h : Reach cfg iso0 Unconditionally iso buf) :
    buf.is_shared = true → buf.is_resizable = true → buf.byte_length = 0 := by
  induction h with
  | setup self shared resizable store iso buf hs =>
    exact (Setup_ok _ _ _ _ _ _ _ _ hs).2.2.2.2.1
  | attach iso buf bs iso' buf' _ _ ha _ =>
    rw [Attach_ok_iff] at ha
    obtain ⟨-, -, -, -, rfl⟩ := ha
    intro h1 h2
    simp only [AttachedBuffer] at h1 h2 ⊢
    simp [h1, h2]
  | detach iso buf force iso' buf' _ hdet ih =>
    rcases Detach_ok_cases _ _ _ _ _ _ hdet with ⟨-, -, rfl⟩ | ⟨-, -, rfl⟩
    · exact ih
    · intro _ _
      simp [DetachedBuffer]

/-- C5: after a completed `Attach(store)` the buffer's `max_byte_length` is
the store's, and its `byte_length` field is the store's `byte_length` unless
the buffer is both shared and resizable, in which case the field is 0; and in
every state reachable by `Setup`, `Attach` and `Detach` a buffer that is both
shared and resizable has `byte_length` field 0. -/
theorem C5_lengths_mirrored :
    (∀ (cfg : Config) (iso iso' : Isolate) (self self' : JSArrayBuffer) (store : BackingStore),
      Attach cfg iso self store = .ok (iso', self') →
        self'.max_byte_length = store.max_byte_length ∧
        self'.is_shared = self.is_shared ∧ self'.is_resizable = self.is_resizable ∧
        (¬(self'.is_shared = true ∧ self'.is_resizable = true) →
          self'.byte_length = store.byte_length) ∧
        (self'.is_shared = true ∧ self'.is_resizable = true → self'.byte_length = 0)) ∧
    (∀ (cfg : Config) (iso0 iso : Isolate) (buf : JSArrayBuffer),
      Reach cfg iso0 Unconditionally iso buf →
        buf.is_shared = true → buf.is_resizable = true → buf.byte_length = 0) := by
  refine ⟨?_, Reach_gsab_byte_length⟩
  intro cfg iso iso' self self' store ha
  rw [Attach_ok_iff] at ha
  obtain ⟨-, -, -, -, rfl⟩ := ha
  refine ⟨rfl, rfl, rfl, ?_, ?_⟩
  · intro h
    simp only [AttachedBuffer] at h ⊢
    have : (self.is_shared && self.is_resizable) = false := by
      cases h1 : self.is_shared <;> cases h2 : self.is_resizable <;> simp_all
    simp [this]
  · rintro ⟨h1, h2⟩
    simp only [AttachedBuffer] at h1 h2 ⊢
    simp [h1, h2]

/-- The buffer `Setup(kShared, kResizable, storeGsab)` leaves. -/
theorem gsabBuffer_setup :
    Setup debugBuild freshIsolate rawBuffer .kShared .kResizable (some storeGsab) =
      .ok (gsabIsolate, gsabBuffer) := by
  decide

theorem gsabBuffer_reach :
    Reach debugBuild freshIsolate Unconditionally gsabIsolate gsabBuffer :=
  Reach.setup rawBuffer .kShared .kResizable (some storeGsab) _ _ gsabBuffer_setup

/-- C5 at concrete inputs: an ordinary store of 8 bytes, and a growable
shared store with 32 bytes in use. -/
theorem C5_lengths_mirrored_witness :
    (attachedBuffer.max_byte_length = 8 ∧ attachedBuffer.byte_length = 8) ∧
      gsabBuffer.byte_length = 0 ∧ storeGsab.byte_length = 32 := by
  have h := C5_lengths_mirrored.1 debugBuild freshIsolate attachedIsolate plainBuffer attachedBuffer
    storeA (by decide)
  have g := C5_lengths_mirrored.2 debugBuild freshIsolate gsabIsolate gsabBuffer gsabBuffer_reach
    rfl rfl
  exact ⟨⟨h.1, h.2.2.2.1 (by decide)⟩, g, rfl⟩

theorem Reach_shared_not_detachable (cfg : Config) (iso0 iso : Isolate) (buf : JSArrayBuffer)
    (h : Reach cfg iso0 Unconditionally iso buf) :
    buf.is_shared = true → buf.is_detachable = false := by
  induction h with
  | setup self shared resizable store iso buf hs =>
    exact (Setup_ok _ _ _ _ _ _ _ _ hs).2.2.2.1
  | attach iso buf bs iso' buf' _ _ ha ih =>
    rw [Attach_ok_iff] at ha
    obtain ⟨-, -, -, -, rfl⟩ := ha
    intro h1
    simp only [AttachedBuffer] at h1 ⊢
    simp [ih h1]
  | detach iso buf force iso' buf' _ hdet ih =>
    rcases Detach_ok_cases _ _ _ _ _ _ hdet with ⟨-, -, rfl⟩ | ⟨-, -, rfl⟩
    · exact ih
    · exact ih

/-- C6: in every state reachable from `Setup` (any flags, any or no store) by
any sequence of `Attach` and `Detach` calls, `is_shared` implies not
`is_detachable`; so a `Detach` that is not forced leaves a shared buffer, and
the isolate, as they were, and the buffer is not detached by it. -/
theorem C6_shared_not_detachable (cfg : Config) (iso0 iso : Isolate) (buf : JSArrayBuffer)
    (h : Reach cfg iso0 Unconditionally iso buf) (hs : buf.is_shared = true) :
    buf.is_detachable = false ∧ Detach cfg iso buf false = .ok (iso, buf) := by
  have hd := Reach_shared_not_detachable cfg iso0 iso buf h hs
  exact ⟨hd, Detach_noop _ _ _ _ (by simp [DetachIsNoOp, hd])⟩

/-- C6 at a concrete input: a growable shared buffer. -/
theorem C6_shared_not_detachable_witness :
    gsabBuffer.is_shared = true ∧ gsabBuffer.was_detached = false ∧
      gsabBuffer.is_detachable = false ∧
      Detach debugBuild gsabIsolate gsabBuffer false = .ok (gsabIsolate, gsabBuffer) :=
  ⟨rfl, rfl, C6_shared_not_detachable debugBuild freshIsolate gsabIsolate gsabBuffer
    gsabBuffer_reach rfl⟩

theorem Detach_protector (cfg : Config) (iso iso' : Isolate) (self self' : JSArrayBuffer)
    (force : Bool) (h : Detach cfg iso self force = .ok (iso', self')) :
    (DetachIsNoOp self force = true →
      iso'.array_buffer_detaching_intact = iso.array_buffer_detaching_intact ∧
        iso'.invalidate_calls = iso.invalidate_calls) ∧
    (DetachIsNoOp self force = false →
      iso'.array_buffer_detaching_intact = false ∧
        iso'.invalidate_calls =
          iso.invalidate_calls + (if iso.array_buffer_detaching_intact then 1 else 0)) := by
  rcases Detach_ok_cases _ _ _ _ _ _ h with ⟨hn, rfl, rfl⟩ | ⟨hn, rfl, rfl⟩
  · simp [hn]
  · simp only [hn, Bool.false_eq_true, false_implies, true_and, forall_const, DetachedIsolate]
    cases iso.array_buffer_detaching_intact <;> simp

theorem DetachAll_protector (cfg : Config) (calls : List (JSArrayBuffer × Bool)) (iso : Isolate) :
    (iso.array_buffer_detaching_intact = false →
      (DetachAll cfg iso calls).array_buffer_detaching_intact = false ∧
        (DetachAll cfg iso calls).invalidate_calls = iso.invalidate_calls) ∧
    (DetachAll cfg iso calls).invalidate_calls ≤
      iso.invalidate_calls + (if iso.array_buffer_detaching_intact then 1 else 0) := by
  induction calls generalizing iso with
  | nil => simp [DetachAll]
  | cons c rest ih =>
    obtain ⟨b, f⟩ := c
    unfold DetachAll
    cases hd : Detach cfg iso b f with
    | error e => simp
    | ok r =>
      obtain ⟨iso', b'⟩ := r
      simp only
      have hp := Detach_protector _ _ _ _ _ _ hd
      have ih' := ih iso'
      cases hn : DetachIsNoOp b f
      · obtain ⟨h1, h2⟩ := hp.2 hn
        obtain ⟨ih1, ih2⟩ := ih'.1 h1
        constructor
        · intro hi
          simp [hi] at h2
          exact ⟨ih1, by omega⟩
        · rw [ih2, h2]
      · obtain ⟨h1, h2⟩ := hp.1 hn
        rw [h1, h2] at ih'
        exact ih'

/-- C7: the detach protector only goes from intact to invalidated. After
every `Detach` that does not return early the protector is invalidated, also
when the buffer has no extension. `Detach` invokes the invalidate operation
exactly when it does not return early and the protector is still intact, so
over any sequence of `Detach` calls on any buffers it is invoked at most
once, and never once the protector is invalidated. A completed `Attach`, a
completed `Setup` and a `Detach` that returns early leave the protector and
the count of invocations as they were. -/
theorem C7_protector_one_way :
    (∀ (cfg : Config) (iso iso' : Isolate) (self self' : JSArrayBuffer) (force : Bool),
      Detach cfg iso self force = .ok (iso', self') →
        (DetachIsNoOp self force = false →
          iso'.array_buffer_detaching_intact = false ∧
          iso'.invalidate_calls =
            iso.invalidate_calls + (if iso.array_buffer_detaching_intact then 1 else 0)) ∧
        (DetachIsNoOp self force = true →
          iso'.array_buffer_detaching_intact = iso.array_buffer_detaching_intact ∧
          iso'.invalidate_calls = iso.invalidate_calls)) ∧
    (∀ (cfg : Config) (iso : Isolate) (calls : List (JSArrayBuffer × Bool)),
      (iso.array_buffer_detaching_intact = false →
        (DetachAll cfg iso calls).array_buffer_detaching_intact = false ∧
        (DetachAll cfg iso calls).invalidate_calls = iso.invalidate_calls) ∧
      (DetachAll cfg iso calls).invalidate_calls ≤
        iso.invalidate_calls + (if iso.array_buffer_detaching_intact then 1 else 0)) ∧
    (∀ (cfg : Config) (iso iso' : Isolate) (self self' : JSArrayBuffer) (store : BackingStore),
      Attach cfg iso self store = .ok (iso', self') →
        iso'.array_buffer_detaching_intact = iso.array_buffer_detaching_intact ∧
        iso'.invalidate_calls = iso.invalidate_calls) ∧
    (∀ (cfg : Config) (iso iso' : Isolate) (self self' : JSArrayBuffer) (shared : SharedFlag)
      (resizable : ResizableFlag) (store : Option BackingStore),
      Setup cfg iso self shared resizable store = .ok (iso', self') →
        iso'.array_buffer_detaching_intact = iso.array_buffer_detaching_intact ∧
        iso'.invalidate_calls = iso.invalidate_calls) := by
  refine ⟨?_, ?_, ?_, ?_⟩
  · intro cfg iso iso' self self' force h
    exact ⟨(Detach_protector _ _ _ _ _ _ h).2, (Detach_protector _ _ _ _ _ _ h).1⟩
  · intro cfg iso calls
    exact DetachAll_protector cfg calls iso
  · intro cfg iso iso' self self' store h
    rw [Attach_ok_iff] at h
    obtain ⟨-, -, -, rfl, -⟩ := h
    exact ⟨rfl, rfl⟩
  · intro cfg iso iso' self self' shared resizable store h
    exact (Setup_ok _ _ _ _ _ _ _ _ h).2.2.2.2.2

/-- C7 at concrete inputs: detaching the attached buffer, then a buffer
without an extension, then the first buffer again, invalidates the protector
with a single invocation. -/
theorem C7_protector_one_way_witness :
    freshIsolate.array_buffer_detaching_intact = true ∧
      (DetachAll debugBuild attachedIsolate
        [(attachedBuffer, false), (plainBuffer, true), (detachedBuffer, false)]).invalidate_calls
        = 1 ∧
      (DetachAll debugBuild attachedIsolate
        [(attachedBuffer, false), (plainBuffer, true),
          (detachedBuffer, false)]).array_buffer_detaching_intact = false := by
  have h := (C7_protector_one_way.2.1 debugBuild attachedIsolate
    [(attachedBuffer, false), (plainBuffer, true), (detachedBuffer, false)]).2
  refine ⟨rfl, Nat.le_antisymm h (by decide), by decide⟩

theorem Attach_registry (cfg : Config) (iso : Isolate) (self : JSArrayBuffer)
    (bs : BackingStore) (n : Nat) (hn : n ≤ iso.extensions.length)
    (hreg : ∀ q ∈ iso.array_buffer_extensions, q < n ∨ self.extension = some q)
    (hext : ∀ p, self.extension = some p →
      n ≤ p ∧ p < iso.extensions.length ∧ iso.array_buffer_extensions.count p = 1) :
    n ≤ (AttachedIsolate iso self bs).extensions.length ∧
    (∀ q ∈ (AttachedIsolate iso self bs).array_buffer_extensions,
      q < n ∨ (AttachedBuffer cfg iso self bs).extension = some q) ∧
    (∀ p, (AttachedBuffer cfg iso self bs).extension = some p →
      n ≤ p ∧ p < (AttachedIsolate iso self bs).extensions.length ∧
        (AttachedIsolate iso self bs).array_buffer_extensions.count p = 1 ∧
        ∃ s, GetBackingStore (AttachedIsolate iso self bs) (AttachedBuffer cfg iso self bs) =
          some s) := by
  cases hx : self.extension with
  | none =>
    have hnot : iso.extensions.length ∉ iso.array_buffer_extensions := by
      intro hmem
      rcases hreg _ hmem with h | h
      · omega
      · rw [hx] at h
        cases h
    have hcount : iso.array_buffer_extensions.count iso.extensions.length = 0 :=
      List.count_eq_zero.mpr hnot
    refine ⟨?_, ?_, ?_⟩
    · simp only [AttachedIsolate, hx, List.length_append, List.length_singleton]
      omega
    · intro q hq
      simp only [AttachedIsolate, AttachedBuffer, hx, Option.getD_none, hnot, if_false,
        List.mem_append, List.mem_singleton] at hq ⊢
      rcases hq with hq | rfl
      · rcases hreg q hq with h | h
        · exact Or.inl h
        · rw [hx] at h
          cases h
      · exact Or.inr rfl
    · intro p hp
      simp only [AttachedBuffer, hx, Option.getD_none, Option.some.injEq] at hp
      subst hp
      refine ⟨hn, ?_, ?_, bs, ?_⟩
      · simp [AttachedIsolate, hx]
      · simp [AttachedIsolate, hx, hnot, List.count_append, hcount]
      · simp [GetBackingStore, AttachedIsolate, AttachedBuffer, hx]
  | some p0 =>
    obtain ⟨h1, h2, h3⟩ := hext p0 hx
    have hmem : p0 ∈ iso.array_buffer_extensions := by
      rw [← List.count_pos_iff]
      omega
    refine ⟨?_, ?_, ?_⟩
    · simp only [AttachedIsolate, hx, List.length_set]
      exact hn
    · intro q hq
      simp only [AttachedIsolate, AttachedBuffer, hx, Option.getD_some, hmem, if_true] at hq ⊢
      rcases hreg q hq with h | h
      · exact Or.inl h
      · rw [hx] at h
        exact Or.inr h
    · intro p hp
      simp only [AttachedBuffer, hx, Option.getD_some, Option.some.injEq] at hp
      subst hp
      refine ⟨h1, ?_, ?_, bs, ?_⟩
      · simp only [AttachedIsolate, hx, List.length_set]
        exact h2
      · simp only [AttachedIsolate, hx, Option.getD_some, hmem, if_true]
        exact h3
      · simp [GetBackingStore, AttachedIsolate, AttachedBuffer, hx, List.getElem?_set, h2]

theorem Reach_registry (cfg : Config) (iso0 iso : Isolate) (buf : JSArrayBuffer)
    (P : JSArrayBuffer → BackingStore → Prop)
    (hwf : RegistryAllocated iso0) (h : Reach cfg iso0 P iso buf) :
    iso0.extensions.length ≤ iso.extensions.length ∧
    (∀ q ∈ iso.array_buffer_extensions, q < iso0.extensions.length ∨ buf.extension = some q) ∧
    (∀ p, buf.extension = some p →
      iso0.extensions.length ≤ p ∧ p < iso.extensions.length ∧
        iso.array_buffer_extensions.count p = 1 ∧ ∃ s, GetBackingStore iso buf = some s) := by
  induction h with
  | setup self shared resizable store iso buf hs =>
    cases store with
    | none =>
      rw [Setup_none] at hs
      simp only [Except.ok.injEq, Prod.mk.injEq] at hs
      obtain ⟨rfl, rfl⟩ := hs
      refine ⟨?_, ?_, ?_⟩
      · cases shared <;> simp [CountUsage]
      · intro q hq
        refine Or.inl (hwf q ?_)
        cases shared <;> simpa [CountUsage] using hq
      · intro p hp
        simp [InitialisedBuffer, JSArrayBuffer.set_backing_store, JSArrayBuffer.set_byte_length,
          JSArrayBuffer.set_max_byte_length, JSArrayBuffer.set_extension] at hp
    | some bs =>
      rw [Setup_some_ok_iff] at hs
      obtain ⟨iso1, ha, rfl⟩ := hs
      rw [Attach_ok_iff] at ha
      obtain ⟨-, -, -, rfl, rfl⟩ := ha
      have key := Attach_registry cfg iso0 (InitialisedBuffer cfg self shared resizable) bs
        iso0.extensions.length (Nat.le_refl _) (fun q hq => Or.inl (hwf q hq))
        (fun p hp => by simp [InitialisedBuffer, JSArrayBuffer.set_extension] at hp)
      cases shared
      · simpa using key
      · simpa [CountUsage, GetBackingStore] using key
  | attach iso buf bs iso' buf' _ hp ha ih =>
    rw [Attach_ok_iff] at ha
    obtain ⟨-, -, -, rfl, rfl⟩ := ha
    obtain ⟨ih1, ih2, ih3⟩ := ih
    exact Attach_registry cfg iso buf bs iso0.extensions.length ih1 ih2
      (fun p hx => ⟨(ih3 p hx).1, (ih3 p hx).2.1, (ih3 p hx).2.2.1⟩)
  | detach iso buf force iso' buf' _ hdet ih =>
    rcases Detach_ok_cases _ _ _ _ _ _ hdet with ⟨-, rfl, rfl⟩ | ⟨-, rfl, rfl⟩
    · exact ih
    · obtain ⟨ih1, ih2, ih3⟩ := ih
      refine ⟨?_, ?_, ?_⟩
      · simp only [DetachedIsolate]
        cases hx : buf.extension with
        | none => simpa [hx] using ih1
        | some p =>
          cases he : iso.extensions[p]? with
          | none => simpa [he] using ih1
          | some e => simpa [he] using ih1
      · intro q hq
        left
        simp only [DetachedIsolate] at hq
        cases hx : buf.extension with
        | none =>
          simp only [hx] at hq
          rcases ih2 q hq with h | h
          · exact h
          · simp [hx] at h
        | some p =>
          simp only [hx, List.mem_filter, bne_iff_ne, ne_eq] at hq
          rcases ih2 q hq.1 with h | h
          · exact h
          · rw [hx] at h
            simp only [Option.some.injEq] at h
            exact absurd h.symm hq.2
      · intro p hp
        simp [DetachedBuffer] at hp

theorem doubleAttach_reach :
    Reach debugBuild freshIsolate UnderPreconditions
      { attachedIsolate with
          extensions := [{ backing_store := some storeB, accounting_length := 16 }] }
      { attachedBuffer with backing_store := 2000, byte_length := 16, max_byte_length := 16 } :=
  Reach.attach _ _ storeB _ _ attachedBuffer_reach (show AttachPreconditions _ _ = true by decide)
    (by decide)

/-- C8. In every state reachable from `Setup`, in an isolate whose registry
held only allocated extensions, by completed `Attach` calls (under `Attach`'s
preconditions, or under any other condition) and completed `Detach` calls: if
the buffer has an attached store, the registry holds the buffer's extension
exactly once; otherwise the buffer has no extension and no extension allocated
since `Setup` is in the registry. After any completed `Attach` the buffer's
extension holds the attached store, its `accounting_length` is the store's
per-isolate accounting length, and it is in the registry. After any `Detach`
that does not return early, the extension the buffer had is not in the
registry and holds no store, and the buffer's extension pointer is null. -/
theorem C8_extension_registry :
    (∀ (cfg : Config) (iso0 iso : Isolate) (buf : JSArrayBuffer)
      (P : JSArrayBuffer → BackingStore → Prop),
      RegistryAllocated iso0 → Reach cfg iso0 P iso buf →
        (∀ s, GetBackingStore iso buf = some s →
          ∃ p, buf.extension = some p ∧ iso.array_buffer_extensions.count p = 1) ∧
        (GetBackingStore iso buf = none →
          buf.extension = none ∧
            ∀ q ∈ iso.array_buffer_extensions, q < iso0.extensions.length)) ∧
    (∀ (cfg : Config) (iso iso' : Isolate) (self self' : JSArrayBuffer) (store : BackingStore),
      Attach cfg iso self store = .ok (iso', self') →
        ∃ p, self'.extension = some p ∧
          iso'.extensions[p]? = some { backing_store := some store,
                                       accounting_length := store.PerIsolateAccountingLength } ∧
          GetBackingStore iso' self' = some store ∧
          p ∈ iso'.array_buffer_extensions) ∧
    (∀ (cfg : Config) (iso iso' : Isolate) (self self' : JSArrayBuffer) (force : Bool) (p : Nat),
      self.extension = some p → DetachIsNoOp self force = false →
      Detach cfg iso self force = .ok (iso', self') →
        p ∉ iso'.array_buffer_extensions ∧
        (∃ e, iso'.extensions[p]? = some e ∧ e.backing_store = none) ∧
        self'.extension = none ∧ GetBackingStore iso' self' = none) := by
  refine ⟨?_, ?_, ?_⟩
  · intro cfg iso0 iso buf P hwf h
    obtain ⟨-, h2, h3⟩ := Reach_registry cfg iso0 iso buf P hwf h
    constructor
    · intro s hs
      cases hx : buf.extension with
      | none => simp [GetBackingStore, hx] at hs
      | some p => exact ⟨p, rfl, (h3 p hx).2.2.1⟩
    · intro hs
      cases hx : buf.extension with
      | none =>
        refine ⟨rfl, fun q hq => ?_⟩
        rcases h2 q hq with h | h
        · exact h
        · simp [hx] at h
      | some p =>
        obtain ⟨s, hs'⟩ := (h3 p hx).2.2.2
        simp [hs] at hs'
  · intro cfg iso iso' self self' store h
    rw [Attach_ok_iff] at h
    obtain ⟨-, -, hp, rfl, rfl⟩ := h
    cases hx : self.extension with
    | none =>
      refine ⟨iso.extensions.length, ?_, ?_, ?_, ?_⟩
      · simp [AttachedBuffer, hx]
      · simp [AttachedIsolate, hx]
      · simp [AttachedBuffer, AttachedIsolate, GetBackingStore, hx]
      · simp only [AttachedIsolate, hx, Option.getD_none]
        split
        · assumption
        · simp
    | some p =>
      have hlt := hp p hx
      refine ⟨p, ?_, ?_, ?_, ?_⟩
      · simp [AttachedBuffer, hx]
      · simp [AttachedIsolate, hx, hlt, List.getElem?_set]
      · simp [AttachedBuffer, AttachedIsolate, GetBackingStore, hx, hlt, List.getElem?_set]
      · simp only [AttachedIsolate, hx, Option.getD_some]
        split
        · assumption
        · simp
  · intro cfg iso iso' self self' force p hx hn h
    rw [Detach_real_ok_iff _ _ _ _ _ _ hn] at h
    obtain ⟨h1, -, rfl, rfl⟩ := h
    obtain ⟨e, he, -⟩ := h1 p hx
    have hlt : p < iso.extensions.length := by
      by_contra hc
      rw [List.getElem?_eq_none (Nat.le_of_not_lt hc)] at he
      simp at he
    refine ⟨?_, ?_, ?_, ?_⟩
    · simp [DetachedIsolate, hx]
    · exact ⟨{ e with backing_store := none }, by simp [DetachedIsolate, hx, he, List.getElem?_set, hlt], rfl⟩
    · simp [DetachedBuffer]
    · simp [GetBackingStore, DetachedBuffer]

theorem freshIsolate_registry : RegistryAllocated freshIsolate := by
  intro q hq
  simp [freshIsolate] at hq

/-- C8 at concrete inputs: after `Setup`, `Attach(storeA)` and a second
`Attach(storeB)` under the preconditions, the buffer's extension is reused and
the registry holds it exactly once. -/
theorem C8_extension_registry_witness :
    GetBackingStore
        { attachedIsolate with
            extensions := [{ backing_store := some storeB, accounting_length := 16 }] }
        { attachedBuffer with backing_store := 2000, byte_length := 16, max_byte_length := 16 } =
      some storeB ∧
    ∃ p, attachedBuffer.extension = some p ∧
      attachedIsolate.array_buffer_extensions.count p = 1 :=
  ⟨rfl, (C8_extension_registry.1 debugBuild freshIsolate _ _ UnderPreconditions
    freshIsolate_registry doubleAttach_reach).1 storeB rfl⟩

theorem GsabByteLength_eq (cfg : Config) (iso : Isolate) (buffer : JSArrayBuffer)
    (hflag : cfg.debug = true → cfg.FLAG_harmony_rab_gsab = true) :
    GsabByteLength cfg iso buffer =
      if buffer.is_resizable = false then .error .check
      else if buffer.is_shared = false then .error .check
      else match GetBackingStore iso buffer with
        | none => .error .null_deref
        | some s => .ok s.byte_length := by
  unfold GsabByteLength
  rw [(DCHECK_eq_ok cfg _ ()).2 hflag]
  cases hr : buffer.is_resizable <;> cases hs : buffer.is_shared <;>
    cases hg : GetBackingStore iso buffer <;>
    simp [CHECK, bind, Except.bind, pure, Except.pure, throw, throwThe, MonadExceptOf.throw]

/-- C9 fails as stated: a buffer that is both resizable and shared but has no
backing store (the one `Setup(kShared, kResizable, nullptr)` leaves) passes
both `CHECK`s, and `GsabByteLength` then dereferences the null store instead
of returning a length. -/
theorem C9_counterexample :
    Setup debugBuild freshIsolate rawBuffer .kShared .kResizable none =
        .ok ({ freshIsolate with shared_array_buffer_constructed := 1 }, gsabBufferWithoutStore) ∧
      gsabBufferWithoutStore.is_resizable = true ∧ gsabBufferWithoutStore.is_shared = true ∧
      GsabByteLength debugBuild { freshIsolate with shared_array_buffer_constructed := 1 }
        gsabBufferWithoutStore = .error .null_deref := by
  decide

/-- C9, as the code has it (in a build with assertions, with
`FLAG_harmony_rab_gsab` on, as the function first asserts): `GsabByteLength`
fails if and only if the buffer is not resizable, or not shared, or has no
backing store. For a buffer that is resizable and shared and has a backing
store it returns that store's `byte_length`, whatever the buffer's own
`byte_length` field holds, and the result is at most the store's
`max_byte_length` when the store satisfies `byte_length ≤ max_byte_length`.
The function returns a number only: it reads the state and writes nothing. -/
theorem C9_gsab_byte_length (cfg : Config) (iso : Isolate) (buffer : JSArrayBuffer)
    (hflag : cfg.debug = true → cfg.FLAG_harmony_rab_gsab = true) :
    ((∃ f, GsabByteLength cfg iso buffer = .error f) ↔
      (buffer.is_resizable = false ∨ buffer.is_shared = false ∨
        GetBackingStore iso buffer = none)) ∧
    (∀ s, buffer.is_resizable = true → buffer.is_shared = true →
      GetBackingStore iso buffer = some s →
        GsabByteLength cfg iso buffer = .ok s.byte_length ∧
        (s.byte_length ≤ s.max_byte_length →
          ∀ n, GsabByteLength cfg iso buffer = .ok n → n ≤ s.max_byte_length)) ∧
    (∀ n, GsabByteLength cfg iso (buffer.set_byte_length n) = GsabByteLength cfg iso buffer) := by
  refine ⟨?_, ?_, ?_⟩
  · rw [GsabByteLength_eq cfg iso buffer hflag]
    cases hr : buffer.is_resizable <;> cases hs : buffer.is_shared <;>
      cases hg : GetBackingStore iso buffer <;> simp
  · intro s hr hs hg
    have he : GsabByteLength cfg iso buffer = .ok s.byte_length := by
      rw [GsabByteLength_eq cfg iso buffer hflag]
      simp [hr, hs, hg]
    refine ⟨he, fun hle n hn => ?_⟩
    rw [he] at hn
    simp only [Except.ok.injEq] at hn
    omega
  · intro n
    rw [GsabByteLength_eq cfg iso _ hflag, GsabByteLength_eq cfg iso buffer hflag]
    rfl

/-- C9 at a concrete input: a growable shared buffer over a store with 32
bytes in use; the buffer's own `byte_length` field is 0. -/
theorem C9_gsab_byte_length_witness :
    (debugBuild.debug = true → debugBuild.FLAG_harmony_rab_gsab = true) ∧
      gsabBuffer.byte_length = 0 ∧
      GsabByteLength debugBuild gsabIsolate gsabBuffer = .ok 32 :=
  ⟨fun _ => rfl, rfl,
    ((C9_gsab_byte_length debugBuild gsabIsolate gsabBuffer (fun _ => rfl)).2.1 storeGsab rfl rfl
      rfl).1⟩

theorem LengthTracking_eq (cfg : Config) (iso : Isolate) (array : JSTypedArray)
    (hflag : cfg.debug = true → cfg.FLAG_harmony_rab_gsab = true)
    (hw : 0 < cfg.ElementsKindToByteSize array.elements_kind) :
    LengthTrackingGsabBackedTypedArrayLength cfg iso array =
      if array.is_length_tracking = false then .error .check
      else if array.buffer.is_resizable = false then .error .check
      else if array.buffer.is_shared = false then .error .check
      else match GetBackingStore iso array.buffer with
        | none => .error .null_deref
        | some s =>
          if s.byte_length < array.byte_offset then .error .check
          else .ok ((s.byte_length - array.byte_offset) /
                      cfg.ElementsKindToByteSize array.elements_kind) := by
  unfold LengthTrackingGsabBackedTypedArrayLength
  have hw' : cfg.ElementsKindToByteSize array.elements_kind ≠ 0 := by omega
  rw [(DCHECK_eq_ok cfg _ ()).2 hflag]
  cases ht : array.is_length_tracking <;> cases hr : array.buffer.is_resizable <;>
    cases hs : array.buffer.is_shared <;>
    cases hg : GetBackingStore iso array.buffer <;>
    simp [CHECK, hw', ht, hr, hs, hg, bind, Except.bind, pure, Except.pure,
      throw, throwThe, MonadExceptOf.throw]
  all_goals
    rename_i s
    by_cases hlt : s.byte_length < array.byte_offset
    · simp [hlt, Nat.not_le.mpr hlt]
    · simp [hlt, Nat.le_of_not_lt hlt]

/-- C10: with `FLAG_harmony_rab_gsab` on where assertions are compiled in, and
a nonzero element width for the view's elements kind, `LengthTrackingGsabBackedTypedArrayLength` succeeds
exactly when the view is length-tracking, its buffer is resizable and shared,
and the buffer's store has a byte length `L` that is at least the view's
`byte_offset`. It then returns `(L - byte_offset) / element_width`, where the
subtraction does not underflow and the divisor is not zero, so
`byte_offset + result * element_width ≤ L < byte_offset + (result + 1) *
element_width`. -/
theorem C10_length_tracking_length (cfg : Config) (iso : Isolate) (array : JSTypedArray)
    (hflag : cfg.debug = true → cfg.FLAG_harmony_rab_gsab = true)
    (hw : 0 < cfg.ElementsKindToByteSize array.elements_kind) :
    ((∃ n, LengthTrackingGsabBackedTypedArrayLength cfg iso array = .ok n) ↔
      (array.is_length_tracking = true ∧ array.buffer.is_resizable = true ∧
        array.buffer.is_shared = true ∧
        ∃ s, GetBackingStore iso array.buffer = some s ∧ array.byte_offset ≤ s.byte_length)) ∧
    (∀ n, LengthTrackingGsabBackedTypedArrayLength cfg iso array = .ok n →
      ∃ s, GetBackingStore iso array.buffer = some s ∧
        array.byte_offset ≤ s.byte_length ∧
        n = (s.byte_length - array.byte_offset) /
              cfg.ElementsKindToByteSize array.elements_kind ∧
        array.byte_offset + n * cfg.ElementsKindToByteSize array.elements_kind ≤ s.byte_length ∧
        s.byte_length <
          array.byte_offset + (n + 1) * cfg.ElementsKindToByteSize array.elements_kind) := by
  rw [LengthTracking_eq cfg iso array hflag hw]
  have key : ∀ n, (if array.is_length_tracking = false then (.error .check : Except Failure Nat)
      else if array.buffer.is_resizable = false then .error .check
      else if array.buffer.is_shared = false then .error .check
      else match GetBackingStore iso array.buffer with
        | none => .error .null_deref
        | some s =>
          if s.byte_length < array.byte_offset then .error .check
          else .ok ((s.byte_length - array.byte_offset) /
                      cfg.ElementsKindToByteSize array.elements_kind)) = .ok n ↔
      (array.is_length_tracking = true ∧ array.buffer.is_resizable = true ∧
        array.buffer.is_shared = true ∧
        ∃ s, GetBackingStore iso array.buffer = some s ∧ array.byte_offset ≤ s.byte_length ∧
          n = (s.byte_length - array.byte_offset) /
              cfg.ElementsKindToByteSize array.elements_kind) := by
    intro n
    cases ht : array.is_length_tracking <;> cases hr : array.buffer.is_resizable <;>
      cases hs : array.buffer.is_shared <;> cases hg : GetBackingStore iso array.buffer <;>
      simp
    rename_i s
    by_cases hlt : s.byte_length < array.byte_offset
    · simp only [hlt, if_true]
      constructor
      · intro h; cases h
      · rintro ⟨h, -⟩; omega
    · simp [hlt, Nat.le_of_not_lt hlt, eq_comm]
  constructor
  · constructor
    · rintro ⟨n, hn⟩
      obtain ⟨h1, h2, h3, s, h4, h5, -⟩ := (key n).1 hn
      exact ⟨h1, h2, h3, s, h4, h5⟩
    · rintro ⟨h1, h2, h3, s, h4, h5⟩
      exact ⟨_, (key _).2 ⟨h1, h2, h3, s, h4, h5, rfl⟩⟩
  · intro n hn
    obtain ⟨-, -, -, s, h4, h5, h6⟩ := (key n).1 hn
    refine ⟨s, h4, h5, h6, ?_, ?_⟩
    · have := Nat.div_mul_le_self (s.byte_length - array.byte_offset)
        (cfg.ElementsKindToByteSize array.elements_kind)
      rw [← h6] at this
      omega
    · have := Nat.lt_div_mul_add (a := s.byte_length - array.byte_offset) hw
      rw [← h6] at this
      have e : (n + 1) * cfg.ElementsKindToByteSize array.elements_kind =
          n * cfg.ElementsKindToByteSize array.elements_kind +
            cfg.ElementsKindToByteSize array.elements_kind := by ring
      omega

/-- C10 at a concrete input: two-byte elements at offset 3 over a store with
32 bytes in use give 14 elements. -/
theorem C10_length_tracking_length_witness :
    (debugBuild.debug = true → debugBuild.FLAG_harmony_rab_gsab = true) ∧
      0 < debugBuild.ElementsKindToByteSize trackingArray.elements_kind ∧
      LengthTrackingGsabBackedTypedArrayLength debugBuild gsabIsolate trackingArray = .ok 14 ∧
      3 + 14 * 2 ≤ 32 ∧ 32 < 3 + (14 + 1) * 2 := by
  have h := C10_length_tracking_length debugBuild gsabIsolate trackingArray (fun _ => rfl)
    (by decide)
  obtain ⟨s, hs, -, -, h1, h2⟩ := h.2 14 (by decide)
  have e : s = storeGsab := by
    have : GetBackingStore gsabIsolate trackingArray.buffer = some storeGsab := rfl
    rw [this] at hs
    exact (Option.some.inj hs).symm
  subst e
  exact ⟨fun _ => rfl, by decide, by decide, h1, h2⟩

theorem Steps_not_detachable (cfg : Config) (iso : Isolate) (buf : JSArrayBuffer)
    (iso' : Isolate) (buf' : JSArrayBuffer) (h : Steps cfg false iso buf iso' buf')
    (hd : buf.is_detachable = false) :
    buf'.is_detachable = false ∧ buf'.was_detached = buf.was_detached := by
  induction h with
  | refl => exact ⟨hd, rfl⟩
  | attach iso1 buf1 bs iso2 buf2 _ ha ih =>
    rw [Attach_ok_iff] at ha
    obtain ⟨-, -, -, -, rfl⟩ := ha
    simp [AttachedBuffer, ih.1, ih.2]
  | detach iso1 buf1 force iso2 buf2 _ hf hdet ih =>
    have hforce : force = false := by
      cases force
      · rfl
      · exact absurd (hf rfl) (by simp)
    subst hforce
    rw [Detach_noop _ _ _ _ (by simp [DetachIsNoOp, ih.1])] at hdet
    simp only [Except.ok.injEq, Prod.mk.injEq] at hdet
    obtain ⟨-, rfl⟩ := hdet
    exact ih

/-- C18: after a completed `Attach` of a store that is wasm memory the buffer
is not detachable; under any subsequent sequence of `Attach` calls and
non-forced `Detach` calls it stays not detachable and `was_detached` keeps the
value it had before that `Attach` (false, by `Attach`'s precondition), so the
buffer never becomes detached. After a completed `Attach` of a store with
`free_on_destruct = false` the buffer is marked external. A completed
`Attach` never turns `is_detachable` from false to true. -/
theorem C18_wasm_not_detachable :
    (∀ (cfg : Config) (iso iso1 iso2 : Isolate) (self b1 b2 : JSArrayBuffer)
      (store : BackingStore),
      Attach cfg iso self store = .ok (iso1, b1) → store.is_wasm_memory = true →
        b1.is_detachable = false ∧
        (Steps cfg false iso1 b1 iso2 b2 →
          b2.is_detachable = false ∧ b2.was_detached = self.was_detached ∧
            (self.was_detached = false → b2.was_detached = false))) ∧
    (∀ (cfg : Config) (iso iso1 : Isolate) (self b1 : JSArrayBuffer) (store : BackingStore),
      Attach cfg iso self store = .ok (iso1, b1) →
        (store.free_on_destruct = false → b1.is_external = true) ∧
        (self.is_detachable = false → b1.is_detachable = false)) := by
  constructor
  · intro cfg iso iso1 iso2 self b1 b2 store ha hw
    rw [Attach_ok_iff] at ha
    obtain ⟨-, -, -, rfl, rfl⟩ := ha
    have hd : (AttachedBuffer cfg iso self store).is_detachable = false := by
      simp [AttachedBuffer, hw]
    refine ⟨hd, fun hs => ?_⟩
    obtain ⟨h1, h2⟩ := Steps_not_detachable cfg _ _ _ _ hs hd
    have h3 : b2.was_detached = self.was_detached := by
      rw [h2]; rfl
    exact ⟨h1, h3, fun h => by rw [h3, h]⟩
  · intro cfg iso iso1 self b1 store ha
    rw [Attach_ok_iff] at ha
    obtain ⟨-, -, -, rfl, rfl⟩ := ha
    constructor
    · intro hf
      simp [AttachedBuffer, hf]
    · intro hd
      simp [AttachedBuffer, hd]

theorem wasmBuffer_attach :
    Attach debugBuild freshIsolate plainBuffer storeWasm = .ok (wasmIsolate, wasmBuffer) := by
  decide

theorem wasmBuffer_steps :
    Steps debugBuild false wasmIsolate wasmBuffer wasmIsolate wasmBuffer :=
  Steps.detach wasmIsolate wasmBuffer wasmIsolate wasmBuffer false wasmIsolate wasmBuffer
    (Steps.refl _ _) (by simp) (by decide)

/-- C18 at a concrete input: a wasm memory store attached to a fresh buffer,
followed by a non-forced `Detach`. -/
theorem C18_wasm_not_detachable_witness :
    storeWasm.is_wasm_memory = true ∧ wasmBuffer.is_detachable = false ∧
      wasmBuffer.was_detached = false ∧ wasmBuffer.is_external = true := by
  have h := C18_wasm_not_detachable.1 debugBuild freshIsolate wasmIsolate wasmIsolate plainBuffer
    wasmBuffer wasmBuffer storeWasm wasmBuffer_attach rfl
  have g := C18_wasm_not_detachable.2 debugBuild freshIsolate wasmIsolate plainBuffer wasmBuffer
    storeWasm wasmBuffer_attach
  exact ⟨rfl, h.1, (h.2 wasmBuffer_steps).2.2 rfl, g.1 rfl⟩

theorem LengthTracking_ok (cfg : Config) (iso : Isolate) (array : JSTypedArray) (n : Nat)
    (h : LengthTrackingGsabBackedTypedArrayLength cfg iso array = .ok n) :
    (cfg.debug = true → cfg.FLAG_harmony_rab_gsab = true) ∧
      array.is_length_tracking = true ∧ array.buffer.is_resizable = true ∧
      array.buffer.is_shared = true ∧
      cfg.ElementsKindToByteSize array.elements_kind ≠ 0 ∧
      ∃ s, GetBackingStore iso array.buffer = some s ∧ array.byte_offset ≤ s.byte_length ∧
        n = (s.byte_length - array.byte_offset) /
              cfg.ElementsKindToByteSize array.elements_kind := by
  unfold LengthTrackingGsabBackedTypedArrayLength at h
  cases hd : cfg.debug <;> cases hf : cfg.FLAG_harmony_rab_gsab <;>
    cases ht : array.is_length_tracking <;> cases hr : array.buffer.is_resizable <;>
    cases hs : array.buffer.is_shared <;> cases hg : GetBackingStore iso array.buffer <;>
    simp [DCHECK, CHECK, hd, hf, ht, hr, hs, hg, bind, Except.bind, pure, Except.pure, throw,
      throwThe, MonadExceptOf.throw] at h ⊢
  all_goals
    rename_i s
    by_cases ho : array.byte_offset ≤ s.byte_length
    · by_cases hz : cfg.ElementsKindToByteSize array.elements_kind = 0
      · simp [ho, hz] at h
      · simp [ho, hz] at h
        exact ⟨hz, ho, h.symm⟩
    · simp [ho] at h

theorem GsabByteLength_ok (cfg : Config) (iso : Isolate) (buffer : JSArrayBuffer) (n : Nat)
    (h : GsabByteLength cfg iso buffer = .ok n) :
    (cfg.debug = true → cfg.FLAG_harmony_rab_gsab = true) ∧
      ∃ s, GetBackingStore iso buffer = some s ∧ n = s.byte_length := by
  unfold GsabByteLength at h
  simp only [bind_eq_ok, DCHECK_eq_ok, CHECK_eq_ok, exists_const] at h
  obtain ⟨h1, -, -, h5⟩ := h
  refine ⟨h1, ?_⟩
  cases hg : GetBackingStore iso buffer with
  | none => simp [hg, throw, throwThe, MonadExceptOf.throw] at h5
  | some s =>
    simp only [hg, pure_eq_ok] at h5
    exact ⟨s, rfl, h5.symm⟩

/-- C19: both length routines are monotone in the store's byte length. For a
fixed view, if the routine returns `n1` when the buffer's store has byte length
`L1` and the store later has byte length `L2 ≥ L1`, then
`LengthTrackingGsabBackedTypedArrayLength` succeeds again and returns some
`n2 ≥ n1`; and if `GsabByteLength` returns `n1` in the first state, it returns
`L2 ≥ n1` in the second. -/
theorem C19_length_monotone (cfg : Config) (iso1 iso2 : Isolate) (array : JSTypedArray)
    (s1 s2 : BackingStore)
    (h1 : GetBackingStore iso1 array.buffer = some s1)
    (h2 : GetBackingStore iso2 array.buffer = some s2)
    (hle : s1.byte_length ≤ s2.byte_length) :
    (∀ n1, LengthTrackingGsabBackedTypedArrayLength cfg iso1 array = .ok n1 →
      array.byte_offset ≤ s1.byte_length ∧
      ∃ n2, LengthTrackingGsabBackedTypedArrayLength cfg iso2 array = .ok n2 ∧ n1 ≤ n2) ∧
    (∀ n1, GsabByteLength cfg iso1 array.buffer = .ok n1 →
      n1 = s1.byte_length ∧
      GsabByteLength cfg iso2 array.buffer = .ok s2.byte_length ∧ n1 ≤ s2.byte_length) := by
  constructor
  · intro n1 hn
    obtain ⟨hf, ht, hr, hs, hz, s, hg, ho, rfl⟩ := LengthTracking_ok cfg iso1 array n1 hn
    rw [h1] at hg
    obtain rfl := Option.some.inj hg
    refine ⟨ho, _, ?_, Nat.div_le_div_right (Nat.sub_le_sub_right hle _)⟩
    rw [LengthTracking_eq cfg iso2 array hf (Nat.pos_of_ne_zero hz)]
    have : ¬ s2.byte_length < array.byte_offset := by omega
    simp [ht, hr, hs, h2, this]
  · intro n1 hn
    obtain ⟨hf, s, hg, rfl⟩ := GsabByteLength_ok cfg iso1 array.buffer n1 hn
    rw [h1] at hg
    obtain rfl := Option.some.inj hg
    refine ⟨rfl, ?_, hle⟩
    have hrs : array.buffer.is_resizable = true ∧ array.buffer.is_shared = true := by
      unfold GsabByteLength at hn
      simp only [bind_eq_ok, DCHECK_eq_ok, CHECK_eq_ok, exists_const] at hn
      exact ⟨hn.2.1, hn.2.2.1⟩
    rw [GsabByteLength_eq cfg iso2 array.buffer hf]
    simp [hrs.1, hrs.2, h2]

/-- C19 at a concrete input: the store grows from 32 to 48 bytes; the view of
two-byte elements at offset 3 goes from 14 to 22 elements. -/
theorem C19_length_monotone_witness :
    storeGsab.byte_length ≤ storeGsabGrown.byte_length ∧
      LengthTrackingGsabBackedTypedArrayLength debugBuild gsabIsolate trackingArray = .ok 14 ∧
      LengthTrackingGsabBackedTypedArrayLength debugBuild gsabIsolateGrown trackingArray
        = .ok 22 ∧
      ∃ n2, LengthTrackingGsabBackedTypedArrayLength debugBuild gsabIsolateGrown trackingArray
        = .ok n2 ∧ 14 ≤ n2 :=
  ⟨by decide, by decide, by decide,
    ((C19_length_monotone debugBuild gsabIsolate gsabIsolateGrown trackingArray storeGsab
      storeGsabGrown rfl rfl (by decide)).1 14 (by decide)).2⟩

/-- C20: a `Detach` that does not return early changes, in the buffer, only
the extension pointer, the data pointer, `byte_length` and `was_detached`:
`max_byte_length`, `is_shared`, `is_resizable`, `is_detachable`,
`is_external`, `is_asmjs_memory` and the embedder fields are as they were, and
`byte_length ≤ max_byte_length` holds afterwards. In the isolate it changes
only the buffer's extension object (whose store reference is cleared), that
extension's registry entry, and the protector with its invocation count. So
after `Attach(store)` and such a `Detach` the buffer still reports the
store's `max_byte_length`. -/
theorem C20_detach_frame (cfg : Config) (iso iso' : Isolate) (self self' : JSArrayBuffer)
    (force_for_wasm_memory : Bool)
    (hreal : DetachIsNoOp self force_for_wasm_memory = false)
    (h : Detach cfg iso self force_for_wasm_memory = .ok (iso', self')) :
    self' = { self with extension := none, backing_store := cfg.EmptyBackingStoreBuffer,
                        byte_length := 0, was_detached := true } ∧
    self'.max_byte_length = self.max_byte_length ∧
    self'.is_shared = self.is_shared ∧ self'.is_resizable = self.is_resizable ∧
    self'.is_detachable = self.is_detachable ∧ self'.is_external = self.is_external ∧
    self'.byte_length ≤ self'.max_byte_length ∧
    iso'.shared_array_buffer_constructed = iso.shared_array_buffer_constructed ∧
    iso'.extensions.length = iso.extensions.length ∧
    (∀ q, self.extension ≠ some q →
      iso'.extensions[q]? = iso.extensions[q]? ∧
      (q ∈ iso'.array_buffer_extensions ↔ q ∈ iso.array_buffer_extensions)) ∧
    (∀ (iso0 : Isolate) (self0 : JSArrayBuffer) (store : BackingStore),
      Attach cfg iso0 self0 store = .ok (iso, self) →
        self'.max_byte_length = store.max_byte_length) := by
  rw [Detach_real_ok_iff _ _ _ _ _ _ hreal] at h
  obtain ⟨-, -, rfl, rfl⟩ := h
  refine ⟨rfl, rfl, rfl, rfl, rfl, rfl, ?_, rfl, ?_, ?_, ?_⟩
  · simp [DetachedBuffer]
  · simp only [DetachedIsolate]
    cases hx : self.extension with
    | none => rfl
    | some p =>
      cases he : iso.extensions[p]? with
      | none => simp [he]
      | some e => simp [he]
  · intro q hq
    simp only [DetachedIsolate]
    cases hx : self.extension with
    | none => exact ⟨rfl, Iff.rfl⟩
    | some p =>
      have hne : p ≠ q := fun hpq => hq (by rw [hx, hpq])
      constructor
      · cases he : iso.extensions[p]? with
        | none => simp [he]
        | some e => simp [he, List.getElem?_set, hne]
      · simp only [List.mem_filter, bne_iff_ne, ne_eq]
        constructor
        · exact fun hm => hm.1
        · exact fun hm => ⟨hm, fun hqp => hne hqp.symm⟩
  · intro iso0 self0 store ha
    rw [Attach_ok_iff] at ha
    obtain ⟨-, -, -, -, rfl⟩ := ha
    rfl

/-- C20 at a concrete input: the buffer with `storeA` attached, detached. -/
theorem C20_detach_frame_witness :
    DetachIsNoOp attachedBuffer false = false ∧
      Detach debugBuild attachedIsolate attachedBuffer false
        = .ok (detachedIsolate, detachedBuffer) ∧
      detachedBuffer.max_byte_length = storeA.max_byte_length ∧
      detachedBuffer.byte_length ≤ detachedBuffer.max_byte_length := by
  have h := C20_detach_frame debugBuild attachedIsolate detachedIsolate attachedBuffer
    detachedBuffer false (by decide) (by decide)
  exact ⟨by decide, by decide,
    h.2.2.2.2.2.2.2.2.2.2 freshIsolate plainBuffer storeA (by decide), h.2.2.2.2.2.2.1⟩

theorem PropertyKey_of_name_string (rt : Runtime) (s : String)
    (h : (PropertyKey.of rt (.string s)).is_element = false) :
    (PropertyKey.of rt (.string s)).name = .string s := by
  unfold PropertyKey.of at h ⊢
  cases hi : rt.AsIntegerIndex (.string s) with
  | none => rfl
  | some i => simp [hi] at h

theorem PropertyKey_of_is_element (rt : Runtime) (key : Object) :
    (PropertyKey.of rt key).is_element = (rt.AsIntegerIndex key).isSome := by
  unfold PropertyKey.of
  cases rt.AsIntegerIndex key <;> rfl

/-- `JSTypedArray::DefineOwnProperty` always returns, and what it returns. -/
theorem DefineOwnProperty_eq (cfg : Config) (rt : Runtime) (o : JSTypedArray) (key : Object)
    (desc : PropertyDescriptor) (should_throw : Option ShouldThrow) :
    JSTypedArray.DefineOwnProperty cfg rt o key desc should_throw =
      .ok (if TreatedAsCanonical rt key then
          DefineOwnPropertyCanonical rt o key (PropertyKey.of rt key) (FlaggedMinusZero rt key) desc
            should_throw
        else rt.OrdinaryDefineOwnProperty o (PropertyKey.of rt key) desc should_throw) := by
  unfold JSTypedArray.DefineOwnProperty
  cases key with
  | smi i =>
    simp [Object.IsSmi, TreatedAsCanonical, FlaggedMinusZero, bind, Except.bind, pure, Except.pure]
  | heap_number b =>
    cases he : (PropertyKey.of rt (.heap_number b)).is_element <;>
      simp [he, Object.IsSmi, Object.IsString, TreatedAsCanonical, FlaggedMinusZero,
        CanonicalNumericIndexString, DCHECK, bind, Except.bind, pure, Except.pure]
  | symbol n =>
    cases he : (PropertyKey.of rt (.symbol n)).is_element <;>
      simp [he, Object.IsSmi, Object.IsString, TreatedAsCanonical, FlaggedMinusZero,
        CanonicalNumericIndexString, DCHECK, bind, Except.bind, pure, Except.pure]
  | string s =>
    cases he : (PropertyKey.of rt (.string s)).is_element
    · have hn := PropertyKey_of_name_string rt s he
      cases hm : (rt.ToNumber s).IsMinusZero <;>
        cases hr : (rt.ToString (rt.ToNumber s) == s) <;>
        simp_all [Object.IsSmi, Object.IsString, TreatedAsCanonical, FlaggedMinusZero,
          CanonicalNumericIndexString, DCHECK, bind, Except.bind, pure, Except.pure]
    · simp [he, Object.IsSmi, Object.IsString, TreatedAsCanonical, FlaggedMinusZero,
        CanonicalNumericIndexString, DCHECK, bind, Except.bind, pure, Except.pure]

/-- C11, what the code does. `JSTypedArray::DefineOwnProperty` treats a string
key as a canonical numeric index exactly when the key is an element index, or
`String::ToNumber` of the key is negative zero (`is_minus_zero` is then set),
or the string form of that number is the key itself; a symbol or heap-number
key is canonical exactly when it is an element index. For every other key the
call returns what `OrdinaryDefineOwnProperty` returns on the same arguments,
whatever the state of the view. The test for negative zero is made on the
number and not on the string: with a string conversion that, like
`String::ToNumber`, maps both `"-0"` and `"-0.0"` to negative zero, the key
`"-0.0"` is not the string `"-0"`, is not an element index and does not
convert back to itself, and yet it is treated as the canonical index negative
zero: the call fails with the invalid-index error and does not return the
result of `OrdinaryDefineOwnProperty`. -/
theorem C11_canonical_key :
    (∀ (cfg : Config) (rt : Runtime) (o : JSTypedArray) (s : String) (desc : PropertyDescriptor)
      (should_throw : Option ShouldThrow),
      (TreatedAsCanonical rt (.string s) = true ↔
        ((PropertyKey.of rt (.string s)).is_element = true ∨
          (rt.ToNumber s).IsMinusZero = true ∨ rt.ToString (rt.ToNumber s) = s)) ∧
      (TreatedAsCanonical rt (.string s) = false →
        JSTypedArray.DefineOwnProperty cfg rt o (.string s) desc should_throw =
          .ok (rt.OrdinaryDefineOwnProperty o (PropertyKey.of rt (.string s)) desc
            should_throw))) ∧
    (∀ (cfg : Config) (rt : Runtime) (o : JSTypedArray) (key : Object) (desc : PropertyDescriptor)
      (should_throw : Option ShouldThrow),
      key.IsString = false → (PropertyKey.of rt key).is_element = false → key.IsSmi = false →
        JSTypedArray.DefineOwnProperty cfg rt o key desc should_throw =
          .ok (rt.OrdinaryDefineOwnProperty o (PropertyKey.of rt key) desc should_throw)) ∧
    (TreatedAsCanonical sampleRuntime (.string "0") = true ∧
      TreatedAsCanonical sampleRuntime (.string "123") = true ∧
      TreatedAsCanonical sampleRuntime (.string "-0") = true ∧
      FlaggedMinusZero sampleRuntime (.string "-0") = true ∧
      TreatedAsCanonical sampleRuntime (.string "01") = false ∧
      TreatedAsCanonical sampleRuntime (.string "1.0") = false ∧
      TreatedAsCanonical sampleRuntime (.string "2E1") = false ∧
      TreatedAsCanonical sampleRuntime (.string " 1") = false) ∧
    ("-0.0" ≠ "-0" ∧
      (PropertyKey.of sampleRuntime (.string "-0.0")).is_element = false ∧
      sampleRuntime.ToString (sampleRuntime.ToNumber "-0.0") ≠ "-0.0" ∧
      TreatedAsCanonical sampleRuntime (.string "-0.0") = true ∧
      JSTypedArray.DefineOwnProperty debugBuild sampleRuntime sampleView (.string "-0.0")
          valueDescriptor (some .kThrowOnError) =
        .ok { outcome := .ReturnFailure .kThrowOnError (.TypeError .kInvalidTypedArrayIndex none),
              o := sampleView, desc := valueDescriptor } ∧
      JSTypedArray.DefineOwnProperty debugBuild sampleRuntime sampleView (.string "-0.0")
          valueDescriptor (some .kThrowOnError) ≠
        .ok (sampleRuntime.OrdinaryDefineOwnProperty sampleView
          (PropertyKey.of sampleRuntime (.string "-0.0")) valueDescriptor
          (some .kThrowOnError))) := by
  refine ⟨?_, ?_, by decide, by decide⟩
  · intro cfg rt o s desc should_throw
    constructor
    · simp [TreatedAsCanonical]
      tauto
    · intro h
      rw [DefineOwnProperty_eq, h]
      rfl
  · intro cfg rt o key desc should_throw hs he hi
    rw [DefineOwnProperty_eq]
    have : TreatedAsCanonical rt key = false := by
      cases key <;> simp_all [TreatedAsCanonical, Object.IsSmi, Object.IsString]
    rw [this]
    rfl

theorem DefineOwnProperty_canonical (cfg : Config) (rt : Runtime) (o : JSTypedArray)
    (key : Object) (desc : PropertyDescriptor) (should_throw : Option ShouldThrow)
    (h : TreatedAsCanonical rt key = true) :
    JSTypedArray.DefineOwnProperty cfg rt o key desc should_throw =
      .ok (DefineOwnPropertyCanonical rt o key (PropertyKey.of rt key) (FlaggedMinusZero rt key)
        desc should_throw) := by
  rw [DefineOwnProperty_eq, h]
  rfl

theorem InvalidTypedArrayIndex_iff (rt : Runtime) (o : JSTypedArray) (key : Object) :
    InvalidTypedArrayIndex rt o key = true ↔
    (FlaggedMinusZero rt key = true ∨ (PropertyKey.of rt key).is_element = false ∨
      o.WasDetached = true ∨ o.out_of_bounds = true ∨
      o.length ≤ (PropertyKey.of rt key).index) := by
  simp only [InvalidTypedArrayIndex, JSTypedArray.GetLengthOrOutOfBounds, Bool.or_eq_true,
    decide_eq_true_eq, ge_iff_le, Bool.not_eq_true']
  tauto

theorem RedefineDisallowed_iff (desc : PropertyDescriptor) :
    RedefineDisallowed desc = true ↔
    (desc.IsAccessorDescriptor = true ∨ desc.configurable = some false ∨
      desc.enumerable = some false ∨ desc.writable = some false) := by
  rcases desc with ⟨e, c, w, v, g, s⟩
  cases e <;> cases c <;> cases w <;>
    simp [RedefineDisallowed, PropertyDescriptor.has_configurable,
      PropertyDescriptor.has_enumerable, PropertyDescriptor.has_writable, or_assoc]

theorem Canonical_invalid (rt : Runtime) (o : JSTypedArray) (key : Object)
    (desc : PropertyDescriptor) (should_throw : Option ShouldThrow)
    (h : InvalidTypedArrayIndex rt o key = true) :
    DefineOwnPropertyCanonical rt o key (PropertyKey.of rt key) (FlaggedMinusZero rt key)
        desc should_throw =
      { outcome := RETURN_FAILURE (GetShouldThrow rt should_throw)
          (NewTypeError .kInvalidTypedArrayIndex none),
        o := o, desc := desc } := by
  unfold DefineOwnPropertyCanonical
  unfold InvalidTypedArrayIndex at h
  by_cases h1 : (o.WasDetached || o.GetLengthOrOutOfBounds.2 ||
      decide ((PropertyKey.of rt key).index ≥ o.GetLengthOrOutOfBounds.1)) = true
  · exact if_pos h1
  · have h2 : (!(PropertyKey.of rt key).is_element || FlaggedMinusZero rt key) = true := by
      rcases Bool.or_eq_true_iff.mp h with h | h
      · exact absurd h h1
      · exact h
    exact (if_neg h1).trans (if_pos h2)

theorem InvalidTypedArrayIndex_false (rt : Runtime) (o : JSTypedArray) (key : Object)
    (h : InvalidTypedArrayIndex rt o key = false) :
    ¬ ((o.WasDetached || o.GetLengthOrOutOfBounds.2 ||
        decide ((PropertyKey.of rt key).index ≥ o.GetLengthOrOutOfBounds.1)) = true) ∧
      ¬ ((!(PropertyKey.of rt key).is_element || FlaggedMinusZero rt key) = true) := by
  unfold InvalidTypedArrayIndex at h
  rw [Bool.or_eq_false_iff] at h
  exact ⟨by rw [h.1]; exact Bool.false_ne_true, by rw [h.2]; exact Bool.false_ne_true⟩

theorem Canonical_redefine (rt : Runtime) (o : JSTypedArray) (key : Object)
    (desc : PropertyDescriptor) (should_throw : Option ShouldThrow)
    (h : InvalidTypedArrayIndex rt o key = false) (hd : RedefineDisallowed desc = true) :
    DefineOwnPropertyCanonical rt o key (PropertyKey.of rt key) (FlaggedMinusZero rt key)
        desc should_throw =
      { outcome := RETURN_FAILURE (GetShouldThrow rt should_throw)
          (NewTypeError .kRedefineDisallowed (some key)),
        o := o, desc := desc } := by
  obtain ⟨h1, h2⟩ := InvalidTypedArrayIndex_false rt o key h
  unfold DefineOwnPropertyCanonical
  unfold RedefineDisallowed at hd
  refine (if_neg h1).trans ((if_neg h2).trans ?_)
  by_cases h3 : desc.IsAccessorDescriptor = true
  · exact if_pos h3
  · have h4 : ((desc.has_configurable && desc.configurable == some false) ||
        (desc.has_enumerable && desc.enumerable == some false) ||
        (desc.has_writable && desc.writable == some false)) = true := by
      rcases Bool.or_eq_true_iff.mp hd with h | h
      · exact absurd h h3
      · exact h
    exact (if_neg h3).trans (if_pos h4)

theorem RedefineDisallowed_false (desc : PropertyDescriptor)
    (h : RedefineDisallowed desc = false) :
    ¬ (desc.IsAccessorDescriptor = true) ∧
      ¬ (((desc.has_configurable && desc.configurable == some false) ||
        (desc.has_enumerable && desc.enumerable == some false) ||
        (desc.has_writable && desc.writable == some false)) = true) := by
  unfold RedefineDisallowed at h
  rw [Bool.or_eq_false_iff] at h
  exact ⟨by rw [h.1]; exact Bool.false_ne_true, by rw [h.2]; exact Bool.false_ne_true⟩

theorem Canonical_no_value (rt : Runtime) (o : JSTypedArray) (key : Object)
    (desc : PropertyDescriptor) (should_throw : Option ShouldThrow)
    (h : InvalidTypedArrayIndex rt o key = false) (hd : RedefineDisallowed desc = false)
    (hv : desc.value = none) :
    DefineOwnPropertyCanonical rt o key (PropertyKey.of rt key) (FlaggedMinusZero rt key)
        desc should_throw =
      { outcome := .Just true, o := o, desc := desc } := by
  obtain ⟨h1, h2⟩ := InvalidTypedArrayIndex_false rt o key h
  obtain ⟨h3, h4⟩ := RedefineDisallowed_false desc hd
  unfold DefineOwnPropertyCanonical
  refine (if_neg h1).trans ((if_neg h2).trans ((if_neg h3).trans ((if_neg h4).trans ?_)))
  rw [hv]

/-- The descriptor after lines 287-289 when it carried no explicitly false
flag. -/
theorem Defaulted_eq (desc : PropertyDescriptor) (hd : RedefineDisallowed desc = false) :
    (if !(if !(if !desc.has_configurable then desc.set_configurable true
              else desc).has_enumerable then
            (if !desc.has_configurable then desc.set_configurable true else desc).set_enumerable
              true
          else (if !desc.has_configurable then desc.set_configurable true else desc)).has_writable
      then
        (if !(if !desc.has_configurable then desc.set_configurable true
              else desc).has_enumerable then
            (if !desc.has_configurable then desc.set_configurable true else desc).set_enumerable
              true
          else (if !desc.has_configurable then desc.set_configurable true else desc)).set_writable
          true
      else
        (if !(if !desc.has_configurable then desc.set_configurable true
              else desc).has_enumerable then
            (if !desc.has_configurable then desc.set_configurable true else desc).set_enumerable
              true
          else (if !desc.has_configurable then desc.set_configurable true else desc))) =
      { desc with configurable := some true, enumerable := some true, writable := some true } := by
  rcases desc with ⟨e, c, w, v, g, s⟩
  rcases e with _ | _ | _ <;> rcases c with _ | _ | _ <;> rcases w with _ | _ | _ <;>
    simp_all [RedefineDisallowed, PropertyDescriptor.has_configurable,
      PropertyDescriptor.has_enumerable, PropertyDescriptor.has_writable,
      PropertyDescriptor.set_configurable, PropertyDescriptor.set_enumerable,
      PropertyDescriptor.set_writable]

theorem Canonical_value (rt : Runtime) (o : JSTypedArray) (key : Object)
    (desc : PropertyDescriptor) (should_throw : Option ShouldThrow) (value : Value)
    (h : InvalidTypedArrayIndex rt o key = false) (hd : RedefineDisallowed desc = false)
    (hv : desc.value = some value) :
    DefineOwnPropertyCanonical rt o key (PropertyKey.of rt key) (FlaggedMinusZero rt key)
        desc should_throw =
      { outcome :=
          (match (DefineOwnPropertyIgnoreAttributes rt o (PropertyKey.of rt key).index value
              allAttributes).2 with
            | some exception => .Nothing exception
            | none => .Just true),
        o := (DefineOwnPropertyIgnoreAttributes rt o (PropertyKey.of rt key).index value
              allAttributes).1,
        desc :=
          { desc with configurable := some true, enumerable := some true,
                      writable := some true } } := by
  obtain ⟨h1, h2⟩ := InvalidTypedArrayIndex_false rt o key h
  obtain ⟨h3, h4⟩ := RedefineDisallowed_false desc hd
  unfold DefineOwnPropertyCanonical
  refine (if_neg h1).trans ((if_neg h2).trans ((if_neg h3).trans ((if_neg h4).trans ?_)))
  rw [hv]
  simp only [Defaulted_eq desc hd]
  have ha : PropertyDescriptor.ToAttributes
      { desc with configurable := some true, enumerable := some true, writable := some true } =
      allAttributes := rfl
  rw [ha]
  cases (DefineOwnPropertyIgnoreAttributes rt o (PropertyKey.of rt key).index value
    allAttributes).2 <;> simp only [hv]
theorem TreatedAsCanonical_of_is_element (rt : Runtime) (key : Object)
    (h : (PropertyKey.of rt key).is_element = true) : TreatedAsCanonical rt key = true := by
  cases key <;> simp [TreatedAsCanonical, h]

theorem FlaggedMinusZero_of_is_element (rt : Runtime) (key : Object)
    (h : (PropertyKey.of rt key).is_element = true) : FlaggedMinusZero rt key = false := by
  cases key <;> simp [FlaggedMinusZero, h]

theorem InvalidTypedArrayIndex_of_valid (rt : Runtime) (o : JSTypedArray) (key : Object)
    (helement : (PropertyKey.of rt key).is_element = true) (hattached : o.WasDetached = false)
    (hbounds : o.out_of_bounds = false) (hindex : (PropertyKey.of rt key).index < o.length) :
    InvalidTypedArrayIndex rt o key = false := by
  rw [← Bool.not_eq_true, InvalidTypedArrayIndex_iff,
    FlaggedMinusZero_of_is_element rt key helement, helement, hattached, hbounds]
  simp only [Bool.false_eq_true, Bool.true_eq_false, false_or, not_le]
  exact hindex

theorem AfterCoercion_element_writes (o : JSTypedArray) (coercion : Coercion) :
    (o.AfterCoercion coercion).element_writes = o.element_writes := by
  unfold JSTypedArray.AfterCoercion
  cases coercion.resizes <;> cases coercion.detaches <;> rfl

theorem AfterCoercion_element_values (o : JSTypedArray) (coercion : Coercion) :
    (o.AfterCoercion coercion).element_values = o.element_values := by
  unfold JSTypedArray.AfterCoercion
  cases coercion.resizes <;> cases coercion.detaches <;> rfl

theorem AfterCoercion_WriteValid (o : JSTypedArray) (coercion : Coercion) (index : Nat)
    (writes : List ElementWrite) :
    WriteValid (JSTypedArray.AfterCoercion { o with element_writes := writes } coercion) index =
      WriteValid (o.AfterCoercion coercion) index := by
  unfold JSTypedArray.AfterCoercion
  cases coercion.resizes <;> cases coercion.detaches <;> rfl

theorem AfterCoercion_plain (o : JSTypedArray) (coercion : Coercion)
    (hdetaches : coercion.detaches = false) (hresizes : coercion.resizes = none) :
    o.AfterCoercion coercion = o := by
  unfold JSTypedArray.AfterCoercion
  rw [hdetaches, hresizes]
  rfl

theorem IgnoreAttributes_writes (rt : Runtime) (o : JSTypedArray) (index : Nat) (value : Value)
    (attributes : PropertyAttributes) :
    (DefineOwnPropertyIgnoreAttributes rt o index value attributes).1.element_writes =
      o.element_writes ++ [ElementWrite.mk index value attributes] := by
  unfold DefineOwnPropertyIgnoreAttributes
  simp only []
  split
  · exact AfterCoercion_element_writes _ _
  · split
    · exact AfterCoercion_element_writes _ _
    · exact AfterCoercion_element_writes _ _

theorem IgnoreAttributes_exception (rt : Runtime) (o : JSTypedArray) (index : Nat)
    (value : Value) (attributes : PropertyAttributes) :
    (DefineOwnPropertyIgnoreAttributes rt o index value attributes).2 =
      (rt.ValueCoercion value).exception := by
  unfold DefineOwnPropertyIgnoreAttributes
  simp only []
  split
  · rename_i e he; rw [he]
  · rename_i he; rw [he]; split <;> rfl

theorem IgnoreAttributes_read (rt : Runtime) (o : JSTypedArray) (index : Nat) (value : Value)
    (attributes : PropertyAttributes) (hcoerce : (rt.ValueCoercion value).exception = none)
    (hvalid : WriteValid (o.AfterCoercion (rt.ValueCoercion value)) index = true) :
    (DefineOwnPropertyIgnoreAttributes rt o index value attributes).1.GetElement index =
      some value := by
  have h := AfterCoercion_WriteValid o (rt.ValueCoercion value) index
    (o.element_writes ++ [ElementWrite.mk index value attributes])
  rw [hvalid] at h
  unfold WriteValid at h
  rw [Bool.not_eq_true'] at h
  unfold DefineOwnPropertyIgnoreAttributes
  simp only [hcoerce, h, Bool.false_eq_true, if_false]
  unfold JSTypedArray.GetElement
  have h2 : ∀ (v : JSTypedArray) (l : List (Nat × Value)),
      JSTypedArray.WasDetached { v with element_values := l } = v.WasDetached ∧
      JSTypedArray.GetLengthOrOutOfBounds { v with element_values := l } =
        v.GetLengthOrOutOfBounds := fun _ _ => ⟨rfl, rfl⟩
  rw [(h2 _ _).1, (h2 _ _).2, h]
  simp

theorem IgnoreAttributes_skipped (rt : Runtime) (o : JSTypedArray) (index : Nat) (value : Value)
    (attributes : PropertyAttributes) (hcoerce : (rt.ValueCoercion value).exception = none)
    (hvalid : WriteValid (o.AfterCoercion (rt.ValueCoercion value)) index = false) :
    (DefineOwnPropertyIgnoreAttributes rt o index value attributes).1.GetElement index = none ∧
      (DefineOwnPropertyIgnoreAttributes rt o index value attributes).1.element_values =
        o.element_values := by
  have h := AfterCoercion_WriteValid o (rt.ValueCoercion value) index
    (o.element_writes ++ [ElementWrite.mk index value attributes])
  rw [hvalid] at h
  unfold WriteValid at h
  rw [Bool.not_eq_false'] at h
  unfold DefineOwnPropertyIgnoreAttributes
  simp only [hcoerce, h, if_true]
  refine ⟨?_, AfterCoercion_element_values _ _⟩
  unfold JSTypedArray.GetElement
  rw [h]
  rfl

/-- How a call on a canonical key ends: with the invalid-index failure, with
the redefinition failure, with success and no write, or with the element
write. -/
theorem Canonical_cases (rt : Runtime) (o : JSTypedArray) (key : Object)
    (desc : PropertyDescriptor) (should_throw : Option ShouldThrow) :
    (InvalidTypedArrayIndex rt o key = true ∧
      DefineOwnPropertyCanonical rt o key (PropertyKey.of rt key) (FlaggedMinusZero rt key)
          desc should_throw =
        { outcome := RETURN_FAILURE (GetShouldThrow rt should_throw)
            (NewTypeError .kInvalidTypedArrayIndex none), o := o, desc := desc }) ∨
    (InvalidTypedArrayIndex rt o key = false ∧ RedefineDisallowed desc = true ∧
      DefineOwnPropertyCanonical rt o key (PropertyKey.of rt key) (FlaggedMinusZero rt key)
          desc should_throw =
        { outcome := RETURN_FAILURE (GetShouldThrow rt should_throw)
            (NewTypeError .kRedefineDisallowed (some key)), o := o, desc := desc }) ∨
    (InvalidTypedArrayIndex rt o key = false ∧ RedefineDisallowed desc = false ∧
      ∃ outcome o1 desc1, (∀ mode error, outcome ≠ .ReturnFailure mode error) ∧
        ∀ mode, DefineOwnPropertyCanonical rt o key (PropertyKey.of rt key)
          (FlaggedMinusZero rt key) desc mode = { outcome := outcome, o := o1, desc := desc1 }) := by
  cases hi : InvalidTypedArrayIndex rt o key
  · cases hd : RedefineDisallowed desc
    · refine Or.inr (Or.inr ⟨rfl, rfl, ?_⟩)
      cases hv : desc.value with
      | none =>
        exact ⟨_, _, _, fun _ _ h => Outcome.noConfusion h,
          fun mode => Canonical_no_value rt o key desc mode hi hd hv⟩
      | some value =>
        refine ⟨_, _, _, ?_, fun mode => Canonical_value rt o key desc mode value hi hd hv⟩
        intro mode error
        cases (DefineOwnPropertyIgnoreAttributes rt o (PropertyKey.of rt key).index value
          allAttributes).2 <;> exact fun h => Outcome.noConfusion h
    · exact Or.inr (Or.inl ⟨rfl, rfl, Canonical_redefine rt o key desc should_throw hi hd⟩)
  · exact Or.inl ⟨rfl, Canonical_invalid rt o key desc should_throw hi⟩

theorem RETURN_FAILURE_kind (mode : ShouldThrow) (key : Object) :
    RETURN_FAILURE mode (NewTypeError .kRedefineDisallowed (some key)) ≠
      RETURN_FAILURE mode (NewTypeError .kInvalidTypedArrayIndex none) := by
  simp [RETURN_FAILURE, NewTypeError]

/-- C12: for a key that the function treats as a canonical numeric index (an
integer key, an element index, a string whose number is negative zero or
whose number prints back as the string) and any descriptor,
`JSTypedArray::DefineOwnProperty` returns, and it leaves through
`RETURN_FAILURE` with the invalid-typed-array-index type error if and only if
the key is flagged as negative zero, or is not an element index, or the view
is detached, or the view's length is out of bounds, or the index is at least
the view's current length. In that case the view (so also its record of
element writes) and the descriptor are as they were. -/
theorem C12_invalid_index (cfg : Config) (rt : Runtime) (o : JSTypedArray) (key : Object)
    (desc : PropertyDescriptor) (should_throw : Option ShouldThrow)
    (hcanonical : TreatedAsCanonical rt key = true) :
    ∃ r, JSTypedArray.DefineOwnProperty cfg rt o key desc should_throw = .ok r ∧
      (r.outcome = RETURN_FAILURE (GetShouldThrow rt should_throw)
          (NewTypeError .kInvalidTypedArrayIndex none) ↔
        (FlaggedMinusZero rt key = true ∨ (PropertyKey.of rt key).is_element = false ∨
          o.WasDetached = true ∨ o.out_of_bounds = true ∨
          o.length ≤ (PropertyKey.of rt key).index)) ∧
      (r.outcome = RETURN_FAILURE (GetShouldThrow rt should_throw)
          (NewTypeError .kInvalidTypedArrayIndex none) →
        r.o = o ∧ r.o.element_writes = o.element_writes ∧ r.desc = desc) := by
  refine ⟨_, DefineOwnProperty_canonical cfg rt o key desc should_throw hcanonical, ?_⟩
  rw [← InvalidTypedArrayIndex_iff]
  rcases Canonical_cases rt o key desc should_throw with ⟨hi, h⟩ | ⟨hi, _, h⟩ | ⟨hi, _, h⟩
  · rw [h]
    exact ⟨⟨fun _ => hi, fun _ => rfl⟩, fun _ => ⟨rfl, rfl, rfl⟩⟩
  · rw [h, hi]
    exact ⟨⟨fun e => absurd e (RETURN_FAILURE_kind _ key), fun e => Bool.noConfusion e⟩,
      fun _ => ⟨rfl, rfl, rfl⟩⟩
  · obtain ⟨outcome, o1, desc1, hne, h⟩ := h
    rw [h should_throw, hi]
    exact ⟨⟨fun e => absurd e (hne _ _), fun e => Bool.noConfusion e⟩,
      fun e => absurd e (hne _ _)⟩

/-- C12 at concrete inputs: on a view of length 200, the key 500 is an
element index past the length. -/
theorem C12_invalid_index_witness :
    TreatedAsCanonical sampleRuntime (.smi 500) = true ∧
    ∃ r, JSTypedArray.DefineOwnProperty releaseBuild sampleRuntime sampleView (.smi 500)
        valueDescriptor (some .kThrowOnError) = .ok r ∧
      (r.outcome = RETURN_FAILURE (GetShouldThrow sampleRuntime (some .kThrowOnError))
          (NewTypeError .kInvalidTypedArrayIndex none) ↔
        (FlaggedMinusZero sampleRuntime (.smi 500) = true ∨
          (PropertyKey.of sampleRuntime (.smi 500)).is_element = false ∨
          sampleView.WasDetached = true ∨ sampleView.out_of_bounds = true ∨
          sampleView.length ≤ (PropertyKey.of sampleRuntime (.smi 500)).index)) ∧
      (r.outcome = RETURN_FAILURE (GetShouldThrow sampleRuntime (some .kThrowOnError))
          (NewTypeError .kInvalidTypedArrayIndex none) →
        r.o = sampleView ∧ r.o.element_writes = sampleView.element_writes ∧
          r.desc = valueDescriptor) :=
  ⟨by decide, C12_invalid_index releaseBuild sampleRuntime sampleView (.smi 500) valueDescriptor
    (some .kThrowOnError) (by decide)⟩

/-- C13: for a key that is an element index below the current length of a
view that is neither detached nor out of bounds,
`JSTypedArray::DefineOwnProperty` returns, and it leaves through
`RETURN_FAILURE` with the redefinition-disallowed type error if and only if
the descriptor is an accessor descriptor or carries configurable, enumerable
or writable explicitly false. In that case the view (so also its record of
element writes) and the descriptor are as they were. A data descriptor whose
three fields are each absent or true does not end so. -/
theorem C13_redefine_disallowed (cfg : Config) (rt : Runtime) (o : JSTypedArray) (key : Object)
    (desc : PropertyDescriptor) (should_throw : Option ShouldThrow)
    (helement : (PropertyKey.of rt key).is_element = true) (hattached : o.WasDetached = false)
    (hbounds : o.out_of_bounds = false) (hindex : (PropertyKey.of rt key).index < o.length) :
    ∃ r, JSTypedArray.DefineOwnProperty cfg rt o key desc should_throw = .ok r ∧
      (r.outcome = RETURN_FAILURE (GetShouldThrow rt should_throw)
          (NewTypeError .kRedefineDisallowed (some key)) ↔
        (desc.IsAccessorDescriptor = true ∨ desc.configurable = some false ∨
          desc.enumerable = some false ∨ desc.writable = some false)) ∧
      (r.outcome = RETURN_FAILURE (GetShouldThrow rt should_throw)
          (NewTypeError .kRedefineDisallowed (some key)) →
        r.o = o ∧ r.o.element_writes = o.element_writes ∧ r.desc = desc) ∧
      (desc.IsAccessorDescriptor = false →
        (desc.configurable = none ∨ desc.configurable = some true) →
        (desc.enumerable = none ∨ desc.enumerable = some true) →
        (desc.writable = none ∨ desc.writable = some true) →
        ∀ mode error, r.outcome ≠ .ReturnFailure mode error) := by
  have hvalid := InvalidTypedArrayIndex_of_valid rt o key helement hattached hbounds hindex
  refine ⟨_, DefineOwnProperty_canonical cfg rt o key desc should_throw
    (TreatedAsCanonical_of_is_element rt key helement), ?_⟩
  rw [← RedefineDisallowed_iff]
  rcases Canonical_cases rt o key desc should_throw with ⟨hi, _⟩ | ⟨_, hd, h⟩ | ⟨_, hd, h⟩
  · rw [hvalid] at hi
    exact Bool.noConfusion hi
  · rw [h]
    refine ⟨⟨fun _ => hd, fun _ => rfl⟩, fun _ => ⟨rfl, rfl, rfl⟩, ?_⟩
    intro ha hc he hw
    have hn : ¬ (RedefineDisallowed desc = true) := by
      rw [RedefineDisallowed_iff, ha]
      rintro (h | h | h | h)
      · exact Bool.noConfusion h
      · rcases hc with hc | hc <;> rw [hc] at h <;> simp at h
      · rcases he with he | he <;> rw [he] at h <;> simp at h
      · rcases hw with hw | hw <;> rw [hw] at h <;> simp at h
    exact absurd hd hn
  · obtain ⟨outcome, o1, desc1, hne, h⟩ := h
    rw [h should_throw, hd]
    exact ⟨⟨fun e => absurd e (hne _ _), fun e => Bool.noConfusion e⟩,
      fun e => absurd e (hne _ _), fun _ _ _ _ => hne⟩

/-- C13 at concrete inputs: the key 3 on a view of length 200, with a
descriptor that carries configurable false. -/
theorem C13_redefine_disallowed_witness :
    ((PropertyKey.of sampleRuntime (.smi 3)).is_element = true ∧
      sampleView.WasDetached = false ∧ sampleView.out_of_bounds = false ∧
      (PropertyKey.of sampleRuntime (.smi 3)).index < sampleView.length) ∧
    ∃ r, JSTypedArray.DefineOwnProperty releaseBuild sampleRuntime sampleView (.smi 3)
        { valueDescriptor with configurable := some false } (some .kDontThrow) = .ok r ∧
      r.outcome = RETURN_FAILURE .kDontThrow (NewTypeError .kRedefineDisallowed (some (.smi 3))) ∧
      r.o = sampleView := by
  refine ⟨by decide, ?_⟩
  obtain ⟨r, hr, hiff, hframe, _⟩ := C13_redefine_disallowed releaseBuild sampleRuntime sampleView
    (.smi 3) { valueDescriptor with configurable := some false } (some .kDontThrow)
    (by decide) (by decide) (by decide) (by decide)
  have ho := hiff.mpr (Or.inr (Or.inl rfl))
  exact ⟨r, hr, ho, (hframe ho).1⟩

/-- C14 fails as stated: when coercing the value detaches the buffer of the
view, the call on the in-bounds key 3 with a descriptor that carries only a
value still returns `Just(true)`, but the write is skipped and a subsequent
read of index 3 does not return the value. -/
theorem C14_counterexample :
    ((PropertyKey.of detachingRuntime (.smi 3)).is_element = true ∧
      sampleView.WasDetached = false ∧ sampleView.out_of_bounds = false ∧
      (PropertyKey.of detachingRuntime (.smi 3)).index < sampleView.length ∧
      valueDescriptor.IsAccessorDescriptor = false ∧ valueDescriptor.value = some (Value.mk 7) ∧
      (detachingRuntime.ValueCoercion (Value.mk 7)).exception = none) ∧
    (JSTypedArray.DefineOwnProperty releaseBuild detachingRuntime sampleView (.smi 3)
        valueDescriptor none).map
      (fun r => (r.outcome, r.o.GetElement 3, r.o.WasDetached, r.o.element_values)) =
      .ok (.Just true, none, true, []) := by
  decide

/-- C14, as the code has it: for a key that is an element index below the
current length of a view that is neither detached nor out of bounds, and a
data descriptor that carries a value and no explicitly false flag,
`JSTypedArray::DefineOwnProperty` returns; the descriptor it leaves has
configurable, enumerable and writable true and is otherwise as given; exactly
one element write is recorded, of the descriptor's value at that index with
all three attributes on; when the write raises an exception the result is
`Nothing` with that exception pending; when it raises none the result is
`Just(true)`. In that case, if after the coercion of the value the view is
still attached, in bounds and longer than the index (as it is when the
coercion neither detaches nor resizes the buffer, and then the buffer of the
view is also as it was), reading the element at that index gives the value;
if not, the write is skipped: the stored elements are as they were and the
read gives nothing. -/
theorem C14_value_written (cfg : Config) (rt : Runtime) (o : JSTypedArray) (key : Object)
    (desc : PropertyDescriptor) (should_throw : Option ShouldThrow) (value : Value)
    (helement : (PropertyKey.of rt key).is_element = true) (hattached : o.WasDetached = false)
    (hbounds : o.out_of_bounds = false) (hindex : (PropertyKey.of rt key).index < o.length)
    (hdata : desc.IsAccessorDescriptor = false) (hvalue : desc.value = some value)
    (hconfigurable : desc.configurable ≠ some false)
    (henumerable : desc.enumerable ≠ some false) (hwritable : desc.writable ≠ some false) :
    ∃ r, JSTypedArray.DefineOwnProperty cfg rt o key desc should_throw = .ok r ∧
      r.desc = { desc with configurable := some true, enumerable := some true,
                           writable := some true } ∧
      r.o.element_writes =
        o.element_writes ++ [ElementWrite.mk (PropertyKey.of rt key).index value allAttributes] ∧
      (∀ exception, (rt.ValueCoercion value).exception = some exception →
        r.outcome = .Nothing exception) ∧
      ((rt.ValueCoercion value).exception = none →
        r.outcome = .Just true ∧ r.outcome.result = some true ∧
        (WriteValid (o.AfterCoercion (rt.ValueCoercion value)) (PropertyKey.of rt key).index =
            true →
          r.o.GetElement (PropertyKey.of rt key).index = some value) ∧
        (WriteValid (o.AfterCoercion (rt.ValueCoercion value)) (PropertyKey.of rt key).index =
            false →
          r.o.GetElement (PropertyKey.of rt key).index = none ∧
            r.o.element_values = o.element_values) ∧
        ((rt.ValueCoercion value).detaches = false → (rt.ValueCoercion value).resizes = none →
          r.o.GetElement (PropertyKey.of rt key).index = some value ∧
            r.o.buffer = o.buffer)) := by
  have hvalid := InvalidTypedArrayIndex_of_valid rt o key helement hattached hbounds hindex
  have hd : RedefineDisallowed desc = false := by
    rw [← Bool.not_eq_true, RedefineDisallowed_iff, hdata]
    rintro (h | h | h | h)
    · exact Bool.noConfusion h
    · exact hconfigurable h
    · exact henumerable h
    · exact hwritable h
  have h2 := IgnoreAttributes_exception rt o (PropertyKey.of rt key).index value allAttributes
  refine ⟨_, (DefineOwnProperty_canonical cfg rt o key desc should_throw
    (TreatedAsCanonical_of_is_element rt key helement)).trans
      (congrArg Except.ok (Canonical_value rt o key desc should_throw value hvalid hd hvalue)),
    rfl, IgnoreAttributes_writes rt o _ value allAttributes, ?_, ?_⟩
  · intro exception he
    rw [he] at h2
    simp only [h2]
  · intro he
    have h3 := h2
    rw [he] at h3
    simp only [h3]
    refine ⟨trivial, rfl, IgnoreAttributes_read rt o _ value allAttributes he,
      IgnoreAttributes_skipped rt o _ value allAttributes he, ?_⟩
    intro hdetaches hresizes
    have hplain := AfterCoercion_plain o (rt.ValueCoercion value) hdetaches hresizes
    have hw : WriteValid o (PropertyKey.of rt key).index = true := by
      have hattached' : o.buffer.was_detached = false := hattached
      simp [WriteValid, JSTypedArray.WasDetached, JSTypedArray.GetLengthOrOutOfBounds, hattached',
        hbounds, hindex]
    refine ⟨IgnoreAttributes_read rt o _ value allAttributes he (by rw [hplain]; exact hw), ?_⟩
    have hplain2 := AfterCoercion_plain
      { o with element_writes := o.element_writes ++
          [ElementWrite.mk (PropertyKey.of rt key).index value allAttributes] }
      (rt.ValueCoercion value) hdetaches hresizes
    unfold DefineOwnPropertyIgnoreAttributes
    simp only [he, hplain2]
    split <;> rfl

/-- C14 at concrete inputs: the key 3 on a view of length 200, with a
descriptor that carries only the value 7 and a coercion without effect. -/
theorem C14_value_written_witness :
    ((PropertyKey.of sampleRuntime (.smi 3)).is_element = true ∧
      sampleView.WasDetached = false ∧ sampleView.out_of_bounds = false ∧
      (PropertyKey.of sampleRuntime (.smi 3)).index < sampleView.length ∧
      valueDescriptor.IsAccessorDescriptor = false ∧ valueDescriptor.value = some (Value.mk 7)) ∧
    ∃ r, JSTypedArray.DefineOwnProperty releaseBuild sampleRuntime sampleView (.smi 3)
        valueDescriptor none = .ok r ∧
      r.outcome = .Just true ∧ r.o.GetElement 3 = some (Value.mk 7) ∧
      r.o.element_writes = [ElementWrite.mk 3 (Value.mk 7) allAttributes] ∧
      r.desc.configurable = some true ∧ r.desc.enumerable = some true ∧
      r.desc.writable = some true := by
  refine ⟨by decide, ?_⟩
  obtain ⟨r, hr, hdesc, hwrites, _, hok⟩ := C14_value_written releaseBuild sampleRuntime
    sampleView (.smi 3) valueDescriptor none (Value.mk 7) (by decide) (by decide) (by decide)
    (by decide) (by decide) (by decide) (by decide) (by decide) (by decide)
  exact ⟨r, hr, (hok rfl).1, ((hok rfl).2.2.2.2 rfl rfl).1, hwrites, by rw [hdesc], by rw [hdesc],
    by rw [hdesc]⟩

/-- C15: for a key that is an element index below the current length of a
view that is neither detached nor out of bounds, and a descriptor that is not
an accessor descriptor, carries no value and carries no explicitly false
configurable, enumerable or writable field, `JSTypedArray::DefineOwnProperty`
returns `Just(true)`; the view, with its record of element writes, its
element values and its buffer, and the descriptor are as they were. -/
theorem C15_attributes_only (cfg : Config) (rt : Runtime) (o : JSTypedArray) (key : Object)
    (desc : PropertyDescriptor) (should_throw : Option ShouldThrow)
    (helement : (PropertyKey.of rt key).is_element = true) (hattached : o.WasDetached = false)
    (hbounds : o.out_of_bounds = false) (hindex : (PropertyKey.of rt key).index < o.length)
    (hdata : desc.IsAccessorDescriptor = false) (hvalue : desc.value = none)
    (hconfigurable : desc.configurable ≠ some false)
    (henumerable : desc.enumerable ≠ some false) (hwritable : desc.writable ≠ some false) :
    ∃ r, JSTypedArray.DefineOwnProperty cfg rt o key desc should_throw = .ok r ∧
      r.outcome = .Just true ∧ r.outcome.result = some true ∧
      r.outcome.pending_exception = none ∧
      r.o = o ∧ r.o.element_writes = o.element_writes ∧
      r.o.element_values = o.element_values ∧ r.o.buffer = o.buffer ∧ r.desc = desc := by
  have hvalid := InvalidTypedArrayIndex_of_valid rt o key helement hattached hbounds hindex
  have hd : RedefineDisallowed desc = false := by
    rw [← Bool.not_eq_true, RedefineDisallowed_iff, hdata]
    rintro (h | h | h | h)
    · exact Bool.noConfusion h
    · exact hconfigurable h
    · exact henumerable h
    · exact hwritable h
  exact ⟨_, (DefineOwnProperty_canonical cfg rt o key desc should_throw
    (TreatedAsCanonical_of_is_element rt key helement)).trans
      (congrArg Except.ok (Canonical_no_value rt o key desc should_throw hvalid hd hvalue)),
    rfl, rfl, rfl, rfl, rfl, rfl, rfl, rfl⟩

/-- C15 at concrete inputs: the key 3 on a view of length 200, with a
descriptor that carries nothing. -/
theorem C15_attributes_only_witness :
    ((PropertyKey.of sampleRuntime (.smi 3)).is_element = true ∧
      sampleView.WasDetached = false ∧ sampleView.out_of_bounds = false ∧
      (PropertyKey.of sampleRuntime (.smi 3)).index < sampleView.length ∧
      emptyDescriptor.IsAccessorDescriptor = false ∧ emptyDescriptor.value = none) ∧
    ∃ r, JSTypedArray.DefineOwnProperty releaseBuild sampleRuntime sampleView (.smi 3)
        emptyDescriptor (some .kThrowOnError) = .ok r ∧
      r.outcome = .Just true ∧ r.outcome.result = some true ∧
      r.outcome.pending_exception = none ∧
      r.o = sampleView ∧ r.o.element_writes = sampleView.element_writes ∧
      r.o.element_values = sampleView.element_values ∧ r.o.buffer = sampleView.buffer ∧
      r.desc = emptyDescriptor :=
  ⟨by decide, C15_attributes_only releaseBuild sampleRuntime sampleView (.smi 3) emptyDescriptor
    (some .kThrowOnError) (by decide) (by decide) (by decide) (by decide) (by decide)
    (by decide) (by decide) (by decide) (by decide)⟩

/-- C16 fails as stated: when the element write of lines 291-294 raises a
type error (here from coercing the value), the throw-on-error call on the
in-bounds key 3 yields a thrown type error, while the don't-throw call on the
same view, key and descriptor does not yield `false`: it also returns no
result, with the same type error pending. -/
theorem C16_counterexample :
    TreatedAsCanonical throwingRuntime (.smi 3) = true ∧
    (JSTypedArray.DefineOwnProperty releaseBuild throwingRuntime sampleView (.smi 3)
        valueDescriptor (some .kThrowOnError)).map
      (fun r => (r.outcome.result, r.outcome.pending_exception.map Exception.IsTypeError)) =
      .ok (none, some true) ∧
    (JSTypedArray.DefineOwnProperty releaseBuild throwingRuntime sampleView (.smi 3)
        valueDescriptor (some .kDontThrow)).map
      (fun r => (decide (r.outcome.result = some false), r.outcome.result,
        r.outcome.pending_exception.map Exception.IsTypeError)) =
      .ok (false, none, some true) := by
  decide

/-- C16, as the code has it: for a key that the function treats as a canonical
numeric index, the call of `JSTypedArray::DefineOwnProperty` with
throw-on-error and the call with don't-throw on the same view, key and
descriptor both return; one leaves through `RETURN_FAILURE` with an error
exactly when the other does with the same error, which is the invalid-index or
the redefinition-disallowed type error; the throw-on-error call leaves through
`RETURN_FAILURE` (no result, the type error pending) exactly when the
don't-throw call gives the result `false`, and then no exception is pending
there; a call that leaves through `RETURN_FAILURE` leaves the view, with its
record of element writes, and the descriptor as they were; and calls that do
not leave so end alike in both modes: in particular an exception raised by the
element write is pending after both calls, and neither gives a result. -/
theorem C16_strictness_independent (cfg : Config) (rt : Runtime) (o : JSTypedArray)
    (key : Object) (desc : PropertyDescriptor) (hcanonical : TreatedAsCanonical rt key = true) :
    ∃ strict sloppy,
      JSTypedArray.DefineOwnProperty cfg rt o key desc (some .kThrowOnError) = .ok strict ∧
      JSTypedArray.DefineOwnProperty cfg rt o key desc (some .kDontThrow) = .ok sloppy ∧
      (∀ error, strict.outcome = RETURN_FAILURE .kThrowOnError error ↔
        sloppy.outcome = RETURN_FAILURE .kDontThrow error) ∧
      (∀ mode error, strict.outcome = .ReturnFailure mode error →
        mode = .kThrowOnError ∧
          (error = NewTypeError .kInvalidTypedArrayIndex none ∨
            error = NewTypeError .kRedefineDisallowed (some key))) ∧
      ((∃ template arg, strict.outcome = RETURN_FAILURE .kThrowOnError (.TypeError template arg) ∧
          strict.outcome.result = none ∧
          strict.outcome.pending_exception = some (.TypeError template arg)) ↔
        sloppy.outcome.result = some false) ∧
      (sloppy.outcome.result = some false → sloppy.outcome.pending_exception = none) ∧
      ((∃ error, strict.outcome = RETURN_FAILURE .kThrowOnError error) →
        strict.o = o ∧ strict.o.element_writes = o.element_writes ∧ strict.desc = desc) ∧
      ((∃ error, sloppy.outcome = RETURN_FAILURE .kDontThrow error) →
        sloppy.o = o ∧ sloppy.o.element_writes = o.element_writes ∧ sloppy.desc = desc) ∧
      ((∀ error, strict.outcome ≠ RETURN_FAILURE .kThrowOnError error) → sloppy = strict) ∧
      (∀ exception, strict.outcome = .Nothing exception ↔ sloppy.outcome = .Nothing exception) ∧
      (∀ exception, sloppy.outcome = .Nothing exception →
        sloppy.outcome.result = none ∧ sloppy.outcome.pending_exception = some exception ∧
          strict.outcome.result = none ∧
          strict.outcome.pending_exception = some exception) := by
  refine ⟨_, _, DefineOwnProperty_canonical cfg rt o key desc _ hcanonical,
    DefineOwnProperty_canonical cfg rt o key desc _ hcanonical, ?_⟩
  rcases Canonical_cases rt o key desc (some .kThrowOnError) with
    ⟨hi, h⟩ | ⟨hi, hd, h⟩ | ⟨hi, hd, h⟩
  · rw [h, Canonical_invalid rt o key desc (some .kDontThrow) hi]
    simp [RETURN_FAILURE, NewTypeError, GetShouldThrow, Outcome.result,
      Outcome.pending_exception]
  · rw [h, Canonical_redefine rt o key desc (some .kDontThrow) hi hd]
    simp [RETURN_FAILURE, NewTypeError, GetShouldThrow, Outcome.result,
      Outcome.pending_exception]
  · obtain ⟨outcome, o1, desc1, hne, h⟩ := h
    rw [h (some .kThrowOnError), h (some .kDontThrow)]
    have hr : outcome.result ≠ some false := by
      cases hv : desc.value with
      | none =>
        have e := (h none).symm.trans (Canonical_no_value rt o key desc none hi hd hv)
        have e2 : outcome = .Just true := congrArg DefineOwnPropertyResult.outcome e
        rw [e2]
        simp [Outcome.result]
      | some value =>
        have e := (h none).symm.trans (Canonical_value rt o key desc none value hi hd hv)
        have e2 : outcome = _ := congrArg DefineOwnPropertyResult.outcome e
        rw [e2]
        cases (DefineOwnPropertyIgnoreAttributes rt o (PropertyKey.of rt key).index value
          allAttributes).2 <;> simp [Outcome.result]
    refine ⟨fun error => ⟨fun e => absurd e (hne _ _), fun e => absurd e (hne _ _)⟩,
      fun mode error e => absurd e (hne _ _),
      ⟨fun ⟨_, _, e, _⟩ => absurd e (hne _ _), fun e => absurd e hr⟩,
      fun e => absurd e hr,
      fun ⟨_, e⟩ => absurd e (hne _ _), fun ⟨_, e⟩ => absurd e (hne _ _), fun _ => rfl,
      fun _ => Iff.rfl, ?_⟩
    intro exception e
    have e2 : outcome = .Nothing exception := e
    rw [e2]
    exact ⟨rfl, rfl, rfl, rfl⟩

/-- C16 at concrete inputs: the key 500, past the length of the view, fails
in both modes with the same error; thrown in one, `false` in the other. -/
theorem C16_strictness_independent_witness :
    TreatedAsCanonical sampleRuntime (.smi 500) = true ∧
    ∃ strict sloppy,
      JSTypedArray.DefineOwnProperty releaseBuild sampleRuntime sampleView (.smi 500)
        valueDescriptor (some .kThrowOnError) = .ok strict ∧
      JSTypedArray.DefineOwnProperty releaseBuild sampleRuntime sampleView (.smi 500)
        valueDescriptor (some .kDontThrow) = .ok sloppy ∧
      (∀ error, strict.outcome = RETURN_FAILURE .kThrowOnError error ↔
        sloppy.outcome = RETURN_FAILURE .kDontThrow error) ∧
      sloppy.outcome.result = some false := by
  refine ⟨by decide, ?_⟩
  obtain ⟨strict, sloppy, h1, h2, hsame, _, _, _, _, _, _, _, _⟩ := C16_strictness_independent
    releaseBuild sampleRuntime sampleView (.smi 500) valueDescriptor (by decide)
  refine ⟨strict, sloppy, h1, h2, hsame, ?_⟩
  have e : JSTypedArray.DefineOwnProperty releaseBuild sampleRuntime sampleView (.smi 500)
      valueDescriptor (some .kDontThrow) =
      .ok ⟨.ReturnFailure .kDontThrow (.TypeError .kInvalidTypedArrayIndex none), sampleView,
        valueDescriptor⟩ := by decide
  rw [e] at h2
  cases h2
  rfl

theorem Allocate_some (alloc : Allocator) (n : Nat) (store : BackingStore)
    (h : BackingStore.Allocate alloc n SharedFlag.kNotShared = some store) :
    store.byte_length = n ∧ store.max_byte_length = n ∧ store.is_shared = false ∧
      store.is_resizable = false ∧ store.is_wasm_memory = false ∧
      store.free_on_destruct = true ∧ store.memory.length = n ∧
      (store.IsEmpty = false → store.buffer_start ≠ 0) ∧ (n = 0 → store.memory = []) := by
  unfold BackingStore.Allocate at h
  by_cases hn : n = 0
  · rw [if_pos hn] at h
    cases h
    simp [hn]
  · rw [if_neg hn] at h
    cases ha : alloc.allocate n with
    | none => rw [ha] at h; cases h
    | some start =>
      rw [ha] at h
      by_cases hs : start = 0
      · simp [hs] at h
      · simp only [hs, if_false, Option.some.injEq] at h
        subst h
        simp [hs, hn]

theorem Allocate_IsEmpty (alloc : Allocator) (n : Nat) (store : BackingStore)
    (h : BackingStore.Allocate alloc n SharedFlag.kNotShared = some store) :
    store.IsEmpty = decide (n = 0) := by
  unfold BackingStore.Allocate at h
  by_cases hn : n = 0
  · rw [if_pos hn] at h
    cases h
    simp [hn]
  · rw [if_neg hn] at h
    cases ha : alloc.allocate n with
    | none => rw [ha] at h; cases h
    | some start =>
      rw [ha] at h
      by_cases hs : start = 0
      · simp [hs] at h
      · simp only [hs, if_false, Option.some.injEq] at h
        subst h
        simp [hn]

theorem GetBackingStore_first_attach (cfg : Config) (iso : Isolate) (self : JSArrayBuffer)
    (bs : BackingStore) (hx : self.extension = none) :
    GetBackingStore (AttachedIsolate iso self bs) (AttachedBuffer cfg iso self bs) = some bs := by
  simp [GetBackingStore, AttachedIsolate, AttachedBuffer, hx]

/-- What `Setup(kNotShared, kNotResizable, store)` gives for a store that
`BackingStore::Allocate` made and that holds no more than `kMaxByteLength`
bytes. -/
theorem Setup_allocated (cfg : Config) (iso : Isolate) (self : JSArrayBuffer) (s : BackingStore)
    (hshared : s.is_shared = false) (hresizable : s.is_resizable = false)
    (hlen : s.byte_length = s.max_byte_length) (hstart : s.IsEmpty = false → s.buffer_start ≠ 0)
    (hmax : s.byte_length ≤ cfg.kMaxByteLength) :
    Setup cfg iso self SharedFlag.kNotShared ResizableFlag.kNotResizable (some s) =
      .ok (AttachedIsolate iso
            (InitialisedBuffer cfg self SharedFlag.kNotShared ResizableFlag.kNotResizable) s,
          AttachedBuffer cfg iso
            (InitialisedBuffer cfg self SharedFlag.kNotShared ResizableFlag.kNotResizable) s) := by
  rw [Setup_some_ok_iff]
  refine ⟨_, (Attach_ok_iff _ _ _ _ _ _).mpr ⟨fun _ => ⟨?_, hstart⟩, fun _ => hmax, ?_, rfl, rfl⟩, ?_⟩
  · simp [AttachPreconditions, InitialisedBuffer, hshared, hresizable, hlen,
      JSArrayBuffer.set_extension, JSArrayBuffer.zero_embedder_fields,
      JSArrayBuffer.set_is_detachable, JSArrayBuffer.set_is_resizable,
      JSArrayBuffer.set_is_shared, JSArrayBuffer.set_bit_field_zero]
  · intro p hp
    simp [InitialisedBuffer, JSArrayBuffer.set_extension] at hp
  · simp
/-- The store that `GetBuffer` attaches: the allocated store after the copy of
lines 210-212. -/
theorem Copied_store (store : BackingStore) (B : List Nat) (n : Nat) (hB : n = B.length)
    (hm : store.memory.length = n) (h0 : n = 0 → store.memory = []) :
    (if n > 0 then store.memcpy B n else store) = { store with memory := B } := by
  by_cases hn : n > 0
  · rw [if_pos hn]
    unfold BackingStore.memcpy
    rw [hB, List.take_length, List.drop_eq_nil_of_le (by omega), List.append_nil]
  · rw [if_neg hn]
    have hz : n = 0 := by omega
    have hb : B = [] := List.length_eq_zero.mp (by omega)
    rw [hb, ← h0 hz]

/-- `GetBuffer` on an on-heap view whose buffer is empty and not resizable,
when the allocation succeeds. -/
theorem GetBuffer_on_heap (cfg : Config) (alloc : Allocator) (iso : Isolate)
    (self : JSTypedArray) (store : BackingStore)
    (hheap : self.on_heap = true) (hlength : self.byte_length = self.DataPtr.length)
    (hresizable : self.buffer.is_resizable = false) (hempty : self.buffer.IsEmpty iso = true)
    (halloc : BackingStore.Allocate alloc self.byte_length SharedFlag.kNotShared = some store)
    (hmax : self.byte_length ≤ cfg.kMaxByteLength) :
    self.GetBuffer cfg alloc iso =
      .ok (PromotedIsolate cfg iso self store, PromotedView cfg iso self store,
        PromotedBuffer cfg iso self store) := by
  obtain ⟨h1, h2, h3, h4, _, _, h7, h8, h9⟩ := Allocate_some alloc _ store halloc
  have hsetup := Setup_allocated cfg iso self.buffer { store with memory := self.DataPtr }
    h3 h4 (h1.trans h2.symm) h8 (by rw [h1]; exact hmax)
  unfold JSTypedArray.GetBuffer
  simp only [hheap, Bool.not_true, Bool.false_eq_true, if_false, halloc,
    Copied_store store self.DataPtr self.byte_length hlength h7 h9, hsetup, hresizable, hempty]
  cases cfg.debug <;>
    simp [DCHECK, bind, Except.bind, pure, Except.pure, JSTypedArray.SetOffHeapDataPtr,
      JSTypedArray.set_elements, PromotedIsolate, PromotedView, PromotedBuffer]
/-- C17 fails as stated: for an on-heap view with no inline bytes the store
that `GetBuffer` attaches is the empty region, whose start is null, and the
view's data pointer is left at the empty-store sentinel (4096 in this build),
which is not offset 0 of that store. -/
theorem C17_counterexample :
    (emptyOnHeapView.on_heap = true ∧ emptyOnHeapView.DataPtr = [] ∧
      emptyOnHeapView.byte_length = 0 ∧ emptyOnHeapView.buffer.is_resizable = false ∧
      emptyOnHeapView.buffer.IsEmpty freshIsolate = true ∧
      (BackingStore.Allocate sampleAllocator 0 SharedFlag.kNotShared).isSome = true) ∧
    (emptyOnHeapView.GetBuffer debugBuild sampleAllocator freshIsolate).map
      (fun r => (r.2.1.data_pointer,
        (GetBackingStore r.1 r.2.2).map
          (fun s => (s.buffer_start + 0, decide (r.2.1.data_pointer = s.buffer_start + 0))))) =
      .ok (4096, some (0, false)) := by
  decide

/-- C17, as the code has it: for an on-heap view whose inline data is the byte
sequence `B` (its byte length is the length of `B`, within `kMaxByteLength`),
whose buffer is empty and not resizable, and for which
`BackingStore::Allocate` succeeds, `JSTypedArray::GetBuffer` returns the
view's buffer, re-initialised by `Setup` and attached to a store that is not
shared and not resizable, whose memory is exactly `B` and whose byte length is
the length of `B`; the view is left off-heap with no inline elements and with
its data pointer at offset 0 of the buffer's data pointer, which is the start
of that store when `B` is not empty and the empty-store sentinel when `B` is
empty (the store is then the empty region); and a second `GetBuffer` on the
view returns the same buffer and leaves the isolate and the view as they
are. -/
theorem C17_promotion (cfg : Config) (alloc : Allocator) (iso : Isolate) (self : JSTypedArray)
    (B : List Nat)
    (hheap : self.on_heap = true) (hdata : self.DataPtr = B)
    (hlength : self.byte_length = B.length)
    (hresizable : self.buffer.is_resizable = false) (hempty : self.buffer.IsEmpty iso = true)
    (halloc : (BackingStore.Allocate alloc self.byte_length SharedFlag.kNotShared).isSome = true)
    (hmax : self.byte_length ≤ cfg.kMaxByteLength) :
    ∃ iso1 self1 buffer s,
      self.GetBuffer cfg alloc iso = .ok (iso1, self1, buffer) ∧
      buffer = self1.buffer ∧
      buffer = AttachedBuffer cfg iso
        (InitialisedBuffer cfg self.buffer SharedFlag.kNotShared ResizableFlag.kNotResizable) s ∧
      GetBackingStore iso1 buffer = some s ∧
      s.is_shared = false ∧ s.is_resizable = false ∧ s.memory = B ∧ s.byte_length = B.length ∧
      buffer.is_shared = false ∧ buffer.is_resizable = false ∧ buffer.was_detached = false ∧
      buffer.byte_length = B.length ∧
      self1.on_heap = false ∧ self1.elements = [] ∧
      self1.data_pointer = buffer.backing_store + 0 ∧
      buffer.backing_store = (if s.IsEmpty then cfg.EmptyBackingStoreBuffer else s.buffer_start) ∧
      (B ≠ [] → s.IsEmpty = false ∧ s.buffer_start ≠ 0 ∧
        self1.data_pointer = s.buffer_start + 0) ∧
      (B = [] → s.IsEmpty = true ∧ self1.data_pointer = cfg.EmptyBackingStoreBuffer + 0) ∧
      self1.GetBuffer cfg alloc iso1 = .ok (iso1, self1, buffer) := by
  obtain ⟨store, halloc⟩ := Option.isSome_iff_exists.mp halloc
  obtain ⟨h1, _, h3, h4, _, _, _, h8, _⟩ := Allocate_some alloc _ store halloc
  have hie := Allocate_IsEmpty alloc _ store halloc
  have hget := GetBuffer_on_heap cfg alloc iso self store hheap (by rw [hdata]; exact hlength)
    hresizable hempty halloc hmax
  refine ⟨_, _, _, { store with memory := self.DataPtr }, hget, rfl, rfl,
    GetBackingStore_first_attach cfg iso _ _ rfl, h3, h4, hdata, h1.trans hlength, ?_, ?_, ?_, ?_,
    rfl, rfl, rfl, rfl, ?_, ?_, ?_⟩
  · rfl
  · rfl
  · rfl
  · exact h1.trans hlength
  · intro hB
    have hne : ¬ self.byte_length = 0 := by
      rw [hlength]
      exact fun h => hB (List.length_eq_zero.mp h)
    have he : store.IsEmpty = false := by rw [hie]; exact decide_eq_false hne
    refine ⟨he, h8 he, ?_⟩
    show (if store.IsEmpty = true then _ else _) + 0 = _
    rw [he]
    rfl
  · intro hB
    have he : store.IsEmpty = true := by
      rw [hie, hlength, hB]
      rfl
    refine ⟨he, ?_⟩
    show (if store.IsEmpty = true then _ else _) + 0 = _
    rw [he]
    rfl
  · unfold JSTypedArray.GetBuffer
    rfl

/-- C17 at concrete inputs: the inline bytes `1, 2, 3, 4`. -/
theorem C17_promotion_witness :
    (onHeapView.on_heap = true ∧ onHeapView.DataPtr = [1, 2, 3, 4] ∧
      onHeapView.buffer.IsEmpty freshIsolate = true ∧
      (BackingStore.Allocate sampleAllocator 4 SharedFlag.kNotShared).isSome = true) ∧
    ∃ iso1 self1 buffer s,
      onHeapView.GetBuffer debugBuild sampleAllocator freshIsolate = .ok (iso1, self1, buffer) ∧
      GetBackingStore iso1 buffer = some s ∧ s.memory = [1, 2, 3, 4] ∧ s.byte_length = 4 ∧
      self1.on_heap = false ∧ self1.data_pointer = 5000 ∧
      self1.GetBuffer debugBuild sampleAllocator iso1 = .ok (iso1, self1, buffer) := by
  refine ⟨by decide, ?_⟩
  obtain ⟨iso1, self1, buffer, s, h1, _, hb, h2, _, _, h3, h4, _, _, _, _, h5, _, h6, _, _, _,
      h7⟩ :=
    C17_promotion debugBuild sampleAllocator freshIsolate onHeapView [1, 2, 3, 4]
      (by decide) (by decide) (by decide) (by decide) (by decide) (by decide) (by decide)
  refine ⟨iso1, self1, buffer, s, h1, h2, h3, h4, h5, ?_, h7⟩
  have e : onHeapView.GetBuffer debugBuild sampleAllocator freshIsolate =
      .ok (PromotedIsolate debugBuild freshIsolate onHeapView
          { buffer_start := 5000, byte_length := 4, max_byte_length := 4, is_shared := false,
            is_resizable := false, is_wasm_memory := false, free_on_destruct := true,
            IsEmpty := false, PerIsolateAccountingLength := 4 },
        PromotedView debugBuild freshIsolate onHeapView
          { buffer_start := 5000, byte_length := 4, max_byte_length := 4, is_shared := false,
            is_resizable := false, is_wasm_memory := false, free_on_destruct := true,
            IsEmpty := false, PerIsolateAccountingLength := 4 },
        PromotedBuffer debugBuild freshIsolate onHeapView
          { buffer_start := 5000, byte_length := 4, max_byte_length := 4, is_shared := false,
            is_resizable := false, is_wasm_memory := false, free_on_destruct := true,
            IsEmpty := false, PerIsolateAccountingLength := 4 }) := by decide
  rw [e] at h1
  cases h1
  rfl

end V8
